import Mathlib

/-!
# DSWifi, ARM9 side: beacon construction and data-frame transmission

A shallow embedding of `source/arm9/beacon.c`, `source/arm9/wifi_arm9.c` and
`source/arm9/ipc.c`.  Bytes, halfwords and words are natural numbers; every store
into a `u8`, `u16` or `u32` location reduces modulo `2^8`, `2^16` or `2^32`.
Arrays that live in the shared structure are functions from the index to the
element.  Multi-byte values are laid out little-endian, as on the ARM9.
-/

namespace DSWifi

/-! ## Constants of headers that are not among the source files -/

/-- Modelled from the spec: `sizeof(Wifi_TxHeader)` in `common/common_defs.h`, the
hardware TX header of six halfwords that precedes every frame. -/
def HDR_TX_SIZE : Nat := 12

/-- Modelled from the spec: `sizeof(IEEE_MgtFrameHeader)` in `common/ieee_defs.h`
(frame control, duration, three addresses, sequence control). -/
def HDR_MGT_MAC_SIZE : Nat := 24

/-- Modelled from the spec: `sizeof(IEEE_DataFrameHeader)` in `common/ieee_defs.h`. -/
def HDR_DATA_MAC_SIZE : Nat := 24

/-- Modelled from the spec: `sizeof(sgIP_Header_Ethernet)`: two 6-byte addresses and a
2-byte protocol field. -/
def SIZEOF_ETH : Nat := 14

/-- Modelled from the spec: `WIFI_TXBUFFER_SIZE` in `common/wifi_shared.h`, the size in
bytes of the TX ring. -/
def WIFI_TXBUFFER_SIZE : Nat := 1024 * 24

/-- Modelled from the spec: `WIFI_RXBUFFER_SIZE` in `common/wifi_shared.h`, the size in
bytes of the RX ring. -/
def WIFI_RXBUFFER_SIZE : Nat := 1024 * 12

/-- Modelled from the spec: `sizeof(WifiData->ssid9)`, a length byte, 32 characters and
one spare byte (`char ssid9[34]` in `common/wifi_shared.h`). -/
def SIZEOF_SSID9 : Nat := 34

/-- Modelled from the spec: `WIFI_TRANSFER_RATE_2MBPS`, the hardware code of 2 Mbit/s. -/
def WIFI_TRANSFER_RATE_2MBPS : Nat := 0x14

/-- Modelled from the spec: frame control value of a beacon (management type,
subtype 8) from `common/ieee_defs.h`. -/
def TYPE_BEACON : Nat := 0x0080

/-- Modelled from the spec: frame control value of a data frame (type 2, subtype 0). -/
def TYPE_DATA : Nat := 0x0008

/-- Modelled from the spec: mask of the type and subtype bits of the frame control. -/
def FC_TYPE_SUBTYPE_MASK : Nat := 0x00FC

/-- Modelled from the spec: the to-DS bit of the frame control. -/
def FC_TO_DS : Nat := 0x0100

/-- Modelled from the spec: the from-DS bit of the frame control. -/
def FC_FROM_DS : Nat := 0x0200

/-- Modelled from the spec: the protected-frame bit of the frame control. -/
def FC_PROTECTED_FRAME : Nat := 0x4000

/-- Modelled from the spec: element ID of the SSID information element. -/
def MGT_FIE_ID_SSID : Nat := 0

/-- Modelled from the spec: element ID of the supported-rates element. -/
def MGT_FIE_ID_SUPPORTED_RATES : Nat := 1

/-- Modelled from the spec: element ID of the DS parameter set element. -/
def MGT_FIE_ID_DS_PARAM_SET : Nat := 3

/-- Modelled from the spec: element ID of the traffic indication map element. -/
def MGT_FIE_ID_TIM : Nat := 5

/-- Modelled from the spec: element ID of a vendor-specific element. -/
def MGT_FIE_ID_VENDOR : Nat := 221

/-- Modelled from the spec: the ESS bit of the capability field. -/
def CAPS_ESS : Nat := 0x0001

/-- Modelled from the spec: the "mandatory" (basic rate) bit of a rate byte. -/
def RATE_MANDATORY : Nat := 0x80

/-- Modelled from the spec: 1 Mbit/s in units of 500 kbit/s. -/
def RATE_1_MBPS : Nat := 2

/-- Modelled from the spec: 2 Mbit/s in units of 500 kbit/s. -/
def RATE_2_MBPS : Nat := 4

/-- Modelled from the spec: index of the queued-packets counter in `enum WIFI_STATS`. -/
def WSTAT_TXQUEUEDPACKETS : Nat := 1

/-- Modelled from the spec: index of the queued-bytes counter in `enum WIFI_STATS`. -/
def WSTAT_TXQUEUEDBYTES : Nat := 3

/-- Modelled from the spec: the network-up bit of `flags9`. -/
def WFLAG_ARM9_NETUP : Nat := 0x0008

/-- Modelled from the spec: the ad-hoc (peer-to-peer) bit of the request flags. -/
def WFLAG_REQ_APADHOC : Nat := 0x0008

/-- Modelled from the spec: `HDR_RX_SIZE`, the size of the hardware RX header of six
halfwords that precedes every received frame. -/
def HDR_RX_SIZE : Nat := 12

/-- Modelled from the spec: `HDR_RX_IEEE_FRAME_SIZE`, the byte offset of the frame length
in the hardware RX header. -/
def HDR_RX_IEEE_FRAME_SIZE : Nat := 8

/-- Modelled from the spec: `HDR_MGT_FRAME_CONTROL`, the byte offset of the frame control
in an IEEE 802.11 header. -/
def HDR_MGT_FRAME_CONTROL : Nat := 0

/-- Modelled from the spec: the bit of `flags9` that records that the ARM7 is ready. -/
def WFLAG_ARM9_ARM7READY : Nat := 0x0004

/-- Modelled from the spec: the bit of `flags7` that the hardware side sets when active. -/
def WFLAG_ARM7_ACTIVE : Nat := 0x0001

/-- Modelled from the spec: `WIFI_AUTHLEVEL_ASSOCIATED` of `enum WIFI_AUTHLEVEL`
(disconnected, authenticated, associated, deassociated). -/
def WIFI_AUTHLEVEL_ASSOCIATED : Nat := 2

/-- Modelled from the spec: the bit of `flags9` by which the host side marks itself
active (`common/wifi_shared.h`). -/
def WFLAG_ARM9_ACTIVE : Nat := 0x0001

/-- Modelled from the spec: the bits of `initflags` that `Wifi_Init` copies into `flags9`
(the LED option). -/
def WFLAG_ARM9_INITFLAGMASK : Nat := 0x0002

/-- Modelled from the spec: `WIFIMODE_DISABLED` of `enum WIFI_MODE` (disabled, normal,
scan, ...). -/
def WIFIMODE_DISABLED : Nat := 0

/-- Modelled from the spec: `WIFIMODE_NORMAL` of `enum WIFI_MODE`. -/
def WIFIMODE_NORMAL : Nat := 1

/-- Modelled from the spec: `WIFIMODE_SCAN` of `enum WIFI_MODE`. -/
def WIFIMODE_SCAN : Nat := 2

/-- Modelled from the spec: the connect-to-AP bit of the request flags. -/
def WFLAG_REQ_APCONNECT : Nat := 0x0001

/-- Modelled from the spec: the promiscuous-mode bit of the request flags. -/
def WFLAG_REQ_PROMISC : Nat := 0x0010

/-! ## Machine integers and memory -/

/-- Value kept by a store into a `u8` (or `char`) location. -/
def u8 (x : Nat) : Nat := x % 256

/-- Value kept by a store into a `u16` location. -/
def u16 (x : Nat) : Nat := x % 65536

/-- Value kept by a store into a `u32` location. -/
def u32 (x : Nat) : Nat := x % 4294967296

/-- Little-endian bytes of a halfword in memory. -/
def le16 (x : Nat) : List Nat := [x % 256, x / 256 % 256]

/-- Array store `a[i] = v`. -/
def upd (a : Nat → Nat) (i v : Nat) : Nat → Nat := fun j => if j = i then v else a j

/-- A MAC address as the three halfwords that `Wifi_CopyMacAddr` moves. -/
structure Mac where
  h0 : Nat
  h1 : Nat
  h2 : Nat
deriving DecidableEq, Repr

/-- Six bytes of a MAC address in memory. -/
def Mac.bytes (m : Mac) : List Nat := le16 m.h0 ++ le16 m.h1 ++ le16 m.h2

/-- The function `Wifi_CopyMacAddr`: `d[0] = s[0]; d[1] = s[1]; d[2] = s[2];` on halfwords;
the result is the new content of the destination. -/
def Wifi_CopyMacAddr (src : Mac) : Mac := { h0 := src.h0, h1 := src.h1, h2 := src.h2 }

/-- Memory seen through a non-NULL `const char *`: the bytes `chars`, the terminating
zero byte, and then whatever memory follows the string. -/
structure CString where
  chars : List Nat
  after : Nat → Nat

/-- Byte `p[i]`. -/
def CString.get (p : CString) (i : Nat) : Nat :=
  if i < p.chars.length then p.chars.getD i 0
  else if i = p.chars.length then 0
  else p.after (i - p.chars.length - 1)

/-- The libc function `strlen`: the number of bytes before the first zero byte. -/
def strlen (p : CString) : Nat := (p.chars.takeWhile (fun c => c != 0)).length

/-- A string whose characters are non-zero bytes, so that its terminator is the zero
byte that follows `chars`. -/
def CString.valid (p : CString) : Prop := ∀ c ∈ p.chars, 0 < c ∧ c < 256

instance (p : CString) : Decidable p.valid := by
  unfold CString.valid; infer_instance

/-! ## The shared structure and the ARM9 globals -/

/-- The fields of `Wifi_MainStruct` (`common/wifi_shared.h`) that the ARM9 sources use. -/
structure Wifi_MainStruct where
  curChannel : Nat
  reqChannel : Nat
  curMode : Nat
  reqMode : Nat
  authlevel : Nat
  flags9 : Nat
  flags7 : Nat
  curReqFlags : Nat
  reqReqFlags : Nat
  MacAddr : Mac
  bssid7 : Mac
  wepmode7 : Nat
  ssid9 : Nat → Nat
  curMaxGuests : Nat
  wfc_enable : Nat → Nat
  rxbufIn : Nat
  rxbufOut : Nat
  rxbufData : Nat → Nat
  txbufIn : Nat
  txbufOut : Nat
  txbufData : Nat → Nat
  stats : Nat → Nat
  random : Nat

/-- The structure after `memset(..., 0, sizeof(Wifi_MainStruct))`. -/
def Wifi_MainStruct.zero : Wifi_MainStruct :=
  { curChannel := 0, reqChannel := 0, curMode := 0, reqMode := 0, authlevel := 0,
    flags9 := 0, flags7 := 0, curReqFlags := 0, reqReqFlags := 0,
    MacAddr := { h0 := 0, h1 := 0, h2 := 0 }, bssid7 := { h0 := 0, h1 := 0, h2 := 0 },
    wepmode7 := 0, ssid9 := fun _ => 0, curMaxGuests := 0, wfc_enable := fun _ => 0,
    rxbufIn := 0, rxbufOut := 0, rxbufData := fun _ => 0,
    txbufIn := 0, txbufOut := 0, txbufData := fun _ => 0,
    stats := fun _ => 0, random := 0 }

/-- An Ethernet frame in a memory block, as `Wifi_sgIpHandlePackage` hands it to
`sgIP_Hub_ReceiveHardwarePacket`: the `sgIP_Header_Ethernet` and the data behind it. -/
structure RxPacket where
  dest_mac : Mac
  src_mac : Mac
  protocol : Nat
  payload : List Nat

/-- State of the ARM9 side: the live shared structure behind `WifiData`, whether a sync
handler is registered (`synchandler != NULL`), how often the handler has been invoked,
and how many memory-block chains have been handed to `sgIP_memblock_free`.  Further:
`live` says that `WifiData` is not NULL; `packethandler` that a raw packet handler is
registered, `handlerCalls` the arguments of its invocations; `allocOk n size` whether the
`n`-th call of `sgIP_memblock_allocHW` succeeds, `heap0` what fresh memory holds,
`allocs` the number of such calls; `delivered` the frames handed to
`sgIP_Hub_ReceiveHardwarePacket`; `hwAdded` the calls of `sgIP_Hub_AddHardwareInterface`
and `sgIP_timems` the variable of that name; `Wifi_Data_Struct` the static pointer of
`ipc.c` to the allocated structure (0 is NULL; pointers are 32-bit values). -/
structure Arm9 where
  WifiData : Wifi_MainStruct
  synchandler : Bool
  syncCalls : Nat
  freed : Nat
  live : Bool := true
  packethandler : Bool := false
  handlerCalls : List (Nat × Nat) := []
  allocOk : Nat → Nat → Bool := fun _ _ => true
  heap0 : Nat → Nat := fun _ => 0
  allocs : Nat := 0
  delivered : List RxPacket := []
  hwAdded : Nat := 0
  sgIP_timems : Nat := 0
  Wifi_Data_Struct : Nat := 0x02100000

/-- The function `Wifi_CallSyncHandler` of `ipc.c`: `if (synchandler) synchandler();`. -/
def Wifi_CallSyncHandler (st : Arm9) : Arm9 :=
  if st.synchandler then { st with syncCalls := st.syncCalls + 1 } else st

/-! ## The TX ring (`arm9/rx_tx_queue.c` is not among the source files) -/

/-- Halfword `k` of a byte buffer read as `u16 *`. -/
def hword (src : Nat → Nat) (k : Nat) : Nat := src (2 * k) % 256 + 256 * (src (2 * k + 1) % 256)

/-- Store of the first `n` halfwords of `src` into a ring of `cap` halfwords, starting at
halfword `base` and wrapping at the end of the ring. -/
def ringStore (cap : Nat) (ring : Nat → Nat) (base : Nat) (src : Nat → Nat) : Nat → (Nat → Nat)
  | 0 => ring
  | k + 1 => upd (ringStore cap ring base src k) ((base + k) % cap) (hword src k)

/-- Modelled from the spec: `Wifi_TxBufferWrite(base, size_bytes, src)` of
`arm9/rx_tx_queue.c`, the `write(offset_override, data)` of the TX ring.  The ring is
addressed in halfwords, so the size is rounded up to a whole halfword, and the write
wraps around at the end of the ring. -/
def Wifi_TxBufferWrite (w : Wifi_MainStruct) (base size_bytes : Nat) (src : Nat → Nat) :
    Wifi_MainStruct :=
  { w with txbufData :=
      ringStore (WIFI_TXBUFFER_SIZE / 2) w.txbufData (base / 2) src ((size_bytes + 1) / 2) }

/-- Modelled from the spec: `Wifi_TxBufferBytesAvailable()` of `arm9/rx_tx_queue.c`, the
`bytes_available()` of the TX ring: the capacity minus the halfwords between the cursor
of the hardware side (`txbufIn`) and the cursor of the producer (`txbufOut`), one
halfword being kept free so that a full ring differs from an empty one. -/
def Wifi_TxBufferBytesAvailable (w : Wifi_MainStruct) : Nat :=
  ((w.txbufIn + WIFI_TXBUFFER_SIZE / 2 - 1 - w.txbufOut % (WIFI_TXBUFFER_SIZE / 2))
      % (WIFI_TXBUFFER_SIZE / 2)) * 2

/-- Byte at byte offset `off` of the TX ring. -/
def txByte (w : Wifi_MainStruct) (off : Nat) : Nat :=
  (w.txbufData ((off / 2) % (WIFI_TXBUFFER_SIZE / 2)) / (if off % 2 = 0 then 1 else 256)) % 256

/-- The `len` bytes of the TX ring that start at byte offset `off`, with wraparound. -/
def txBytes (w : Wifi_MainStruct) (off len : Nat) : List Nat :=
  (List.range len).map (fun j => txByte w (off + j))

/-- The step `if (base >= (WIFI_TXBUFFER_SIZE / 2)) base -= WIFI_TXBUFFER_SIZE / 2;`. -/
def txWrap (base : Nat) : Nat :=
  if base ≥ WIFI_TXBUFFER_SIZE / 2 then base - WIFI_TXBUFFER_SIZE / 2 else base

/-! ## The RX ring (`arm9/rx_tx_queue.c` is not among the source files) -/

/-- Modelled from the spec: `Wifi_RxReadHWordOffset(base, offset)` of
`arm9/rx_tx_queue.c`, the `peek` of the RX ring: the halfword at byte offset
`base + offset`, with wraparound at the end of the ring. -/
def Wifi_RxReadHWordOffset (w : Wifi_MainStruct) (base offset : Nat) : Nat :=
  u16 (w.rxbufData (((base + offset) / 2) % (WIFI_RXBUFFER_SIZE / 2)))

/-- Modelled from the spec: `Wifi_RxRawReadPacket(base, size_bytes, dst)` of
`arm9/rx_tx_queue.c`, the `read_into` of the RX ring: the size is rounded up to whole
halfwords, which are copied from byte offset `base` on with wraparound.  The result is
the byte content of `dst` after the call. -/
def Wifi_RxRawReadPacket (w : Wifi_MainStruct) (base size_bytes : Nat) (dst : Nat → Nat) :
    Nat → Nat :=
  fun j =>
    if j / 2 < (size_bytes + 1) / 2 then
      (w.rxbufData ((base / 2 + j / 2) % (WIFI_RXBUFFER_SIZE / 2))
        / (if j % 2 = 0 then 1 else 256)) % 256
    else dst j

/-- Byte at byte offset `off` of the RX ring. -/
def rxByte (w : Wifi_MainStruct) (off : Nat) : Nat :=
  (w.rxbufData ((off / 2) % (WIFI_RXBUFFER_SIZE / 2)) / (if off % 2 = 0 then 1 else 256)) % 256

/-- The `len` bytes of the RX ring that start at byte offset `off`, with wraparound. -/
def rxBytes (w : Wifi_MainStruct) (off len : Nat) : List Nat :=
  (List.range len).map (fun j => rxByte w (off + j))

/-- The step `if (base >= (WIFI_RXBUFFER_SIZE / 2)) base -= WIFI_RXBUFFER_SIZE / 2;`. -/
def rxWrap (base : Nat) : Nat :=
  if base ≥ WIFI_RXBUFFER_SIZE / 2 then base - WIFI_RXBUFFER_SIZE / 2 else base

/-! ## `beacon.c` -/

/-- The structure `Wifi_TxHeader`, six halfwords. -/
structure Wifi_TxHeader where
  enable_flags : Nat
  unknown : Nat
  countup : Nat
  beaconfreq : Nat
  tx_rate : Nat
  tx_length : Nat
deriving DecidableEq, Repr

/-- Bytes of a `Wifi_TxHeader` in memory. -/
def Wifi_TxHeader.bytes (t : Wifi_TxHeader) : List Nat :=
  le16 t.enable_flags ++ le16 t.unknown ++ le16 t.countup ++ le16 t.beaconfreq
    ++ le16 t.tx_rate ++ le16 t.tx_length

/-- A `Wifi_TxHeader` after `memset(tx, 0, sizeof(Wifi_TxHeader))`. -/
def Wifi_TxHeader.zero : Wifi_TxHeader :=
  { enable_flags := 0, unknown := 0, countup := 0, beaconfreq := 0, tx_rate := 0, tx_length := 0 }

/-- The structure `IEEE_MgtFrameHeader` without its flexible `body`. -/
structure IEEE_MgtFrameHeader where
  frame_control : Nat
  duration : Nat
  da : Mac
  sa : Mac
  bssid : Mac
  seq_ctl : Nat
deriving DecidableEq, Repr

/-- Bytes of an `IEEE_MgtFrameHeader` in memory. -/
def IEEE_MgtFrameHeader.bytes (h : IEEE_MgtFrameHeader) : List Nat :=
  le16 h.frame_control ++ le16 h.duration ++ h.da.bytes ++ h.sa.bytes ++ h.bssid.bytes
    ++ le16 h.seq_ctl

/-- The structure `FieVendorNintendo` of `beacon.c` (26 bytes), with `extra_data` of type
`DSWifiExtraData` flattened into its two bytes. -/
structure FieVendorNintendo where
  oui : List Nat
  oui_type : Nat
  stepping_offset : List Nat
  lcd_video_sync : List Nat
  fixed_id : List Nat
  game_id : List Nat
  stream_code : List Nat
  extra_data_size : Nat
  beacon_type : Nat
  cmd_data_size : List Nat
  reply_data_size : List Nat
  players_max : Nat
  players_current : Nat
deriving DecidableEq, Repr

/-- Bytes of a `FieVendorNintendo` in memory, in declaration order. -/
def FieVendorNintendo.bytes (f : FieVendorNintendo) : List Nat :=
  f.oui ++ [f.oui_type] ++ f.stepping_offset ++ f.lcd_video_sync ++ f.fixed_id ++ f.game_id
    ++ f.stream_code ++ [f.extra_data_size, f.beacon_type] ++ f.cmd_data_size
    ++ f.reply_data_size ++ [f.players_max, f.players_current]

/-- A `FieVendorNintendo` after `memset(fie, 0, sizeof(FieVendorNintendo))`. -/
def FieVendorNintendo.zero : FieVendorNintendo :=
  { oui := [0, 0, 0], oui_type := 0, stepping_offset := [0, 0], lcd_video_sync := [0, 0],
    fixed_id := [0, 0, 0, 0], game_id := [0, 0, 0, 0], stream_code := [0, 0],
    extra_data_size := 0, beacon_type := 0, cmd_data_size := [0, 0],
    reply_data_size := [0, 0], players_max := 0, players_current := 0 }

/-- Size of `DSWifiExtraData`: two `u8` fields. -/
def SIZEOF_DSWifiExtraData : Nat := 2

/-- Size of `FieVendorNintendo`, as the `static_assert` of `beacon.c` states it. -/
def SIZEOF_FieVendorNintendo : Nat := 26

/-- Lines 50 to 54 of `beacon.c`: the writes of `Wifi_BeaconStart` to `WifiData->ssid9`. -/
def beacon_ssid9 (old : Nat → Nat) (ssid : CString) (ssid_len : Nat) : Nat → Nat :=
  let a1 := (List.range SIZEOF_SSID9).foldl (fun a i => upd a i (u8 (ssid.get i))) old
  let a2 := upd a1 0 (u8 ssid_len)
  (List.range ssid_len).foldl (fun a i => upd a (1 + i) (u8 (ssid.get i))) a2

/-- Lines 59 to 78 of `beacon.c`: the hardware TX header before `tx_length` is known. -/
def beacon_tx : Wifi_TxHeader :=
  { Wifi_TxHeader.zero with tx_rate := u16 WIFI_TRANSFER_RATE_2MBPS }

/-- Lines 72 to 78 of `beacon.c`: the IEEE 802.11 management header of the beacon. -/
def beacon_ieee (w : Wifi_MainStruct) : IEEE_MgtFrameHeader :=
  let broadcast_address : Mac := { h0 := 0xFFFF, h1 := 0xFFFF, h2 := 0xFFFF }
  { frame_control := u16 TYPE_BEACON
    duration := 0
    da := Wifi_CopyMacAddr broadcast_address
    sa := Wifi_CopyMacAddr w.MacAddr
    bssid := Wifi_CopyMacAddr w.MacAddr
    seq_ctl := 0 }

/-- Lines 148 to 159 of `beacon.c`: the vendor payload. -/
def beacon_fie (w : Wifi_MainStruct) (game_id : Nat) : FieVendorNintendo :=
  { FieVendorNintendo.zero with
    oui := [0x00, 0x09, 0xBF]
    oui_type := 0x00
    game_id := [(game_id >>> 24) &&& 0xFF, (game_id >>> 16) &&& 0xFF,
                (game_id >>> 8) &&& 0xFF, (game_id >>> 0) &&& 0xFF]
    extra_data_size := u8 SIZEOF_DSWifiExtraData
    beacon_type := 1
    players_max := u8 (w.curMaxGuests + 1)
    players_current := 1 }

/-- Lines 83 to 161 of `beacon.c`: the bytes stored through `body`, and the value of
`body_size` that the code accumulates next to them. -/
def beacon_body (w : Wifi_MainStruct) (ssid : CString) (ssid_len game_id : Nat) :
    List Nat × Nat :=
  -- Timestamp
  let body := List.replicate 8 0
  let body_size := 0 + 8
  -- Beacon interval
  let body := body ++ le16 100
  let body_size := body_size + 2
  -- Capability info
  let body := body ++ le16 CAPS_ESS
  let body_size := body_size + 2
  -- SSID
  let body := if ssid_len > 0 then
      body ++ [u8 MGT_FIE_ID_SSID, u8 ssid_len]
        ++ (List.range ssid_len).map (fun i => u8 (ssid.get i))
    else body
  let body_size := if ssid_len > 0 then body_size + (2 + ssid_len) else body_size
  -- Supported rates
  let body := body ++ [u8 MGT_FIE_ID_SUPPORTED_RATES, 2,
    u8 (RATE_MANDATORY ||| RATE_2_MBPS), u8 (RATE_MANDATORY ||| RATE_1_MBPS)]
  let body_size := body_size + 4
  -- DS parameter set (WiFi channel)
  let body := body ++ [u8 MGT_FIE_ID_DS_PARAM_SET, 1, u8 w.curChannel]
  let body_size := body_size + 3
  -- TIM
  let body := body ++ [u8 MGT_FIE_ID_TIM, 6] ++ List.replicate 6 0
  let body_size := body_size + 8
  -- Vendor (Nintendo)
  let body := body ++ [u8 MGT_FIE_ID_VENDOR, u8 SIZEOF_FieVendorNintendo]
  let body_size := body_size + 2
  let body := body ++ (beacon_fie w game_id).bytes
  let body_size := body_size + SIZEOF_FieVendorNintendo
  (body, body_size)

/-- The bytes that `Wifi_BeaconStart` has stored into `data` when the frame is complete:
hardware TX header with `tx_length` filled in, IEEE header, body. -/
def beacon_frame (w : Wifi_MainStruct) (ssid : CString) (ssid_len game_id : Nat) : List Nat :=
  let body_size := (beacon_body w ssid ssid_len game_id).2
  let tx : Wifi_TxHeader :=
    { beacon_tx with tx_length := u16 (HDR_MGT_MAC_SIZE + body_size + 4) }
  tx.bytes ++ (beacon_ieee w).bytes ++ (beacon_body w ssid ssid_len game_id).1

/-- The buffer `data` when it is handed to `Wifi_TxBufferWrite`: the bytes that were
stored, followed by what the uninitialised array `u8 data[512]` held before. -/
def beacon_data (w : Wifi_MainStruct) (data0 : Nat → Nat) (ssid : CString)
    (ssid_len game_id : Nat) : Nat → Nat :=
  let stored := beacon_frame w ssid ssid_len game_id
  fun i => if i < stored.length then stored.getD i 0 else u8 (data0 i)

/-- The function `Wifi_BeaconStart(ssid, game_id)`.  `data0` is the content of the
uninitialised local array `data`; `ssid = none` is the NULL pointer.  The result is
`none` when the code reads through the NULL pointer, and otherwise the returned `int`
with the state after the call. -/
def Wifi_BeaconStart (st : Arm9) (data0 : Nat → Nat) (ssid : Option CString)
    (game_id : Nat) : Option (Int × Arm9) :=
  let ssid_len := match ssid with
    | none => 0
    | some p => strlen p
  if ssid_len > 32 then some (-1, st)
  else match ssid with
    | none => none
    | some p =>
      let w := st.WifiData
      let w := { w with ssid9 := beacon_ssid9 w.ssid9 p ssid_len }
      let hdr_size := HDR_TX_SIZE + HDR_MGT_MAC_SIZE
      let body_size := (beacon_body w p ssid_len game_id).2
      let data := beacon_data w data0 p ssid_len game_id
      let base := w.txbufOut
      let w := Wifi_TxBufferWrite w (base * 2) (hdr_size + body_size) data
      let base := base + (hdr_size + body_size + 1) / 2
      let base := txWrap base
      let w := { w with txbufOut := u32 base }
      let w := { w with stats := upd w.stats WSTAT_TXQUEUEDPACKETS
                          (u32 (w.stats WSTAT_TXQUEUEDPACKETS + 1)) }
      let w := { w with stats := upd w.stats WSTAT_TXQUEUEDBYTES
                          (u32 (w.stats WSTAT_TXQUEUEDBYTES + (hdr_size + body_size))) }
      some (0, Wifi_CallSyncHandler { st with WifiData := w })

/-! ## `wifi_arm9.c`: transmission of an Ethernet frame -/

/-- The structure `IEEE_DataFrameHeader` without its flexible `body`. -/
structure IEEE_DataFrameHeader where
  frame_control : Nat
  duration : Nat
  addr_1 : Mac
  addr_2 : Mac
  addr_3 : Mac
  seq_ctl : Nat
deriving DecidableEq, Repr

/-- Bytes of an `IEEE_DataFrameHeader` in memory. -/
def IEEE_DataFrameHeader.bytes (h : IEEE_DataFrameHeader) : List Nat :=
  le16 h.frame_control ++ le16 h.duration ++ h.addr_1.bytes ++ h.addr_2.bytes
    ++ h.addr_3.bytes ++ le16 h.seq_ctl

/-- One `sgIP_memblock`: its `totallength` and `thislength` fields and the bytes at
`datastart` (`datastart i` is `mb->datastart[i]`, also past `thislength`).  The chain
behind `mb->next` is passed next to the block as a list. -/
structure sgIP_memblock where
  totallength : Nat
  thislength : Nat
  datastart : Nat → Nat

/-- The field `eth->dest_mac` of the Ethernet header at `mb->datastart`, read as three
halfwords by `Wifi_CopyMacAddr`. -/
def eth_dest_mac (mb : sgIP_memblock) : Mac :=
  { h0 := hword mb.datastart 0, h1 := hword mb.datastart 1, h2 := hword mb.datastart 2 }

/-- The field `eth->protocol` of the Ethernet header at `mb->datastart` (bytes 12, 13). -/
def eth_protocol (mb : sgIP_memblock) : Nat := hword mb.datastart 6

/-- Value kept by a store of an `int` into a `u16` location. -/
def u16i (x : Int) : Nat := (x % 65536).toNat

/-- Value kept by a store of an `int` into a `u32` location. -/
def u32i (x : Int) : Nat := (x % 4294967296).toNat

/-- Line 185 of `wifi_arm9.c`: `framelen`. -/
def tx_framelen (w : Wifi_MainStruct) (mb : sgIP_memblock) : Int :=
  (mb.totallength : Int) - SIZEOF_ETH + 8 + (if w.wepmode7 ≠ 0 then 4 else 0)

/-- Lines 222 to 252 of `wifi_arm9.c`: the IEEE 802.11 data header. -/
def tx_ieee (w : Wifi_MainStruct) (mb : sgIP_memblock) : IEEE_DataFrameHeader :=
  let ieee : IEEE_DataFrameHeader :=
    if w.curReqFlags &&& WFLAG_REQ_APADHOC ≠ 0 then
      { frame_control := u16 TYPE_DATA
        duration := 0
        addr_1 := Wifi_CopyMacAddr (eth_dest_mac mb)
        addr_2 := Wifi_CopyMacAddr w.MacAddr
        addr_3 := Wifi_CopyMacAddr w.bssid7
        seq_ctl := 0 }
    else
      { frame_control := u16 (FC_TO_DS ||| TYPE_DATA)
        duration := 0
        addr_1 := Wifi_CopyMacAddr w.bssid7
        addr_2 := Wifi_CopyMacAddr w.MacAddr
        addr_3 := Wifi_CopyMacAddr (eth_dest_mac mb)
        seq_ctl := 0 }
  if w.wepmode7 ≠ 0 then
    { ieee with frame_control := u16 (ieee.frame_control ||| FC_PROTECTED_FRAME) }
  else ieee

/-- Lines 222 and 251 of `wifi_arm9.c`: `hdrlen`. -/
def tx_hdrlen (w : Wifi_MainStruct) : Nat :=
  HDR_TX_SIZE + HDR_DATA_MAC_SIZE + (if w.wepmode7 ≠ 0 then 4 else 0)

/-- The array `framehdr` at the first `Wifi_TxBufferWrite`: the hardware TX header, the
IEEE header and, under WEP, the zeroed IV; what is left of the uninitialised array
(`hdr0`) follows. -/
def tx_framehdr (w : Wifi_MainStruct) (hdr0 : Nat → Nat) (mb : sgIP_memblock) : Nat → Nat :=
  let tx : Wifi_TxHeader :=
    { Wifi_TxHeader.zero with
      tx_length := u16i (tx_framelen w mb + tx_hdrlen w - HDR_TX_SIZE + 4) }
  let stored := tx.bytes ++ (tx_ieee w mb).bytes ++ (if w.wepmode7 ≠ 0 then [0, 0, 0, 0] else [])
  fun i => if i < stored.length then stored.getD i 0 else u8 (hdr0 i)

/-- Lines 270 to 273 of `wifi_arm9.c`: the array `framehdr` re-used for the LLC header. -/
def tx_llc (w : Wifi_MainStruct) (hdr0 : Nat → Nat) (mb : sgIP_memblock) : Nat → Nat :=
  let stored := le16 0xAAAA ++ le16 0x0003 ++ le16 0x0000 ++ le16 (eth_protocol mb)
  fun i => if i < stored.length then stored.getD i 0 else tx_framehdr w hdr0 mb i

/-- Lines 300 to 309 of `wifi_arm9.c`: the loop over the blocks behind `mb->next`. -/
def tx_blocks (w : Wifi_MainStruct) (base : Nat) : List sgIP_memblock → Wifi_MainStruct × Nat
  | [] => (w, base)
  | mb :: rest =>
    let writelen := mb.thislength
    let w := Wifi_TxBufferWrite w (base * 2) writelen mb.datastart
    let base := txWrap (base + (writelen + 1) / 2)
    tx_blocks w base rest

/-- Lines 259 to 321 of `wifi_arm9.c`: the ring writes of a queued frame and the cursor
that results. -/
def tx_ring (w : Wifi_MainStruct) (hdr0 : Nat → Nat) (mb : sgIP_memblock)
    (next : List sgIP_memblock) : Wifi_MainStruct × Nat :=
  let hdrlen := tx_hdrlen w
  let base := w.txbufOut
  let w1 := Wifi_TxBufferWrite w (base * 2) hdrlen (tx_framehdr w hdr0 mb)
  let base := txWrap (base + hdrlen / 2)
  -- Copy LLC header
  let w2 := Wifi_TxBufferWrite w1 (base * 2) 8 (tx_llc w hdr0 mb)
  let base := txWrap (base + 8 / 2)
  -- Copy data
  let writelen : Int := (mb.thislength : Int) - SIZEOF_ETH
  let r := if writelen > 0 then
      (Wifi_TxBufferWrite w2 (base * 2) writelen.toNat (fun i => mb.datastart (i + SIZEOF_ETH)),
        txWrap (base + ((writelen + 1) / 2).toNat))
    else (w2, base)
  let r := tx_blocks r.1 r.2 next
  let base := if w.wepmode7 ≠ 0 then txWrap (r.2 + 4 / 2) else r.2
  (r.1, base)

/-- Lines 256 and 257 of `wifi_arm9.c`: the two statistics counters of a queued frame. -/
def tx_stats (w : Wifi_MainStruct) (mb : sgIP_memblock) : Wifi_MainStruct :=
  let framelen := tx_framelen w mb
  let hdrlen := tx_hdrlen w
  let w := { w with stats := upd w.stats WSTAT_TXQUEUEDPACKETS
                      (u32 (w.stats WSTAT_TXQUEUEDPACKETS + 1)) }
  { w with stats := upd w.stats WSTAT_TXQUEUEDBYTES
                      (u32i (w.stats WSTAT_TXQUEUEDBYTES + (framelen + hdrlen))) }

/-- Number of halfwords by which lines 259 to 321 of `wifi_arm9.c` advance `base`: the
header block, the LLC header, every block of the chain rounded up to a halfword, and
the reservation for the WEP ICV. -/
def tx_halfwords (w : Wifi_MainStruct) (mb : sgIP_memblock) (next : List sgIP_memblock) : Nat :=
  tx_hdrlen w / 2 + 8 / 2
    + (if (mb.thislength : Int) - SIZEOF_ETH > 0
        then ((((mb.thislength : Int) - SIZEOF_ETH) + 1) / 2).toNat else 0)
    + (next.map (fun m => (m.thislength + 1) / 2)).sum
    + (if w.wepmode7 ≠ 0 then 4 / 2 else 0)

/-- Number of halfwords that lines 259 to 309 of `wifi_arm9.c` write to the ring: the
header block, the LLC header and every block of the chain rounded up to a halfword. -/
def tx_written_halfwords (w : Wifi_MainStruct) (mb : sgIP_memblock)
    (next : List sgIP_memblock) : Nat :=
  tx_hdrlen w / 2 + 8 / 2
    + (if (mb.thislength : Int) - SIZEOF_ETH > 0
        then ((((mb.thislength : Int) - SIZEOF_ETH) + 1) / 2).toNat else 0)
    + (next.map (fun m => (m.thislength + 1) / 2)).sum

/-- Number of blocks of odd length in a chain. -/
def tx_odd_blocks (mb : sgIP_memblock) (next : List sgIP_memblock) : Nat :=
  mb.thislength % 2 + (next.map (fun m => m.thislength % 2)).sum

/-- The function `Wifi_TransmitFunction(hw, mb)` (TCP/IP build).  `hdr0` is the content of
the uninitialised local array `framehdr`, `next` the chain behind `mb->next`.  The
result is the returned `int` and the state after the call. -/
def Wifi_TransmitFunction (st : Arm9) (hdr0 : Nat → Nat) (mb : sgIP_memblock)
    (next : List sgIP_memblock) : Int × Arm9 :=
  let w := st.WifiData
  let framelen := tx_framelen w mb
  if w.flags9 &&& WFLAG_ARM9_NETUP = 0 then
    (0, { st with freed := st.freed + 1 })
  else if framelen + 40 > (Wifi_TxBufferBytesAvailable w : Int) then
    (0, { st with freed := st.freed + 1 })
  else
    let w := tx_stats w mb
    let r := tx_ring w hdr0 mb next
    let w := { r.1 with txbufOut := u32 r.2 }
    let st := { st with WifiData := w, freed := st.freed + 1 }
    (0, Wifi_CallSyncHandler st)

/-! ## `wifi_arm9.c`: reception and `Wifi_Update` -/

/-- Modelled from the spec: `Wifi_CmpMacAddr(mac1, mac2)`, declared in
`arm7/wifi_arm7.h`: non-zero exactly when the three halfwords agree. -/
def Wifi_CmpMacAddr (mac1 mac2 : Mac) : Bool :=
  mac1.h0 == mac2.h0 && mac1.h1 == mac2.h1 && mac1.h2 == mac2.h2

/-- The MAC address whose first halfword is halfword `k` of a buffer. -/
def mac_at (buf : Nat → Nat) (k : Nat) : Mac :=
  { h0 := hword buf k, h1 := hword buf (k + 1), h2 := hword buf (k + 2) }

/-- Line 370 of `wifi_arm9.c`: the local array `framehdr` (48 bytes) after
`Wifi_RxRawReadPacket(base * 2, sizeof(framehdr), framehdr)`; every byte of the array is
overwritten. -/
def rx_framehdr (w : Wifi_MainStruct) (base : Nat) : Nat → Nat :=
  Wifi_RxRawReadPacket w (base * 2) ((HDR_RX_SIZE + HDR_DATA_MAC_SIZE + 8 + 4) / 2 * 2)
    (fun _ => 0)

/-- Lines 363 and 364 of `wifi_arm9.c`: the test on the frame control. -/
def rx_is_data (w : Wifi_MainStruct) (base : Nat) : Prop :=
  Wifi_RxReadHWordOffset w ((base + HDR_RX_SIZE / 2) * 2) HDR_MGT_FRAME_CONTROL
      &&& (FC_TO_DS ||| FC_TYPE_SUBTYPE_MASK) = TYPE_DATA

instance (w : Wifi_MainStruct) (base : Nat) : Decidable (rx_is_data w base) := by
  unfold rx_is_data; infer_instance

/-- Lines 380 and 381 of `wifi_arm9.c`: address 1 is the own address or the broadcast
address. -/
def rx_for_us (w : Wifi_MainStruct) (base : Nat) : Bool :=
  let broadcast_address : Mac := { h0 := 0xFFFF, h1 := 0xFFFF, h2 := 0xFFFF }
  let addr_1 := mac_at (rx_framehdr w base) ((HDR_RX_SIZE + 4) / 2)
  Wifi_CmpMacAddr addr_1 w.MacAddr || Wifi_CmpMacAddr addr_1 broadcast_address

/-- Lines 408 to 413 of `wifi_arm9.c`: the test on the LLC header. -/
def rx_llc_ok (w : Wifi_MainStruct) (base : Nat) : Prop :=
  let llc_base := base + (HDR_RX_SIZE + HDR_DATA_MAC_SIZE) / 2
  Wifi_RxReadHWordOffset w (llc_base * 2) 0 = 0xAAAA
    ∧ Wifi_RxReadHWordOffset w (llc_base * 2) 2 = 0x0003
    ∧ Wifi_RxReadHWordOffset w (llc_base * 2) 4 = 0

instance (w : Wifi_MainStruct) (base : Nat) : Decidable (rx_llc_ok w base) := by
  unfold rx_llc_ok; infer_instance

/-- Line 418 of `wifi_arm9.c`: `size_t datalen = len - hdrlen`. -/
def rx_datalen (len : Nat) : Nat := u32i ((len : Int) - (HDR_DATA_MAC_SIZE + 8 : Nat))

/-- Lines 428 to 443 of `wifi_arm9.c`: the bytes at `mb->datastart + 14` after the copy of
the even part (`datalen & ~1` is `datalen / 2 * 2`) and of the last byte of an odd
length; `heap0` is what the fresh block held. -/
def rx_data (w : Wifi_MainStruct) (heap0 : Nat → Nat) (base len : Nat) : Nat → Nat :=
  let datalen := rx_datalen len
  let base2 := rxWrap (base + (HDR_RX_SIZE + HDR_DATA_MAC_SIZE + 8) / 2)
  let data := Wifi_RxRawReadPacket w (base2 * 2) (datalen / 2 * 2) heap0
  if len % 2 ≠ 0 then
    upd data (datalen - 1) (u8 (Wifi_RxReadHWordOffset w (base2 * 2) (datalen / 2 * 2) &&& 255))
  else data

/-- Lines 445 to 459 of `wifi_arm9.c`: the frame that is handed to the network stack. -/
def rx_packet (w : Wifi_MainStruct) (heap0 : Nat → Nat) (base len : Nat) : RxPacket :=
  let framehdr := rx_framehdr w base
  let hdr_ieee_base := base + HDR_RX_SIZE / 2
  { dest_mac := Wifi_CopyMacAddr (mac_at framehdr ((HDR_RX_SIZE + 4) / 2))
    src_mac :=
      if Wifi_RxReadHWordOffset w (hdr_ieee_base * 2) 0 &&& FC_FROM_DS ≠ 0 then
        Wifi_CopyMacAddr (mac_at framehdr ((HDR_RX_SIZE + 16) / 2))
      else
        Wifi_CopyMacAddr (mac_at framehdr ((HDR_RX_SIZE + 10) / 2))
    protocol := hword framehdr ((HDR_RX_SIZE + HDR_DATA_MAC_SIZE + 6) / 2)
    payload := (List.range (rx_datalen len)).map (rx_data w heap0 base len) }

/-- The function `Wifi_sgIpHandlePackage(base, len)` (TCP/IP build).  What the network
stack does with a delivered frame is outside this file.  The result is `none` when the
call leaves defined behaviour: for `len < hdrlen` (32) the unsigned `datalen` of line 418
wraps around to about 4 GB, and the copy of line 436 writes that many bytes into the
block that `sgIP_memblock_allocHW` returned. -/
def Wifi_sgIpHandlePackage (st : Arm9) (base len : Nat) : Option Arm9 :=
  let w := st.WifiData
  if ¬ rx_is_data w base then some st
  else if ¬ rx_for_us w base then some st
  else if ¬ rx_llc_ok w base then some st
  else
    let hdrlen := HDR_DATA_MAC_SIZE + 8
    let mb_ok := st.allocOk st.allocs (SIZEOF_ETH + rx_datalen len)
    let st := { st with allocs := st.allocs + 1 }
    if ¬ mb_ok then some st
    else if len < hdrlen then none
    else some { st with delivered := st.delivered ++ [rx_packet w st.heap0 base len] }

/-- Lines 477 to 486 of `wifi_arm9.c`: the ARM9 notes that the ARM7 is active and adds
the network interface. -/
def Wifi_Update_ready (st : Arm9) : Arm9 :=
  let w := st.WifiData
  if w.flags9 &&& WFLAG_ARM9_ARM7READY = 0 then
    if w.flags7 &&& WFLAG_ARM7_ACTIVE ≠ 0 then
      { st with
        WifiData := { w with flags9 := u32 (w.flags9 ||| WFLAG_ARM9_ARM7READY) }
        hwAdded := st.hwAdded + 1
        sgIP_timems := w.random }
    else st
  else st

/-- Lines 487 to 495 of `wifi_arm9.c`: the network-up flag follows the authentication
level; `~WFLAG_ARM9_NETUP` is the complement in 32 bits. -/
def Wifi_Update_netup (st : Arm9) : Arm9 :=
  let w := st.WifiData
  if w.authlevel ≠ WIFI_AUTHLEVEL_ASSOCIATED ∧ w.flags9 &&& WFLAG_ARM9_NETUP ≠ 0 then
    { st with WifiData :=
        { w with flags9 := u32 (w.flags9 &&& (0xFFFFFFFF ^^^ WFLAG_ARM9_NETUP)) } }
  else if w.authlevel = WIFI_AUTHLEVEL_ASSOCIATED ∧ w.flags9 &&& WFLAG_ARM9_NETUP = 0 then
    { st with WifiData := { w with flags9 := u32 (w.flags9 ||| WFLAG_ARM9_NETUP) } }
  else st

/-- Lines 477 to 495 of `wifi_arm9.c`: the flag handling of `Wifi_Update` (TCP/IP
build). -/
def Wifi_Update_flags (st : Arm9) : Arm9 := Wifi_Update_netup (Wifi_Update_ready st)

/-- Line 505 of `wifi_arm9.c`: the frame length in the hardware RX header at `rxbufIn`. -/
def rx_len (w : Wifi_MainStruct) : Nat :=
  Wifi_RxReadHWordOffset w (w.rxbufIn * 2) HDR_RX_IEEE_FRAME_SIZE

/-- Line 506 of `wifi_arm9.c`: `fulllen = ((len + 3) & (~3)) + HDR_RX_SIZE`. -/
def rx_fulllen (len : Nat) : Nat := (len + 3) / 4 * 4 + HDR_RX_SIZE

/-- Outcome of a call that can leave defined behaviour. -/
inductive Outcome (α : Type) where
  | ok : α → Outcome α
  | fault : Outcome α

/-- Lines 512 to 524 of `wifi_arm9.c`: what a pass through the body of the loop does
behind the call of `Wifi_sgIpHandlePackage`; `base` and `len` are the locals of the
pass. -/
def Wifi_Update_advance (base len : Nat) (st : Arm9) : Arm9 :=
  let fulllen := rx_fulllen len
  let st :=
    if st.packethandler then
      let base2 := rxWrap (base + HDR_RX_SIZE / 2)
      { st with handlerCalls := st.handlerCalls ++ [(base2 * 2, len)] }
    else st
  let base := rxWrap (base + fulllen / 2)
  { st with WifiData := { st.WifiData with rxbufIn := u32 base } }

/-- Lines 503 to 524 of `wifi_arm9.c`: one pass through the body of the loop; `none` when
`Wifi_sgIpHandlePackage` leaves defined behaviour. -/
def Wifi_Update_body (st : Arm9) : Option Arm9 :=
  let base := st.WifiData.rxbufIn
  let len := rx_len st.WifiData
  (Wifi_sgIpHandlePackage st base len).map (Wifi_Update_advance base len)

/-- The state after `n` passes through the body of the loop, if no pass leaves defined
behaviour. -/
def Wifi_Update_passes : Nat → Arm9 → Option Arm9
  | 0, st => some st
  | n + 1, st => (Wifi_Update_body st).bind (Wifi_Update_passes n)

/-- Lines 500 to 529 of `wifi_arm9.c`: the loop, entered with the local counter `cnt`.
The result is `none` when the fuel did not last; otherwise it is `Outcome.fault` when a
pass leaves defined behaviour, and else the state with the final value of `cnt`, which
is the number of passes. -/
def Wifi_Update_loop : Nat → Nat → Arm9 → Option (Outcome (Arm9 × Nat))
  | 0, _, _ => none
  | fuel + 1, cnt, st =>
    if st.WifiData.rxbufIn ≠ st.WifiData.rxbufOut then
      match Wifi_Update_body st with
      | none => some Outcome.fault
      | some st =>
        if cnt > 80 then some (Outcome.ok (st, cnt + 1))
        else Wifi_Update_loop fuel (cnt + 1) st
    else some (Outcome.ok (st, cnt))

/-- The function `Wifi_Update()` (TCP/IP build), with the number of passes through the
loop next to the state; `none` when the fuel of the loop did not last. -/
def Wifi_Update_run (st : Arm9) : Option (Outcome (Arm9 × Nat)) :=
  if ¬ st.live then some (Outcome.ok (st, 0))
  else Wifi_Update_loop 82 0 (Wifi_Update_flags st)

/-- The function `Wifi_Update()` (TCP/IP build): the state after a call that returns,
`none` for a call that does not return within defined behaviour. -/
def Wifi_Update (st : Arm9) : Option Arm9 :=
  match Wifi_Update_run st with
  | some (Outcome.ok r) => some r.1
  | _ => none

/-- The frame lengths that the loop of `Wifi_Update` reads, in order. -/
def Wifi_Update_lens : Nat → Nat → Arm9 → List Nat
  | 0, _, _ => []
  | fuel + 1, cnt, st =>
    if st.WifiData.rxbufIn ≠ st.WifiData.rxbufOut then
      rx_len st.WifiData ::
        (match Wifi_Update_body st with
          | none => []
          | some st2 => if cnt > 80 then [] else Wifi_Update_lens fuel (cnt + 1) st2)
    else []

/-! ## `ipc.c` and the request setters -/

/-- Lines 77 to 110 of `ipc.c`: `Wifi_Init` once `Wifi_Data_Struct` is not NULL.  The
structure is cleared, `WifiData` is pointed at its uncached mirror (which is not NULL),
and `flags9` is set; `initflags & WFLAG_ARM9_INITFLAGMASK` is taken on the 32-bit pattern
of the `int`.  The heap and `sgIP_Init` calls concern the network stack only. -/
def Wifi_Init_clear (st : Arm9) (initflags : Int) : Nat × Arm9 :=
  let st := { st with WifiData := Wifi_MainStruct.zero }
  let st := { st with live := true }
  let st := { st with WifiData := { st.WifiData with
    flags9 := u32 (WFLAG_ARM9_ACTIVE ||| (u32i initflags &&& WFLAG_ARM9_INITFLAGMASK)) } }
  (st.Wifi_Data_Struct, st)

/-- The function `Wifi_Init(initflags)` of `ipc.c`.  `fresh` is the pointer that `malloc`
returns if it is called (0 is NULL).  The result is the returned `u32` and the state
after the call. -/
def Wifi_Init (st : Arm9) (initflags : Int) (fresh : Nat) : Nat × Arm9 :=
  if st.Wifi_Data_Struct = 0 then
    let st := { st with Wifi_Data_Struct := fresh }
    if st.Wifi_Data_Struct = 0 then (0, st)
    else Wifi_Init_clear st initflags
  else Wifi_Init_clear st initflags

/-- The function `Wifi_CheckInit()` of `ipc.c`; the result of `&&` is 0 or 1. -/
def Wifi_CheckInit (st : Arm9) : Int :=
  if ¬ st.live then 0
  else if st.WifiData.flags7 &&& WFLAG_ARM7_ACTIVE ≠ 0
      ∧ st.WifiData.flags9 &&& WFLAG_ARM9_ARM7READY ≠ 0 then 1
  else 0

/-- The function `Wifi_SetSyncHandler(wshfunc)` of `ipc.c`; the flag says whether the
pointer is not NULL. -/
def Wifi_SetSyncHandler (st : Arm9) (wshfunc : Bool) : Arm9 :=
  { st with synchandler := wshfunc }

/-- The function `Wifi_RawSetPacketHandler(wphfunc)` of `wifi_arm9.c`; the flag says
whether the pointer is not NULL. -/
def Wifi_RawSetPacketHandler (st : Arm9) (wphfunc : Bool) : Arm9 :=
  { st with packethandler := wphfunc }

/-- The function `Wifi_DisableWifi()` (the definitions in `ipc.c` and `wifi_arm9.c` are
the same text), on the structure that `WifiData` points to; `~WFLAG_REQ_APCONNECT` is
the complement in 32 bits and the request flags are a halfword. -/
def Wifi_DisableWifi (w : Wifi_MainStruct) : Wifi_MainStruct :=
  let w := { w with reqMode := WIFIMODE_DISABLED }
  { w with reqReqFlags := u16 (w.reqReqFlags &&& (0xFFFFFFFF ^^^ WFLAG_REQ_APCONNECT)) }

/-- The function `Wifi_EnableWifi()` (same text in `ipc.c` and `wifi_arm9.c`). -/
def Wifi_EnableWifi (w : Wifi_MainStruct) : Wifi_MainStruct :=
  let w := { w with reqMode := WIFIMODE_NORMAL }
  { w with reqReqFlags := u16 (w.reqReqFlags &&& (0xFFFFFFFF ^^^ WFLAG_REQ_APCONNECT)) }

/-- The function `Wifi_SetPromiscuousMode(enable)` (same text in `ipc.c` and
`wifi_arm9.c`). -/
def Wifi_SetPromiscuousMode (w : Wifi_MainStruct) (enable : Int) : Wifi_MainStruct :=
  if enable ≠ 0 then
    { w with reqReqFlags := u16 (w.reqReqFlags ||| WFLAG_REQ_PROMISC) }
  else
    { w with reqReqFlags := u16 (w.reqReqFlags &&& (0xFFFFFFFF ^^^ WFLAG_REQ_PROMISC)) }

/-- The function `Wifi_ScanMode()` (same text in `ipc.c` and `wifi_arm9.c`). -/
def Wifi_ScanMode (w : Wifi_MainStruct) : Wifi_MainStruct :=
  let w := { w with reqMode := WIFIMODE_SCAN }
  { w with reqReqFlags := u16 (w.reqReqFlags &&& (0xFFFFFFFF ^^^ WFLAG_REQ_APCONNECT)) }

/-- The function `Wifi_IdleMode()` of `ipc.c`. -/
def Wifi_IdleMode (w : Wifi_MainStruct) : Wifi_MainStruct :=
  let w := { w with reqMode := WIFIMODE_NORMAL }
  { w with reqReqFlags := u16 (w.reqReqFlags &&& (0xFFFFFFFF ^^^ WFLAG_REQ_APCONNECT)) }

/-- The function `Wifi_SetChannel(channel)` as `wifi_arm9.c` defines it (lines 156 to
164), on the structure that `WifiData` points to.  The stored value is between 1 and
13, which every integer field holds unchanged. -/
def Wifi_SetChannel_arm9 (w : Wifi_MainStruct) (channel : Int) : Wifi_MainStruct :=
  if channel < 1 ∨ channel > 13 then w
  else if w.reqMode = WIFIMODE_NORMAL ∨ w.reqMode = WIFIMODE_SCAN then
    { w with reqChannel := channel.toNat }
  else w

/-- The function `Wifi_SetChannel(channel)` as `ipc.c` defines it (lines 221 to 228), on
the structure that `WifiData` points to. -/
def Wifi_SetChannel_ipc (w : Wifi_MainStruct) (channel : Int) : Wifi_MainStruct :=
  if channel < 1 ∨ channel > 13 then w
  else if w.reqMode = WIFIMODE_NORMAL then
    { w with reqChannel := channel.toNat }
  else w

/-- The states of the host side that can be reached from a successful `Wifi_Init`:
through the operations of the host side, each from a reachable state, and through
writes of the hardware side to the shared structure, which leave `flags9` (a field of
the host side) alone; a write to `flags7` is such a write. -/
inductive Reachable : Arm9 → Prop
  | init (st : Arm9) (initflags : Int) (fresh : Nat) :
      (Wifi_Init st initflags fresh).1 ≠ 0 → Reachable (Wifi_Init st initflags fresh).2
  | update (st st2 : Arm9) : Reachable st → Wifi_Update st = some st2 → Reachable st2
  | beacon (st st2 : Arm9) (data0 : Nat → Nat) (ssid : Option CString) (game_id : Nat)
      (r : Int) : Reachable st → Wifi_BeaconStart st data0 ssid game_id = some (r, st2) →
      Reachable st2
  | transmit (st : Arm9) (hdr0 : Nat → Nat) (mb : sgIP_memblock) (next : List sgIP_memblock) :
      Reachable st → Reachable (Wifi_TransmitFunction st hdr0 mb next).2
  | disable (st : Arm9) : Reachable st →
      Reachable { st with WifiData := Wifi_DisableWifi st.WifiData }
  | enable (st : Arm9) : Reachable st →
      Reachable { st with WifiData := Wifi_EnableWifi st.WifiData }
  | promiscuous (st : Arm9) (flag : Int) : Reachable st →
      Reachable { st with WifiData := Wifi_SetPromiscuousMode st.WifiData flag }
  | scan (st : Arm9) : Reachable st →
      Reachable { st with WifiData := Wifi_ScanMode st.WifiData }
  | idle (st : Arm9) : Reachable st →
      Reachable { st with WifiData := Wifi_IdleMode st.WifiData }
  | channel_arm9 (st : Arm9) (channel : Int) : Reachable st →
      Reachable { st with WifiData := Wifi_SetChannel_arm9 st.WifiData channel }
  | channel_ipc (st : Arm9) (channel : Int) : Reachable st →
      Reachable { st with WifiData := Wifi_SetChannel_ipc st.WifiData channel }
  | sync_handler (st : Arm9) (f : Bool) : Reachable st → Reachable (Wifi_SetSyncHandler st f)
  | packet_handler (st : Arm9) (f : Bool) : Reachable st →
      Reachable (Wifi_RawSetPacketHandler st f)
  | hardware (st : Arm9) (w2 : Wifi_MainStruct) : Reachable st →
      w2.flags9 = st.WifiData.flags9 → Reachable { st with WifiData := w2 }

/-! ## Reading a beacon back from the TX ring -/

/-- Decoder that follows the spec's words for information elements ("tag/length/value
triplets"): walk the sequence element by element and return the length byte and the
value of the first element that carries `tag`; `none` when no element carries it or an
element is cut short.  Every step consumes at least two bytes, so a fuel equal to the
number of bytes is enough. -/
def findElementFuel (tag : Nat) : Nat → List Nat → Option (Nat × List Nat)
  | 0, _ => none
  | fuel + 1, t :: l :: rest =>
    if rest.length < l then none
    else if t = tag then some (l, rest.take l)
    else findElementFuel tag fuel (rest.drop l)
  | _ + 1, _ => none

/-- Decoder of one information element of a tag/length/value sequence. -/
def findElement (tag : Nat) (tlv : List Nat) : Option (Nat × List Nat) :=
  findElementFuel tag tlv.length tlv

/-- The field `tx_length` of the hardware TX header of the frame that starts at halfword
`base` of the TX ring. -/
def ring_tx_length (w : Wifi_MainStruct) (base : Nat) : Nat :=
  txByte w (2 * base + 10) + 256 * txByte w (2 * base + 11)

/-- The tag/length/value sequence of the beacon that starts at halfword `base` of the TX
ring: what follows the hardware TX header, the management header and the 12 fixed body
bytes, up to the end of the body as `tx_length` gives it (`tx_length` counts the
management header, the body and the 4-byte trailer). -/
def ring_beacon_elements (w : Wifi_MainStruct) (base : Nat) : List Nat :=
  txBytes w (2 * base + HDR_TX_SIZE + HDR_MGT_MAC_SIZE + 12)
    (ring_tx_length w base - 4 - HDR_MGT_MAC_SIZE - 12)

/-! ## Concrete inputs -/

/-- The SSID `"TESTNET"`, followed in memory by bytes `0xEE`. -/
def testnet : CString := { chars := [84, 69, 83, 84, 78, 69, 84], after := fun _ => 0xEE }

/-- A string of 33 characters `'A'`. -/
def longSsid : CString := { chars := List.replicate 33 65, after := fun _ => 0 }

/-- A live state: channel 6, no guests, MAC address 00:09:BF:12:34:56, empty TX ring, a
registered sync handler. -/
def st0 : Arm9 :=
  { WifiData := { Wifi_MainStruct.zero with
      curChannel := 6, MacAddr := { h0 := 0x0900, h1 := 0x12BF, h2 := 0x5634 } },
    synchandler := true, syncCalls := 0, freed := 0 }

/-- The state `st0` with a full TX ring: the producer cursor `txbufOut = 99` is one
halfword behind the cursor `txbufIn = 100` of the hardware side. -/
def stFull : Arm9 :=
  { st0 with WifiData := { st0.WifiData with txbufIn := 100, txbufOut := 99 } }

/-- The state `st0` with the network up, BSSID B0:B1:B2:B3:B4:B5, infrastructure mode, no
WEP, `txbufIn = 100` and the producer cursor eight halfwords before the end of the ring. -/
def stUp : Arm9 :=
  { st0 with WifiData := { st0.WifiData with
      flags9 := WFLAG_ARM9_NETUP, txbufIn := 100, txbufOut := 12280,
      bssid7 := { h0 := 0xB1B0, h1 := 0xB3B2, h2 := 0xB5B4 } } }

/-- First block of an Ethernet frame of 19 bytes: destination 01:02:03:04:05:06, source
07:08:09:0A:0B:0C, protocol bytes 08 00 and three payload bytes. -/
def mbFrame : sgIP_memblock :=
  { totallength := 19, thislength := 17,
    datastart := fun i =>
      [1, 2, 3, 4, 5, 6, 7, 8, 9, 10, 11, 12, 0x08, 0x00, 0x45, 0x46, 0x47].getD i 0xCC }

/-- Second block of the frame: two payload bytes. -/
def mbTail : sgIP_memblock :=
  { totallength := 2, thislength := 2, datastart := fun i => [0x71, 0x72].getD i 0xDD }

/-- A ring of halfwords that holds the given bytes from its start on, zero elsewhere. -/
def ringOfBytes (bytes : List Nat) : Nat → Nat :=
  fun k => bytes.getD (2 * k) 0 + 256 * bytes.getD (2 * k + 1) 0

/-- A received frame of 35 bytes behind its hardware RX header: a data frame from the
DS (frame control 0x0208) to 00:09:BF:12:34:56, BSSID B0:..:B5, source A1:..:A6, LLC
header with protocol bytes 08 00, payload 45 46 47 and one byte of padding. -/
def rxFrameBytes : List Nat :=
  [0, 0, 0, 0, 0, 0, 0, 0, 35, 0, 0, 0,
   0x08, 0x02, 0, 0, 0x00, 0x09, 0xBF, 0x12, 0x34, 0x56,
   0xB0, 0xB1, 0xB2, 0xB3, 0xB4, 0xB5, 0xA1, 0xA2, 0xA3, 0xA4, 0xA5, 0xA6, 0x10, 0x00,
   0xAA, 0xAA, 0x03, 0x00, 0x00, 0x00, 0x08, 0x00,
   0x45, 0x46, 0x47, 0x99]

/-- The state `st0` with the frame `rxFrameBytes` pending at the start of the RX ring. -/
def stRx : Arm9 :=
  { st0 with WifiData := { st0.WifiData with
      rxbufData := ringOfBytes rxFrameBytes, rxbufIn := 0, rxbufOut := 24 } }

/-- The state `stRx` with the to-DS bit set in the frame control of the pending frame
(0x0108 in place of 0x0208). -/
def stRxToDS : Arm9 :=
  { st0 with WifiData := { st0.WifiData with
      rxbufData := ringOfBytes (rxFrameBytes.set 13 0x01), rxbufIn := 0, rxbufOut := 24 } }

/-- The state `stRx` with the first LLC byte of the pending frame changed to 0xAB. -/
def stRxBadLlc : Arm9 :=
  { st0 with WifiData := { st0.WifiData with
      rxbufData := ringOfBytes (rxFrameBytes.set 36 0xAB), rxbufIn := 0, rxbufOut := 24 } }

/-- The state `stRx` with the first byte of address 1 of the pending frame changed, so
that the frame is addressed to 02:09:BF:12:34:56. -/
def stRxOther : Arm9 :=
  { st0 with WifiData := { st0.WifiData with
      rxbufData := ringOfBytes (rxFrameBytes.set 16 0x02), rxbufIn := 0, rxbufOut := 24 } }

/-- The state `stRx` with the length in the hardware RX header of the pending frame
changed from 35 to 20, less than the 32 bytes of the data header and the LLC header; the
frame still passes the three tests of `Wifi_sgIpHandlePackage`. -/
def stShort : Arm9 :=
  { st0 with WifiData := { st0.WifiData with
      rxbufData := ringOfBytes (rxFrameBytes.set 8 20), rxbufIn := 0, rxbufOut := 16 } }

/-- The state `stUp` with WEP switched on. -/
def stWep : Arm9 :=
  { stUp with WifiData := { stUp.WifiData with wepmode7 := 1 } }

/-- The structure of `st0` in normal mode, with channel 1 requested. -/
def wNormal : Wifi_MainStruct :=
  { st0.WifiData with reqMode := WIFIMODE_NORMAL, reqChannel := 1 }

/-- The structure of `st0` in scan mode, with channel 1 requested. -/
def wScan : Wifi_MainStruct :=
  { st0.WifiData with reqMode := WIFIMODE_SCAN, reqChannel := 1 }

/-- The host side before the first `Wifi_Init`: nothing is allocated, `WifiData` is NULL. -/
def stBoot : Arm9 :=
  { st0 with live := false, Wifi_Data_Struct := 0 }

/-- The state after `Wifi_Init(2)` from `stBoot`, `malloc` returning 0x02100000. -/
def stInit : Arm9 := (Wifi_Init stBoot 2 0x02100000).2

/-- The state `stInit` after the hardware side has set `WFLAG_ARM7_ACTIVE` in `flags7`. -/
def stActive : Arm9 :=
  { stInit with WifiData := { stInit.WifiData with flags7 := WFLAG_ARM7_ACTIVE } }

/-- The state `stActive` after a call of `Wifi_Update`. -/
def stReady : Arm9 := (Wifi_Update stActive).getD stActive

/-! ## Lemmas -/

theorem add_mod_inj {cap b k n : Nat} (hk : k < cap) (hn : n < cap)
    (h : (b + k) % cap = (b + n) % cap) : k = n := by
  have h1 : k ≡ n [MOD cap] := Nat.ModEq.add_left_cancel' b h
  exact Nat.ModEq.eq_of_lt_of_lt h1 hk hn

theorem ringStore_get (cap : Nat) (ring : Nat → Nat) (base : Nat) (src : Nat → Nat) :
    ∀ n k, k < n → n ≤ cap → ringStore cap ring base src n ((base + k) % cap) = hword src k := by
  intro n
  induction n with
  | zero => intro k hk; omega
  | succ n ih =>
    intro k hk hn
    simp only [ringStore, upd]
    by_cases h : (base + k) % cap = (base + n) % cap
    · have : k = n := add_mod_inj (by omega) (by omega) h
      simp [this]
    · have hne : k ≠ n := fun e => h (by rw [e])
      simp only [h, if_false]
      exact ih k (by omega) (by omega)

theorem ringStore_other (cap : Nat) (ring : Nat → Nat) (base : Nat) (src : Nat → Nat) (i : Nat) :
    ∀ n, (∀ k, k < n → (base + k) % cap ≠ i) → ringStore cap ring base src n i = ring i := by
  intro n
  induction n with
  | zero => intro _; rfl
  | succ n ih =>
    intro h
    simp only [ringStore, upd]
    have h1 : i ≠ (base + n) % cap := fun e => h n (by omega) e.symm
    simp only [h1, if_false]
    exact ih (fun k hk => h k (by omega))

theorem hword_lo (src : Nat → Nat) (k : Nat) : hword src k % 256 = src (2 * k) % 256 := by
  unfold hword; omega

theorem hword_hi (src : Nat → Nat) (k : Nat) : hword src k / 256 % 256 = src (2 * k + 1) % 256 := by
  unfold hword; omega

theorem txByte_write (w : Wifi_MainStruct) (base size : Nat) (src : Nat → Nat) (j : Nat)
    (hj : j < size) (hs : size ≤ WIFI_TXBUFFER_SIZE) :
    txByte (Wifi_TxBufferWrite w (base * 2) size src) (base * 2 + j) = src j % 256 := by
  have hcap : WIFI_TXBUFFER_SIZE / 2 = 12288 := by decide
  have hsz : WIFI_TXBUFFER_SIZE = 24576 := by decide
  have h1 : (base * 2 + j) / 2 = base + j / 2 := by omega
  have h2 : base * 2 / 2 = base := by omega
  simp only [txByte, Wifi_TxBufferWrite, h1, h2]
  rw [ringStore_get _ _ _ _ _ (j / 2) (by omega) (by omega)]
  rcases Nat.mod_two_eq_zero_or_one j with h | h
  · have h3 : (base * 2 + j) % 2 = 0 := by omega
    have h4 : 2 * (j / 2) = j := by omega
    simp only [h3, if_true, Nat.div_one, hword_lo, h4]
  · have h3 : (base * 2 + j) % 2 ≠ 0 := by omega
    have h4 : 2 * (j / 2) + 1 = j := by omega
    simp only [h3, if_false, hword_hi, h4]

theorem txBytes_write (w : Wifi_MainStruct) (base size : Nat) (src : Nat → Nat)
    (hs : size ≤ WIFI_TXBUFFER_SIZE) :
    txBytes (Wifi_TxBufferWrite w (base * 2) size src) (base * 2) size
      = (List.range size).map (fun j => src j % 256) := by
  unfold txBytes
  apply List.map_congr_left
  intro j hj
  exact txByte_write w base size src j (List.mem_range.mp hj) hs

theorem txBytes_append (w : Wifi_MainStruct) (off a b : Nat) :
    txBytes w off (a + b) = txBytes w off a ++ txBytes w (off + a) b := by
  unfold txBytes
  rw [List.range_add, List.map_append, List.map_map]
  congr 1
  apply List.map_congr_left
  intro j _
  simp [Nat.add_assoc]

theorem txBytes_congr (w1 w2 : Wifi_MainStruct) (h : w1.txbufData = w2.txbufData)
    (off len : Nat) : txBytes w1 off len = txBytes w2 off len := by
  unfold txBytes txByte
  rw [h]

theorem map_getD_range (l : List Nat) (f : Nat → Nat)
    (hf : ∀ i, i < l.length → f i = l.getD i 0) :
    (List.range l.length).map f = l := by
  apply List.ext_getElem
  · simp
  · intro i h1 h2
    simp only [List.getElem_map, List.getElem_range]
    rw [hf i h2]
    exact List.getD_eq_getElem _ _ h2

theorem beacon_body_length (w : Wifi_MainStruct) (p : CString) (n g : Nat) :
    (beacon_body w p n g).1.length = (beacon_body w p n g).2 := by
  by_cases h : n > 0
  · simp [beacon_body, h, FieVendorNintendo.bytes, beacon_fie, FieVendorNintendo.zero, le16,
      SIZEOF_FieVendorNintendo]
    omega
  · simp [beacon_body, h, FieVendorNintendo.bytes, beacon_fie, FieVendorNintendo.zero, le16,
      SIZEOF_FieVendorNintendo]

theorem beacon_body_size (w : Wifi_MainStruct) (p : CString) (n g : Nat) :
    (beacon_body w p n g).2 = if n = 0 then 55 else 57 + n := by
  by_cases h : n = 0
  · simp [beacon_body, h, SIZEOF_FieVendorNintendo]
  · have h1 : n > 0 := by omega
    simp [beacon_body, h, h1, SIZEOF_FieVendorNintendo]
    omega

theorem beacon_frame_length (w : Wifi_MainStruct) (p : CString) (n g : Nat) :
    (beacon_frame w p n g).length = HDR_TX_SIZE + HDR_MGT_MAC_SIZE + (beacon_body w p n g).2 := by
  simp only [beacon_frame, List.length_append, beacon_body_length]
  simp [Wifi_TxHeader.bytes, IEEE_MgtFrameHeader.bytes, Mac.bytes, le16, HDR_TX_SIZE,
    HDR_MGT_MAC_SIZE]

theorem and_255_lt (x : Nat) : x &&& 0xFF < 256 :=
  Nat.lt_of_le_of_lt Nat.and_le_right (by decide)

theorem le16_lt (x : Nat) : ∀ b ∈ le16 x, b < 256 := by
  intro b hb
  simp only [le16, List.mem_cons, List.mem_singleton, List.not_mem_nil, or_false] at hb
  rcases hb with h | h <;> omega

theorem Mac_bytes_lt (m : Mac) : ∀ b ∈ m.bytes, b < 256 := by
  intro b hb
  simp only [Mac.bytes, List.mem_append] at hb
  rcases hb with (h | h) | h <;> exact le16_lt _ b h

theorem beacon_frame_lt (w : Wifi_MainStruct) (p : CString) (n g : Nat) :
    ∀ b ∈ beacon_frame w p n g, b < 256 := by
  have hg := and_255_lt
  have hl := le16_lt
  have hm := Mac_bytes_lt
  have hu : ∀ x : Nat, x % 256 < 256 := fun x => Nat.mod_lt _ (by decide)
  by_cases h : n > 0
  · simp only [beacon_frame, beacon_body, h, if_true, Wifi_TxHeader.bytes,
      IEEE_MgtFrameHeader.bytes, FieVendorNintendo.bytes, beacon_fie, FieVendorNintendo.zero,
      List.forall_mem_append, List.forall_mem_cons, List.forall_mem_map, List.mem_replicate,
      u8]
    simp only [List.not_mem_nil, false_implies, implies_true, and_true]
    repeat' apply And.intro
    all_goals first
      | exact hl _ | exact hm _ | exact hg _ | exact hu _ | exact fun _ _ => hu _
      | (intro x hx; omega) | decide
  · simp only [beacon_frame, beacon_body, h, if_false, Wifi_TxHeader.bytes,
      IEEE_MgtFrameHeader.bytes, FieVendorNintendo.bytes, beacon_fie, FieVendorNintendo.zero,
      List.forall_mem_append, List.forall_mem_cons, List.forall_mem_map, List.mem_replicate,
      u8]
    simp only [List.not_mem_nil, false_implies, implies_true, and_true]
    repeat' apply And.intro
    all_goals first
      | exact hl _ | exact hm _ | exact hg _ | exact hu _ | exact fun _ _ => hu _
      | (intro x hx; omega) | decide

theorem beacon_write_read (w : Wifi_MainStruct) (data0 : Nat → Nat) (p : CString) (n g : Nat)
    (hn : n ≤ 32) :
    txBytes (Wifi_TxBufferWrite w (w.txbufOut * 2)
        (HDR_TX_SIZE + HDR_MGT_MAC_SIZE + (beacon_body w p n g).2) (beacon_data w data0 p n g))
      (w.txbufOut * 2) (HDR_TX_SIZE + HDR_MGT_MAC_SIZE + (beacon_body w p n g).2)
      = beacon_frame w p n g := by
  have hsz : HDR_TX_SIZE + HDR_MGT_MAC_SIZE + (beacon_body w p n g).2 ≤ WIFI_TXBUFFER_SIZE := by
    rw [beacon_body_size]
    have : WIFI_TXBUFFER_SIZE = 24576 := by decide
    simp only [HDR_TX_SIZE, HDR_MGT_MAC_SIZE, this]
    split <;> omega
  rw [txBytes_write _ _ _ _ hsz, ← beacon_frame_length]
  apply map_getD_range
  intro i hi
  simp only [beacon_data, hi, if_true]
  apply Nat.mod_eq_of_lt
  apply beacon_frame_lt w p n g
  rw [List.getD_eq_getElem _ _ hi]
  exact List.getElem_mem _

/-- What an accepted call of `Wifi_BeaconStart` does to the state, field by field. -/
theorem beacon_accept (st : Arm9) (data0 : Nat → Nat) (p : CString) (g : Nat)
    (hn : strlen p ≤ 32) :
    ∃ st2, Wifi_BeaconStart st data0 (some p) g = some (0, st2) ∧
      st2.WifiData.txbufData = (Wifi_TxBufferWrite st.WifiData (st.WifiData.txbufOut * 2)
        (HDR_TX_SIZE + HDR_MGT_MAC_SIZE + (beacon_body st.WifiData p (strlen p) g).2)
        (beacon_data st.WifiData data0 p (strlen p) g)).txbufData ∧
      st2.WifiData.txbufOut = u32 (txWrap (st.WifiData.txbufOut
        + (HDR_TX_SIZE + HDR_MGT_MAC_SIZE + (beacon_body st.WifiData p (strlen p) g).2 + 1) / 2)) ∧
      st2.WifiData.stats = upd (upd st.WifiData.stats WSTAT_TXQUEUEDPACKETS
          (u32 (st.WifiData.stats WSTAT_TXQUEUEDPACKETS + 1))) WSTAT_TXQUEUEDBYTES
          (u32 (st.WifiData.stats WSTAT_TXQUEUEDBYTES
            + (HDR_TX_SIZE + HDR_MGT_MAC_SIZE + (beacon_body st.WifiData p (strlen p) g).2))) ∧
      st2.WifiData.ssid9 = beacon_ssid9 st.WifiData.ssid9 p (strlen p) ∧
      st2.syncCalls = (if st.synchandler then st.syncCalls + 1 else st.syncCalls) := by
  have h : ¬ strlen p > 32 := by omega
  unfold Wifi_BeaconStart
  simp only [h, if_false]
  refine ⟨_, rfl, ?_, ?_, ?_, ?_, ?_⟩
  · cases hs : st.synchandler <;> simp [Wifi_CallSyncHandler, hs, Wifi_TxBufferWrite] <;> rfl
  · cases hs : st.synchandler <;> simp [Wifi_CallSyncHandler, hs, Wifi_TxBufferWrite] <;> rfl
  · cases hs : st.synchandler <;> simp [Wifi_CallSyncHandler, hs, Wifi_TxBufferWrite, upd,
      WSTAT_TXQUEUEDPACKETS, WSTAT_TXQUEUEDBYTES] <;> rfl
  · cases hs : st.synchandler <;> simp [Wifi_CallSyncHandler, hs, Wifi_TxBufferWrite]
  · cases hs : st.synchandler <;> simp [Wifi_CallSyncHandler, hs]

theorem txBytes_length (w : Wifi_MainStruct) (off n : Nat) : (txBytes w off n).length = n := by
  simp [txBytes]

theorem txBytes_slice (w : Wifi_MainStruct) (off n a b : Nat) (l : List Nat)
    (h : txBytes w off n = l) (hab : a + b ≤ n) :
    txBytes w (off + a) b = (l.drop a).take b := by
  obtain ⟨c, rfl⟩ : ∃ c, n = a + b + c := ⟨n - (a + b), by omega⟩
  rw [← h, txBytes_append, txBytes_append, List.append_assoc,
    List.drop_left' (txBytes_length w off a),
    List.take_left' (txBytes_length w (off + a) b)]

/-- An accepted call of `Wifi_BeaconStart` leaves the bytes of the frame in the TX ring,
from the old cursor on; the other fields are as `beacon_accept` gives them. -/
theorem beacon_ring (st : Arm9) (data0 : Nat → Nat) (p : CString) (g : Nat)
    (hn : strlen p ≤ 32) :
    ∃ st2, Wifi_BeaconStart st data0 (some p) g = some (0, st2) ∧
      txBytes st2.WifiData (2 * st.WifiData.txbufOut)
          (HDR_TX_SIZE + HDR_MGT_MAC_SIZE + (beacon_body st.WifiData p (strlen p) g).2)
        = beacon_frame st.WifiData p (strlen p) g ∧
      st2.WifiData.txbufData = (Wifi_TxBufferWrite st.WifiData (st.WifiData.txbufOut * 2)
        (HDR_TX_SIZE + HDR_MGT_MAC_SIZE + (beacon_body st.WifiData p (strlen p) g).2)
        (beacon_data st.WifiData data0 p (strlen p) g)).txbufData ∧
      st2.WifiData.txbufOut = u32 (txWrap (st.WifiData.txbufOut
        + (HDR_TX_SIZE + HDR_MGT_MAC_SIZE + (beacon_body st.WifiData p (strlen p) g).2 + 1) / 2)) ∧
      st2.WifiData.stats = upd (upd st.WifiData.stats WSTAT_TXQUEUEDPACKETS
          (u32 (st.WifiData.stats WSTAT_TXQUEUEDPACKETS + 1))) WSTAT_TXQUEUEDBYTES
          (u32 (st.WifiData.stats WSTAT_TXQUEUEDBYTES
            + (HDR_TX_SIZE + HDR_MGT_MAC_SIZE + (beacon_body st.WifiData p (strlen p) g).2))) ∧
      st2.WifiData.ssid9 = beacon_ssid9 st.WifiData.ssid9 p (strlen p) ∧
      st2.syncCalls = (if st.synchandler then st.syncCalls + 1 else st.syncCalls) := by
  obtain ⟨st2, h1, h2, h3⟩ := beacon_accept st data0 p g hn
  refine ⟨st2, h1, ?_, h2, h3⟩
  rw [txBytes_congr _ _ h2, Nat.mul_comm 2]
  exact beacon_write_read st.WifiData data0 p (strlen p) g hn

theorem strlen_valid (p : CString) (hv : p.valid) : strlen p = p.chars.length := by
  unfold strlen
  congr 1
  rw [List.takeWhile_eq_self_iff]
  intro c hc
  have := (hv c hc).1
  simp
  omega

theorem ssid_bytes_valid (p : CString) (hv : p.valid) :
    (List.range p.chars.length).map (fun i => u8 (p.get i)) = p.chars := by
  apply map_getD_range
  intro i hi
  simp only [CString.get, hi, if_true, u8]
  apply Nat.mod_eq_of_lt
  rw [List.getD_eq_getElem _ _ hi]
  exact (hv _ (List.getElem_mem _)).2

theorem Wifi_TxHeader_bytes_length (t : Wifi_TxHeader) : t.bytes.length = HDR_TX_SIZE := by
  simp [Wifi_TxHeader.bytes, le16, HDR_TX_SIZE]

theorem IEEE_MgtFrameHeader_bytes_length (h : IEEE_MgtFrameHeader) :
    h.bytes.length = HDR_MGT_MAC_SIZE := by
  simp [IEEE_MgtFrameHeader.bytes, Mac.bytes, le16, HDR_MGT_MAC_SIZE]

theorem beacon_frame_tx (w : Wifi_MainStruct) (p : CString) (n g : Nat) :
    (beacon_frame w p n g).take HDR_TX_SIZE
      = [0, 0, 0, 0, 0, 0, 0, 0] ++ le16 WIFI_TRANSFER_RATE_2MBPS
          ++ le16 (HDR_MGT_MAC_SIZE + (beacon_body w p n g).2 + 4) := by
  simp only [beacon_frame, List.append_assoc]
  rw [List.take_left' (Wifi_TxHeader_bytes_length _)]
  simp only [Wifi_TxHeader.bytes, beacon_tx, Wifi_TxHeader.zero, le16, u16,
    WIFI_TRANSFER_RATE_2MBPS, List.cons_append, List.nil_append, List.cons.injEq, and_true]
  generalize HDR_MGT_MAC_SIZE + (beacon_body w p n g).2 + 4 = x
  simp only [true_and]
  constructor <;> omega

theorem beacon_frame_body (w : Wifi_MainStruct) (p : CString) (n g : Nat) :
    (beacon_frame w p n g).drop (HDR_TX_SIZE + HDR_MGT_MAC_SIZE) = (beacon_body w p n g).1 := by
  simp only [beacon_frame]
  apply List.drop_left'
  rw [List.length_append, Wifi_TxHeader_bytes_length, IEEE_MgtFrameHeader_bytes_length]

theorem beacon_body_valid (w : Wifi_MainStruct) (p : CString) (g : Nat) (hv : p.valid)
    (hn : p.chars.length ≤ 32) :
    (beacon_body w p p.chars.length g).1
      = List.replicate 8 0 ++ le16 100 ++ le16 CAPS_ESS
        ++ (if 0 < p.chars.length then [MGT_FIE_ID_SSID, p.chars.length] ++ p.chars else [])
        ++ [MGT_FIE_ID_SUPPORTED_RATES, 2, RATE_MANDATORY ||| RATE_2_MBPS,
            RATE_MANDATORY ||| RATE_1_MBPS]
        ++ [MGT_FIE_ID_DS_PARAM_SET, 1, u8 w.curChannel]
        ++ [MGT_FIE_ID_TIM, 6, 0, 0, 0, 0, 0, 0]
        ++ [MGT_FIE_ID_VENDOR, 26] ++ (beacon_fie w g).bytes := by
  have hu : u8 p.chars.length = p.chars.length := Nat.mod_eq_of_lt (by omega)
  have e1 : u8 MGT_FIE_ID_SSID = MGT_FIE_ID_SSID := by decide
  have e2 : u8 MGT_FIE_ID_SUPPORTED_RATES = MGT_FIE_ID_SUPPORTED_RATES := by decide
  have e3 : u8 (RATE_MANDATORY ||| RATE_2_MBPS) = RATE_MANDATORY ||| RATE_2_MBPS := by decide
  have e4 : u8 (RATE_MANDATORY ||| RATE_1_MBPS) = RATE_MANDATORY ||| RATE_1_MBPS := by decide
  have e5 : u8 MGT_FIE_ID_DS_PARAM_SET = MGT_FIE_ID_DS_PARAM_SET := by decide
  have e6 : u8 MGT_FIE_ID_TIM = MGT_FIE_ID_TIM := by decide
  have e7 : u8 MGT_FIE_ID_VENDOR = MGT_FIE_ID_VENDOR := by decide
  have e8 : u8 SIZEOF_FieVendorNintendo = 26 := by decide
  simp only [beacon_body, ssid_bytes_valid p hv, hu, e1, e2, e3, e4, e5, e6, e7, e8, gt_iff_lt]
  split <;> simp only [List.append_assoc, List.replicate, List.cons_append, List.nil_append]

theorem beacon_fie_bytes_length (w : Wifi_MainStruct) (g : Nat) :
    (beacon_fie w g).bytes.length = 26 := by
  simp [beacon_fie, FieVendorNintendo.bytes, FieVendorNintendo.zero]

theorem le16_value (x : Nat) (hx : x < 65536) (l : List Nat) (h : l = le16 x) :
    l.getD 0 0 + 256 * l.getD 1 0 = x := by
  subst h
  simp only [le16, List.getD_cons_zero, List.getD_cons_succ]
  omega

/-- The length field of the hardware TX header that an accepted call leaves in the ring. -/
theorem beacon_ring_tx_length (st st2 : Arm9) (p : CString) (g : Nat) (hn : strlen p ≤ 32)
    (h2 : txBytes st2.WifiData (2 * st.WifiData.txbufOut)
          (HDR_TX_SIZE + HDR_MGT_MAC_SIZE + (beacon_body st.WifiData p (strlen p) g).2)
        = beacon_frame st.WifiData p (strlen p) g) :
    ring_tx_length st2.WifiData st.WifiData.txbufOut
      = HDR_MGT_MAC_SIZE + (beacon_body st.WifiData p (strlen p) g).2 + 4 := by
  have hsz : HDR_MGT_MAC_SIZE + (beacon_body st.WifiData p (strlen p) g).2 + 4 < 65536 := by
    rw [beacon_body_size]
    simp only [HDR_MGT_MAC_SIZE]
    split <;> omega
  have h3 := txBytes_slice _ _ _ 10 2 _ h2 (by simp only [HDR_TX_SIZE]; omega)
  have h4 : ((beacon_frame st.WifiData p (strlen p) g).drop 10).take 2
      = le16 (HDR_MGT_MAC_SIZE + (beacon_body st.WifiData p (strlen p) g).2 + 4) := by
    have h5 := beacon_frame_tx st.WifiData p (strlen p) g
    have h6 : ((beacon_frame st.WifiData p (strlen p) g).drop 10).take 2
        = (((beacon_frame st.WifiData p (strlen p) g).take HDR_TX_SIZE).drop 10).take 2 := by
      rw [List.drop_take, List.take_take]
      rfl
    rw [h6, h5]
    rfl
  rw [h4] at h3
  have h7 := le16_value _ hsz _ h3
  simp only [txBytes, List.range_succ, List.range_zero, List.nil_append, List.map_cons,
    List.map_nil, List.cons_append, List.getD_cons_zero, List.getD_cons_succ, Nat.add_zero] at h7
  simp only [ring_tx_length]
  have e : 2 * st.WifiData.txbufOut + 10 + 1 = 2 * st.WifiData.txbufOut + 11 := by omega
  rw [← e]
  exact h7

theorem findElementFuel_enough (tag : Nat) :
    ∀ fuel fuel2 tlv, tlv.length ≤ fuel → tlv.length ≤ fuel2 →
      findElementFuel tag fuel tlv = findElementFuel tag fuel2 tlv := by
  intro fuel
  induction fuel with
  | zero =>
    intro fuel2 tlv h1 _
    have : tlv = [] := List.length_eq_zero.mp (by omega)
    subst this
    cases fuel2 <;> rfl
  | succ f ih =>
    intro fuel2 tlv h1 h2
    match tlv, fuel2, h1, h2 with
    | [], 0, _, _ => rfl
    | [], _ + 1, _, _ => rfl
    | [_], 0, _, h2 => simp at h2
    | [_], _ + 1, _, _ => rfl
    | t :: l :: rest, 0, _, h2 => simp at h2
    | t :: l :: rest, f2 + 1, h1, h2 =>
      simp only [findElementFuel]
      split
      · rfl
      · split
        · rfl
        · apply ih
          · simp only [List.length_cons, List.length_drop] at h1 ⊢; omega
          · simp only [List.length_cons, List.length_drop] at h2 ⊢; omega

theorem findElement_hit (tag l : Nat) (v rest : List Nat) (hl : l = v.length) :
    findElement tag (tag :: l :: (v ++ rest)) = some (l, v) := by
  subst hl
  simp [findElement, findElementFuel]

theorem findElement_skip (tag t l : Nat) (v rest : List Nat) (hl : l = v.length) (ht : t ≠ tag) :
    findElement tag (t :: l :: (v ++ rest)) = findElement tag rest := by
  subst hl
  simp only [findElement, List.length_cons, findElementFuel, List.length_append, ht, if_false,
    List.drop_left]
  rw [if_neg (by omega)]
  apply findElementFuel_enough <;> omega

theorem findElement_nil (tag : Nat) : findElement tag [] = none := rfl

/-- The tag/length/value sequence that an accepted call leaves in the ring is the body
without its 12 fixed bytes. -/
theorem beacon_ring_elements (st st2 : Arm9) (p : CString) (g : Nat) (hn : strlen p ≤ 32)
    (h2 : txBytes st2.WifiData (2 * st.WifiData.txbufOut)
          (HDR_TX_SIZE + HDR_MGT_MAC_SIZE + (beacon_body st.WifiData p (strlen p) g).2)
        = beacon_frame st.WifiData p (strlen p) g) :
    ring_beacon_elements st2.WifiData st.WifiData.txbufOut
      = (beacon_body st.WifiData p (strlen p) g).1.drop 12 := by
  have hb : 55 ≤ (beacon_body st.WifiData p (strlen p) g).2 := by
    rw [beacon_body_size]; split <;> omega
  simp only [ring_beacon_elements, beacon_ring_tx_length st st2 p g hn h2]
  have e1 : 2 * st.WifiData.txbufOut + HDR_TX_SIZE + HDR_MGT_MAC_SIZE + 12
      = 2 * st.WifiData.txbufOut + (HDR_TX_SIZE + HDR_MGT_MAC_SIZE + 12) := by omega
  have e2 : HDR_MGT_MAC_SIZE + (beacon_body st.WifiData p (strlen p) g).2 + 4 - 4
      - HDR_MGT_MAC_SIZE - 12 = (beacon_body st.WifiData p (strlen p) g).2 - 12 := by omega
  rw [e1, e2, txBytes_slice _ _ _ (HDR_TX_SIZE + HDR_MGT_MAC_SIZE + 12)
    ((beacon_body st.WifiData p (strlen p) g).2 - 12) _ h2 (by omega)]
  rw [← List.drop_drop, beacon_frame_body, ← beacon_body_length]
  apply List.take_of_length_le
  simp only [List.length_drop]
  omega

/-- The tag/length/value sequence of the beacon for a string of `n` valid characters. -/
theorem beacon_elements_valid (w : Wifi_MainStruct) (p : CString) (g : Nat) (hv : p.valid)
    (hn : p.chars.length ≤ 32) :
    (beacon_body w p p.chars.length g).1.drop 12
      = (if 0 < p.chars.length then [MGT_FIE_ID_SSID, p.chars.length] ++ p.chars else [])
        ++ ([MGT_FIE_ID_SUPPORTED_RATES, 2, RATE_MANDATORY ||| RATE_2_MBPS,
            RATE_MANDATORY ||| RATE_1_MBPS]
        ++ ([MGT_FIE_ID_DS_PARAM_SET, 1, u8 w.curChannel]
        ++ ([MGT_FIE_ID_TIM, 6, 0, 0, 0, 0, 0, 0]
        ++ ([MGT_FIE_ID_VENDOR, 26] ++ (beacon_fie w g).bytes)))) := by
  rw [beacon_body_valid w p g hv hn]
  simp only [List.append_assoc]
  rw [← List.append_assoc (List.replicate 8 0), ← List.append_assoc (List.replicate 8 0 ++ le16 100)]
  apply List.drop_left'
  simp [le16]

/-- Decoding the elements that follow the SSID element of a beacon. -/
theorem findElement_beacon_tail (tag a b ch : Nat) (fie : List Nat) (hf : fie.length = 26) :
    findElement tag ([MGT_FIE_ID_SUPPORTED_RATES, 2, a, b]
        ++ ([MGT_FIE_ID_DS_PARAM_SET, 1, ch]
        ++ ([MGT_FIE_ID_TIM, 6, 0, 0, 0, 0, 0, 0]
        ++ ([MGT_FIE_ID_VENDOR, 26] ++ fie))))
      = if tag = MGT_FIE_ID_SUPPORTED_RATES then some (2, [a, b])
        else if tag = MGT_FIE_ID_DS_PARAM_SET then some (1, [ch])
        else if tag = MGT_FIE_ID_TIM then some (6, [0, 0, 0, 0, 0, 0])
        else if tag = MGT_FIE_ID_VENDOR then some (26, fie)
        else none := by
  by_cases h1 : tag = MGT_FIE_ID_SUPPORTED_RATES
  · rw [if_pos h1, h1]
    exact findElement_hit _ 2 [a, b] _ rfl
  rw [if_neg h1]
  have s1 := findElement_skip tag MGT_FIE_ID_SUPPORTED_RATES 2 [a, b]
    ([MGT_FIE_ID_DS_PARAM_SET, 1, ch]
      ++ ([MGT_FIE_ID_TIM, 6, 0, 0, 0, 0, 0, 0] ++ ([MGT_FIE_ID_VENDOR, 26] ++ fie))) rfl
    (fun e => h1 e.symm)
  refine s1.trans ?_
  by_cases h2 : tag = MGT_FIE_ID_DS_PARAM_SET
  · rw [if_pos h2, h2]
    exact findElement_hit _ 1 [ch] _ rfl
  rw [if_neg h2]
  have s2 := findElement_skip tag MGT_FIE_ID_DS_PARAM_SET 1 [ch]
    ([MGT_FIE_ID_TIM, 6, 0, 0, 0, 0, 0, 0] ++ ([MGT_FIE_ID_VENDOR, 26] ++ fie)) rfl
    (fun e => h2 e.symm)
  refine s2.trans ?_
  by_cases h3 : tag = MGT_FIE_ID_TIM
  · rw [if_pos h3, h3]
    exact findElement_hit _ 6 [0, 0, 0, 0, 0, 0] _ rfl
  rw [if_neg h3]
  have s3 := findElement_skip tag MGT_FIE_ID_TIM 6 [0, 0, 0, 0, 0, 0]
    ([MGT_FIE_ID_VENDOR, 26] ++ fie) rfl (fun e => h3 e.symm)
  refine s3.trans ?_
  by_cases h4 : tag = MGT_FIE_ID_VENDOR
  · rw [if_pos h4, h4]
    have := findElement_hit MGT_FIE_ID_VENDOR 26 fie [] hf.symm
    rw [List.append_nil] at this
    exact this
  rw [if_neg h4]
  have s4 := findElement_skip tag MGT_FIE_ID_VENDOR 26 fie [] hf.symm (fun e => h4 e.symm)
  rw [List.append_nil] at s4
  exact s4.trans (findElement_nil tag)

/-- Decoding the tag/length/value sequence of the beacon for a valid string. -/
theorem findElement_beacon (w : Wifi_MainStruct) (p : CString) (g : Nat) (hv : p.valid)
    (hn : p.chars.length ≤ 32) (tag : Nat) :
    findElement tag ((beacon_body w p p.chars.length g).1.drop 12)
      = if 0 < p.chars.length ∧ tag = MGT_FIE_ID_SSID then some (p.chars.length, p.chars)
        else if tag = MGT_FIE_ID_SUPPORTED_RATES then
          some (2, [RATE_MANDATORY ||| RATE_2_MBPS, RATE_MANDATORY ||| RATE_1_MBPS])
        else if tag = MGT_FIE_ID_DS_PARAM_SET then some (1, [u8 w.curChannel])
        else if tag = MGT_FIE_ID_TIM then some (6, [0, 0, 0, 0, 0, 0])
        else if tag = MGT_FIE_ID_VENDOR then some (26, (beacon_fie w g).bytes)
        else none := by
  rw [beacon_elements_valid w p g hv hn]
  have ht := findElement_beacon_tail tag (RATE_MANDATORY ||| RATE_2_MBPS)
    (RATE_MANDATORY ||| RATE_1_MBPS) (u8 w.curChannel) _ (beacon_fie_bytes_length w g)
  by_cases h0 : 0 < p.chars.length
  · rw [if_pos h0]
    by_cases h1 : tag = MGT_FIE_ID_SSID
    · rw [if_pos ⟨h0, h1⟩, h1]
      exact findElement_hit _ _ p.chars _ rfl
    · rw [if_neg (fun h => h1 h.2)]
      exact (findElement_skip tag MGT_FIE_ID_SSID _ p.chars _ rfl (fun e => h1 e.symm)).trans ht
  · rw [if_neg h0, if_neg (fun h => h0 h.1), List.nil_append]
    exact ht

theorem findElement_beacon_vendor (w : Wifi_MainStruct) (p : CString) (g : Nat) (hv : p.valid)
    (hn : p.chars.length ≤ 32) :
    findElement MGT_FIE_ID_VENDOR ((beacon_body w p p.chars.length g).1.drop 12)
      = some (26, (beacon_fie w g).bytes) := by
  rw [findElement_beacon w p g hv hn, if_neg (fun h => absurd h.2 (by decide)),
    if_neg (by decide), if_neg (by decide), if_neg (by decide), if_pos rfl]

/-- An accepted call for a valid string: the result, with the tag/length/value sequence
and the body that the frame in the ring carries. -/
theorem beacon_valid (st : Arm9) (data0 : Nat → Nat) (p : CString) (g : Nat) (hv : p.valid)
    (hn : p.chars.length ≤ 32) :
    ∃ st2, Wifi_BeaconStart st data0 (some p) g = some (0, st2) ∧
      ring_beacon_elements st2.WifiData st.WifiData.txbufOut
        = (beacon_body st.WifiData p p.chars.length g).1.drop 12 ∧
      txBytes st2.WifiData (2 * st.WifiData.txbufOut + (HDR_TX_SIZE + HDR_MGT_MAC_SIZE))
          (if p.chars.length = 0 then 55 else 57 + p.chars.length)
        = (beacon_body st.WifiData p p.chars.length g).1 := by
  have hs := strlen_valid p hv
  have hn2 : strlen p ≤ 32 := by omega
  obtain ⟨st2, h1, h2, -⟩ := beacon_ring st data0 p g hn2
  refine ⟨st2, h1, ?_, ?_⟩
  · rw [beacon_ring_elements st st2 p g hn2 h2, hs]
  · have h3 := txBytes_slice _ _ _ (HDR_TX_SIZE + HDR_MGT_MAC_SIZE)
      (beacon_body st.WifiData p (strlen p) g).2 _ h2 (by omega)
    rw [beacon_frame_body, ← beacon_body_length, List.take_length, beacon_body_length,
      beacon_body_size, hs] at h3
    exact h3

/-! ### The ring writes of `Wifi_TransmitFunction` -/

theorem cap_eq : WIFI_TXBUFFER_SIZE / 2 = 12288 := by decide

theorem txWrap_mod (x : Nat) :
    txWrap x % (WIFI_TXBUFFER_SIZE / 2) = x % (WIFI_TXBUFFER_SIZE / 2) := by
  unfold txWrap
  rw [cap_eq]
  split <;> omega

theorem txWrap_step (b x out L : Nat)
    (hb : b % (WIFI_TXBUFFER_SIZE / 2) = (out + L) % (WIFI_TXBUFFER_SIZE / 2)) :
    txWrap (b + x) % (WIFI_TXBUFFER_SIZE / 2) = (out + (L + x)) % (WIFI_TXBUFFER_SIZE / 2) := by
  rw [txWrap_mod, Nat.add_mod, hb, ← Nat.add_mod, Nat.add_assoc]

/-- A write behind the first `L` halfwords of a frame leaves these halfwords alone, as
long as the frame is not longer than the ring. -/
theorem write_kept (w : Wifi_MainStruct) (b size : Nat) (src : Nat → Nat) (out k L : Nat)
    (hb : b % (WIFI_TXBUFFER_SIZE / 2) = (out + L) % (WIFI_TXBUFFER_SIZE / 2)) (hk : k < L)
    (hL : L + (size + 1) / 2 ≤ WIFI_TXBUFFER_SIZE / 2) :
    (Wifi_TxBufferWrite w (b * 2) size src).txbufData ((out + k) % (WIFI_TXBUFFER_SIZE / 2))
      = w.txbufData ((out + k) % (WIFI_TXBUFFER_SIZE / 2)) := by
  have h2 : b * 2 / 2 = b := by omega
  simp only [Wifi_TxBufferWrite, h2]
  apply ringStore_other
  intro j hj he
  have h3 : (b + j) % (WIFI_TXBUFFER_SIZE / 2) = (out + (L + j)) % (WIFI_TXBUFFER_SIZE / 2) := by
    rw [Nat.add_mod, hb, ← Nat.add_mod, Nat.add_assoc]
  rw [h3] at he
  have := add_mod_inj (by omega) (by omega) he
  omega

theorem tx_blocks_kept (out k : Nat) :
    ∀ (next : List sgIP_memblock) (w : Wifi_MainStruct) (b L : Nat),
      b % (WIFI_TXBUFFER_SIZE / 2) = (out + L) % (WIFI_TXBUFFER_SIZE / 2) → k < L →
      L + (next.map (fun m => (m.thislength + 1) / 2)).sum ≤ WIFI_TXBUFFER_SIZE / 2 →
      (tx_blocks w b next).1.txbufData ((out + k) % (WIFI_TXBUFFER_SIZE / 2))
        = w.txbufData ((out + k) % (WIFI_TXBUFFER_SIZE / 2)) := by
  intro next
  induction next with
  | nil => intro w b L _ _ _; rfl
  | cons m rest ih =>
    intro w b L hb hk hL
    simp only [List.map_cons, List.sum_cons] at hL
    simp only [tx_blocks]
    rw [ih _ _ (L + (m.thislength + 1) / 2) (txWrap_step _ _ _ _ hb) (by omega) (by omega)]
    exact write_kept w b m.thislength m.datastart out k L hb hk (by omega)

/-- The header block of a queued frame is still in the ring when all the writes of the
call are done, as long as the frame is not longer than the ring. -/
theorem tx_ring_header (w : Wifi_MainStruct) (hdr0 : Nat → Nat) (mb : sgIP_memblock)
    (next : List sgIP_memblock) (hfit : tx_halfwords w mb next ≤ WIFI_TXBUFFER_SIZE / 2)
    (k : Nat) (hk : k < tx_hdrlen w / 2) :
    (tx_ring w hdr0 mb next).1.txbufData ((w.txbufOut + k) % (WIFI_TXBUFFER_SIZE / 2))
      = hword (tx_framehdr w hdr0 mb) k := by
  have hh : (tx_hdrlen w + 1) / 2 = tx_hdrlen w / 2 := by
    unfold tx_hdrlen HDR_TX_SIZE HDR_DATA_MAC_SIZE; split <;> rfl
  unfold tx_halfwords at hfit
  have hb1 : txWrap (w.txbufOut + tx_hdrlen w / 2) % (WIFI_TXBUFFER_SIZE / 2)
      = (w.txbufOut + tx_hdrlen w / 2) % (WIFI_TXBUFFER_SIZE / 2) := txWrap_mod _
  have hb2 := txWrap_step (txWrap (w.txbufOut + tx_hdrlen w / 2)) (8 / 2) w.txbufOut
    (tx_hdrlen w / 2) hb1
  simp only [tx_ring]
  rw [tx_blocks_kept w.txbufOut k next _ _
    (tx_hdrlen w / 2 + 8 / 2 + (if (mb.thislength : Int) - SIZEOF_ETH > 0
        then ((((mb.thislength : Int) - SIZEOF_ETH) + 1) / 2).toNat else 0)) ?_ (by omega)
    (by omega)]
  · by_cases hw : (mb.thislength : Int) - SIZEOF_ETH > 0
    · simp only [hw, if_true]
      rw [write_kept _ _ _ _ w.txbufOut k (tx_hdrlen w / 2 + 8 / 2) hb2 (by omega) ?_,
        write_kept _ _ _ _ w.txbufOut k (tx_hdrlen w / 2) hb1 hk (by omega)]
      · have h2 : w.txbufOut * 2 / 2 = w.txbufOut := by omega
        simp only [Wifi_TxBufferWrite, h2, hh]
        exact ringStore_get _ _ _ _ _ k hk (by omega)
      · simp only [hw, if_true] at hfit
        have : (((mb.thislength : Int) - SIZEOF_ETH).toNat + 1) / 2
            = ((((mb.thislength : Int) - SIZEOF_ETH) + 1) / 2).toNat := by omega
        omega
    · simp only [hw, if_false]
      rw [write_kept _ _ _ _ w.txbufOut k (tx_hdrlen w / 2) hb1 hk (by omega)]
      have h2 : w.txbufOut * 2 / 2 = w.txbufOut := by omega
      simp only [Wifi_TxBufferWrite, h2, hh]
      exact ringStore_get _ _ _ _ _ k hk (by omega)
  · by_cases hw : (mb.thislength : Int) - SIZEOF_ETH > 0
    · simp only [hw, if_true]
      exact txWrap_step _ _ _ _ hb2
    · simp only [hw, if_false, Nat.add_zero]
      exact hb2

theorem txByte_of_hword (w : Wifi_MainStruct) (out j : Nat) (src : Nat → Nat)
    (h : w.txbufData ((out + j / 2) % (WIFI_TXBUFFER_SIZE / 2)) = hword src (j / 2)) :
    txByte w (2 * out + j) = src j % 256 := by
  have h1 : (2 * out + j) / 2 = out + j / 2 := by omega
  simp only [txByte, h1, h]
  rcases Nat.mod_two_eq_zero_or_one j with h0 | h0
  · have h3 : (2 * out + j) % 2 = 0 := by omega
    have h4 : 2 * (j / 2) = j := by omega
    simp only [h3, if_true, Nat.div_one, hword_lo, h4]
  · have h3 : (2 * out + j) % 2 ≠ 0 := by omega
    have h4 : 2 * (j / 2) + 1 = j := by omega
    simp only [h3, if_false, hword_hi, h4]

theorem IEEE_DataFrameHeader_bytes_length (h : IEEE_DataFrameHeader) :
    h.bytes.length = HDR_DATA_MAC_SIZE := by
  simp [IEEE_DataFrameHeader.bytes, Mac.bytes, le16, HDR_DATA_MAC_SIZE]

theorem IEEE_DataFrameHeader_bytes_lt (h : IEEE_DataFrameHeader) : ∀ b ∈ h.bytes, b < 256 := by
  intro b hb
  simp only [IEEE_DataFrameHeader.bytes, List.mem_append] at hb
  rcases hb with ((((h1 | h1) | h1) | h1) | h1) | h1
  · exact le16_lt _ b h1
  · exact le16_lt _ b h1
  · exact Mac_bytes_lt _ b h1
  · exact Mac_bytes_lt _ b h1
  · exact Mac_bytes_lt _ b h1
  · exact le16_lt _ b h1

/-- Bytes 12 to 35 of `framehdr` at the first write are the IEEE header. -/
theorem tx_framehdr_ieee (w : Wifi_MainStruct) (hdr0 : Nat → Nat) (mb : sgIP_memblock)
    (j : Nat) (hj : j < HDR_DATA_MAC_SIZE) :
    tx_framehdr w hdr0 mb (HDR_TX_SIZE + j) % 256 = (tx_ieee w mb).bytes.getD j 0 := by
  have hl := IEEE_DataFrameHeader_bytes_length (tx_ieee w mb)
  have hj2 : j < (tx_ieee w mb).bytes.length := by omega
  have hlt : HDR_TX_SIZE + j < (({ Wifi_TxHeader.zero with
      tx_length := u16i (tx_framelen w mb + tx_hdrlen w - HDR_TX_SIZE + 4) } : Wifi_TxHeader).bytes
      ++ (tx_ieee w mb).bytes ++ (if w.wepmode7 ≠ 0 then [0, 0, 0, 0] else [])).length := by
    simp only [List.length_append, Wifi_TxHeader_bytes_length, hl]
    omega
  simp only [tx_framehdr, hlt, if_true]
  rw [List.getD_eq_getElem _ _ hlt, List.getD_eq_getElem _ _ hj2]
  rw [List.getElem_append_left (by
    simp only [List.length_append, Wifi_TxHeader_bytes_length, hl]; omega)]
  rw [List.getElem_append_right (by simp only [Wifi_TxHeader_bytes_length]; omega)]
  simp only [Wifi_TxHeader_bytes_length, Nat.add_sub_cancel_left]
  apply Nat.mod_eq_of_lt
  exact IEEE_DataFrameHeader_bytes_lt _ _ (List.getElem_mem _)

/-- The frame that `Wifi_TransmitFunction` queues leaves its IEEE header in the ring
behind the hardware TX header, as long as the frame is not longer than the ring. -/
theorem tx_ring_ieee (w : Wifi_MainStruct) (hdr0 : Nat → Nat) (mb : sgIP_memblock)
    (next : List sgIP_memblock) (hfit : tx_halfwords w mb next ≤ WIFI_TXBUFFER_SIZE / 2) :
    txBytes (tx_ring w hdr0 mb next).1 (2 * w.txbufOut + HDR_TX_SIZE) HDR_DATA_MAC_SIZE
      = (tx_ieee w mb).bytes := by
  have hl := IEEE_DataFrameHeader_bytes_length (tx_ieee w mb)
  unfold txBytes
  rw [← hl]
  apply map_getD_range
  intro j hj
  rw [hl] at hj
  have hk : (HDR_TX_SIZE + j) / 2 < tx_hdrlen w / 2 := by
    unfold tx_hdrlen HDR_TX_SIZE HDR_DATA_MAC_SIZE
    unfold HDR_DATA_MAC_SIZE at hj
    split <;> omega
  have h1 := tx_ring_header w hdr0 mb next hfit _ hk
  rw [Nat.add_assoc, txByte_of_hword _ _ _ _ h1]
  exact tx_framehdr_ieee w hdr0 mb j hj

theorem eth_dest_bytes (mb : sgIP_memblock) :
    (eth_dest_mac mb).bytes = (List.range 6).map (fun i => u8 (mb.datastart i)) := by
  simp only [eth_dest_mac, Mac.bytes, le16, hword_lo, hword_hi, u8]
  rfl

theorem Wifi_CallSyncHandler_WifiData (st : Arm9) :
    (Wifi_CallSyncHandler st).WifiData = st.WifiData := by
  unfold Wifi_CallSyncHandler
  split <;> rfl

/-- A call of `Wifi_TransmitFunction` with the network up and enough room returns 0 and
leaves the ring as the writes of `tx_ring` leave it; the statistics, which are updated
first, play no part in these writes. -/
theorem transmit_queued (st : Arm9) (hdr0 : Nat → Nat) (mb : sgIP_memblock)
    (next : List sgIP_memblock) (hup : st.WifiData.flags9 &&& WFLAG_ARM9_NETUP ≠ 0)
    (hspace : tx_framelen st.WifiData mb + 40 ≤ (Wifi_TxBufferBytesAvailable st.WifiData : Int)) :
    ∃ w2 : Wifi_MainStruct, w2.txbufOut = st.WifiData.txbufOut ∧
      tx_ieee w2 mb = tx_ieee st.WifiData mb ∧
      tx_halfwords w2 mb next = tx_halfwords st.WifiData mb next ∧
      (Wifi_TransmitFunction st hdr0 mb next).1 = 0 ∧
      (Wifi_TransmitFunction st hdr0 mb next).2.WifiData.txbufData
        = (tx_ring w2 hdr0 mb next).1.txbufData := by
  have h2 : ¬ (tx_framelen st.WifiData mb + 40 > (Wifi_TxBufferBytesAvailable st.WifiData : Int)) := by
    omega
  refine ⟨tx_stats st.WifiData mb, rfl, rfl, rfl, ?_, ?_⟩
  · simp only [Wifi_TransmitFunction, hup, h2, if_false]
  · simp only [Wifi_TransmitFunction, hup, h2, if_false, Wifi_CallSyncHandler_WifiData]

theorem tx_ieee_frame_control (w : Wifi_MainStruct) (mb : sgIP_memblock) :
    (tx_ieee w mb).frame_control
      = if w.curReqFlags &&& WFLAG_REQ_APADHOC ≠ 0
        then (if w.wepmode7 ≠ 0 then 0x4008 else 0x0008)
        else (if w.wepmode7 ≠ 0 then 0x4108 else 0x0108) := by
  unfold tx_ieee
  split <;> split <;> first | rfl | (dsimp only; decide)

theorem tx_ieee_bytes (w : Wifi_MainStruct) (mb : sgIP_memblock) :
    (tx_ieee w mb).bytes
      = if w.curReqFlags &&& WFLAG_REQ_APADHOC ≠ 0
        then le16 (tx_ieee w mb).frame_control ++ le16 0 ++ (eth_dest_mac mb).bytes
          ++ w.MacAddr.bytes ++ w.bssid7.bytes ++ le16 0
        else le16 (tx_ieee w mb).frame_control ++ le16 0 ++ w.bssid7.bytes
          ++ w.MacAddr.bytes ++ (eth_dest_mac mb).bytes ++ le16 0 := by
  unfold tx_ieee
  split <;> split <;> rfl

/-! ### Reception -/

theorem rxcap_eq : WIFI_RXBUFFER_SIZE / 2 = 6144 := by decide

theorem rxWrap_mod (x : Nat) :
    rxWrap x % (WIFI_RXBUFFER_SIZE / 2) = x % (WIFI_RXBUFFER_SIZE / 2) := by
  unfold rxWrap
  rw [rxcap_eq]
  split <;> omega

/-- A byte that `Wifi_RxRawReadPacket` has copied is the byte of the ring. -/
theorem Wifi_RxRawReadPacket_byte (w : Wifi_MainStruct) (b size : Nat) (dst : Nat → Nat)
    (off j : Nat) (hj : j / 2 < (size + 1) / 2)
    (hb : b % (WIFI_RXBUFFER_SIZE / 2) = off % (WIFI_RXBUFFER_SIZE / 2)) :
    Wifi_RxRawReadPacket w (b * 2) size dst j = rxByte w (2 * off + j) := by
  have h1 : b * 2 / 2 = b := by omega
  have h2 : (2 * off + j) / 2 = off + j / 2 := by omega
  have h3 : (2 * off + j) % 2 = j % 2 := by omega
  have h4 : (b + j / 2) % (WIFI_RXBUFFER_SIZE / 2) = (off + j / 2) % (WIFI_RXBUFFER_SIZE / 2) := by
    rw [Nat.add_mod, hb, ← Nat.add_mod]
  simp only [Wifi_RxRawReadPacket, hj, if_true, h1, rxByte, h2, h3, h4]

theorem rxByte_lt (w : Wifi_MainStruct) (off : Nat) : rxByte w off < 256 := by
  unfold rxByte
  exact Nat.mod_lt _ (by decide)

theorem rx_framehdr_byte (w : Wifi_MainStruct) (base j : Nat) (hj : j < 48) :
    rx_framehdr w base j = rxByte w (2 * base + j) := by
  unfold rx_framehdr
  apply Wifi_RxRawReadPacket_byte
  · simp only [HDR_RX_SIZE, HDR_DATA_MAC_SIZE]; omega
  · rfl

theorem rxBytes_two (w : Wifi_MainStruct) (off : Nat) :
    rxBytes w off 2 = [rxByte w off, rxByte w (off + 1)] := by
  simp [rxBytes, List.range_succ]

theorem rxBytes_append (w : Wifi_MainStruct) (off a b : Nat) :
    rxBytes w off (a + b) = rxBytes w off a ++ rxBytes w (off + a) b := by
  unfold rxBytes
  rw [List.range_add, List.map_append, List.map_map]
  congr 1
  apply List.map_congr_left
  intro j _
  simp [Nat.add_assoc]

/-- A halfword of `framehdr`, as bytes, is the pair of ring bytes at its place. -/
theorem rx_framehdr_le16 (w : Wifi_MainStruct) (base k : Nat) (hk : k < 24) :
    le16 (hword (rx_framehdr w base) k) = rxBytes w (2 * base + 2 * k) 2 := by
  have e1 := rx_framehdr_byte w base (2 * k) (by omega)
  have e2 := rx_framehdr_byte w base (2 * k + 1) (by omega)
  have l1 := rxByte_lt w (2 * base + 2 * k)
  have l2 := rxByte_lt w (2 * base + (2 * k + 1))
  simp only [le16, hword_lo, hword_hi, rxBytes_two, e1, e2, List.cons.injEq, and_true]
  constructor
  · omega
  · rw [Nat.add_assoc]; omega

/-- A MAC address of `framehdr`, as bytes, is the six ring bytes at its place. -/
theorem rx_mac_bytes (w : Wifi_MainStruct) (base k : Nat) (hk : k + 2 < 24) :
    (mac_at (rx_framehdr w base) k).bytes = rxBytes w (2 * base + 2 * k) 6 := by
  have e : rxBytes w (2 * base + 2 * k) 6
      = rxBytes w (2 * base + 2 * k) 2 ++ (rxBytes w (2 * base + 2 * (k + 1)) 2
          ++ rxBytes w (2 * base + 2 * (k + 2)) 2) := by
    rw [show (6 : Nat) = 2 + (2 + 2) from rfl, rxBytes_append, rxBytes_append]
    have a1 : 2 * base + 2 * k + 2 = 2 * base + 2 * (k + 1) := by omega
    have a2 : 2 * base + 2 * (k + 1) + 2 = 2 * base + 2 * (k + 2) := by omega
    rw [a1, a2]
  rw [e]
  simp only [mac_at, Mac.bytes, List.append_assoc]
  rw [rx_framehdr_le16 w base k (by omega), rx_framehdr_le16 w base (k + 1) (by omega),
    rx_framehdr_le16 w base (k + 2) (by omega)]

theorem Wifi_CmpMacAddr_eq (a b : Mac) (h : Wifi_CmpMacAddr a b = true) : a = b := by
  cases a; cases b
  simp only [Wifi_CmpMacAddr, Bool.and_eq_true, beq_iff_eq] at h
  simp only [Mac.mk.injEq]
  exact ⟨h.1.1, h.1.2, h.2⟩

/-- What the test on the frame control accepts: type and subtype `TYPE_DATA`, to-DS bit
clear. -/
theorem rx_is_data_bits (w : Wifi_MainStruct) (base : Nat) (h : rx_is_data w base) :
    Wifi_RxReadHWordOffset w ((base + HDR_RX_SIZE / 2) * 2) HDR_MGT_FRAME_CONTROL
        &&& FC_TYPE_SUBTYPE_MASK = TYPE_DATA
      ∧ Wifi_RxReadHWordOffset w ((base + HDR_RX_SIZE / 2) * 2) HDR_MGT_FRAME_CONTROL
        &&& FC_TO_DS = 0 := by
  unfold rx_is_data at h
  generalize Wifi_RxReadHWordOffset w ((base + HDR_RX_SIZE / 2) * 2) HDR_MGT_FRAME_CONTROL
    = fc at h
  have m1 : (FC_TO_DS ||| FC_TYPE_SUBTYPE_MASK) &&& FC_TYPE_SUBTYPE_MASK = FC_TYPE_SUBTYPE_MASK := by
    decide
  have m2 : (FC_TO_DS ||| FC_TYPE_SUBTYPE_MASK) &&& FC_TO_DS = FC_TO_DS := by decide
  constructor
  · rw [← m1, ← Nat.land_assoc, h]; decide
  · rw [← m2, ← Nat.land_assoc, h]; decide

/-- The result of `Wifi_sgIpHandlePackage` for a frame of at least 32 bytes that passes
the three tests and gets its memory block. -/
theorem sgIpHandlePackage_accept (st : Arm9) (base len : Nat)
    (h1 : rx_is_data st.WifiData base) (h2 : rx_for_us st.WifiData base = true)
    (h3 : rx_llc_ok st.WifiData base)
    (h4 : st.allocOk st.allocs (SIZEOF_ETH + rx_datalen len) = true) (hlen : 32 ≤ len) :
    Wifi_sgIpHandlePackage st base len
      = some { st with allocs := st.allocs + 1,
                       delivered := st.delivered ++ [rx_packet st.WifiData st.heap0 base len] } := by
  have hl : ¬ (len < HDR_DATA_MAC_SIZE + 8) := by
    unfold HDR_DATA_MAC_SIZE; omega
  simp [Wifi_sgIpHandlePackage, h1, h2, h3, h4, hl]

/-- A frame of fewer than 32 bytes that passes the three tests and gets its memory block
makes `Wifi_sgIpHandlePackage` leave defined behaviour. -/
theorem sgIpHandlePackage_overrun (st : Arm9) (base len : Nat)
    (h1 : rx_is_data st.WifiData base) (h2 : rx_for_us st.WifiData base = true)
    (h3 : rx_llc_ok st.WifiData base)
    (h4 : st.allocOk st.allocs (SIZEOF_ETH + rx_datalen len) = true) (hlen : len < 32) :
    Wifi_sgIpHandlePackage st base len = none := by
  have hl : len < HDR_DATA_MAC_SIZE + 8 := by
    unfold HDR_DATA_MAC_SIZE; omega
  simp [Wifi_sgIpHandlePackage, h1, h2, h3, h4, hl]

/-- A call of `Wifi_sgIpHandlePackage` with a length of at least 32 returns. -/
theorem sgIpHandlePackage_returns (st : Arm9) (base len : Nat) (hlen : 32 ≤ len) :
    ∃ st2, Wifi_sgIpHandlePackage st base len = some st2 := by
  have hl : ¬ (len < HDR_DATA_MAC_SIZE + 8) := by
    unfold HDR_DATA_MAC_SIZE; omega
  unfold Wifi_sgIpHandlePackage
  simp only [hl, if_false]
  split
  · exact ⟨_, rfl⟩
  split
  · exact ⟨_, rfl⟩
  split
  · exact ⟨_, rfl⟩
  split <;> exact ⟨_, rfl⟩

/-- A call of `Wifi_sgIpHandlePackage` that returns leaves the shared structure, the raw
packet handler with its log, and `WifiData` as they were. -/
theorem sgIpHandlePackage_keeps (st st2 : Arm9) (base len : Nat)
    (h : Wifi_sgIpHandlePackage st base len = some st2) :
    st2.WifiData = st.WifiData ∧ st2.packethandler = st.packethandler ∧
    st2.handlerCalls = st.handlerCalls ∧ st2.live = st.live := by
  unfold Wifi_sgIpHandlePackage at h
  simp only at h
  split at h
  · cases h; exact ⟨rfl, rfl, rfl, rfl⟩
  split at h
  · cases h; exact ⟨rfl, rfl, rfl, rfl⟩
  split at h
  · cases h; exact ⟨rfl, rfl, rfl, rfl⟩
  split at h
  · cases h; exact ⟨rfl, rfl, rfl, rfl⟩
  split at h
  · cases h
  · cases h; exact ⟨rfl, rfl, rfl, rfl⟩

theorem and_255_eq_mod (x : Nat) : x &&& 255 = x % 256 :=
  Nat.and_pow_two_sub_one_eq_mod x 8

theorem rx_datalen_eq (len : Nat) (h1 : 32 ≤ len) (h2 : len < 2147483648) :
    rx_datalen len = len - 32 := by
  unfold rx_datalen u32i HDR_DATA_MAC_SIZE
  omega

/-- Every byte of the data behind the Ethernet header of a delivered frame is the ring
byte at the same distance behind the LLC header. -/
theorem rx_data_byte (w : Wifi_MainStruct) (heap0 : Nat → Nat) (base len j : Nat)
    (hp : rx_datalen len % 2 = len % 2) (hj : j < rx_datalen len) :
    rx_data w heap0 base len j
      = rxByte w (2 * (base + (HDR_RX_SIZE + HDR_DATA_MAC_SIZE + 8) / 2) + j) := by
  have hb := rxWrap_mod (base + (HDR_RX_SIZE + HDR_DATA_MAC_SIZE + 8) / 2)
  simp only [rx_data]
  generalize rx_datalen len = d at hp hj
  generalize rxWrap (base + (HDR_RX_SIZE + HDR_DATA_MAC_SIZE + 8) / 2) = b2 at hb
  generalize base + (HDR_RX_SIZE + HDR_DATA_MAC_SIZE + 8) / 2 = off at hb
  by_cases ho : len % 2 ≠ 0
  · rw [if_pos ho]
    simp only [upd]
    by_cases hl : j = d - 1
    · simp only [hl, if_true]
      have e1 : (b2 * 2 + d / 2 * 2) / 2 = b2 + (d - 1) / 2 := by omega
      have e2 : (2 * off + (d - 1)) / 2 = off + (d - 1) / 2 := by omega
      have e3 : (2 * off + (d - 1)) % 2 = 0 := by omega
      have e4 : (b2 + (d - 1) / 2) % (WIFI_RXBUFFER_SIZE / 2)
          = (off + (d - 1) / 2) % (WIFI_RXBUFFER_SIZE / 2) := by
        rw [Nat.add_mod, hb, ← Nat.add_mod]
      simp only [Wifi_RxReadHWordOffset, rxByte, e1, e2, e3, e4, if_true, Nat.div_one,
        and_255_eq_mod, u8, u16]
      omega
    · simp only [hl, if_false]
      exact Wifi_RxRawReadPacket_byte w b2 _ heap0 off j (by omega) hb
  · rw [if_neg ho]
    exact Wifi_RxRawReadPacket_byte w b2 _ heap0 off j (by omega) hb

theorem rx_packet_payload (w : Wifi_MainStruct) (heap0 : Nat → Nat) (base len : Nat)
    (h1 : 32 ≤ len) (h2 : len < 2147483648) :
    (rx_packet w heap0 base len).payload
      = rxBytes w (2 * base + HDR_RX_SIZE + HDR_DATA_MAC_SIZE + 8) (len - 32) := by
  have hd := rx_datalen_eq len h1 h2
  simp only [rx_packet, rxBytes, hd]
  apply List.map_congr_left
  intro j hj
  have hj2 : j < rx_datalen len := by rw [hd]; exact List.mem_range.mp hj
  rw [rx_data_byte w heap0 base len j (by rw [hd]; omega) hj2]
  congr 1

/-! ### `Wifi_Update` -/

/-- A pass through the body of the loop that stays within defined behaviour advances
`rxbufIn` and changes no other field of the shared structure; the raw packet handler, if
there is one, is invoked once. -/
theorem Wifi_Update_body_spec (st st2 : Arm9) (h : Wifi_Update_body st = some st2) :
    st2.WifiData
      = { st.WifiData with
          rxbufIn := u32 (rxWrap (st.WifiData.rxbufIn + rx_fulllen (rx_len st.WifiData) / 2)) } ∧
    st2.packethandler = st.packethandler ∧
    st2.handlerCalls.length = st.handlerCalls.length + (if st.packethandler then 1 else 0) ∧
    st2.live = st.live := by
  unfold Wifi_Update_body at h
  simp only [Option.map_eq_some'] at h
  obtain ⟨s1, hs, e⟩ := h
  obtain ⟨k1, k2, k3, k4⟩ := sgIpHandlePackage_keeps st s1 _ _ hs
  subst e
  unfold Wifi_Update_advance
  cases hp : s1.packethandler
  · rw [hp] at k2
    simp [hp, ← k2, k1, k3, k4]
  · rw [hp] at k2
    simp [hp, ← k2, k1, k3, k4]

/-- A pass through the body of the loop returns when the frame length it reads is at
least 32. -/
theorem Wifi_Update_body_returns (st : Arm9) (hlen : 32 ≤ rx_len st.WifiData) :
    ∃ st2, Wifi_Update_body st = some st2 := by
  obtain ⟨s1, hs⟩ := sgIpHandlePackage_returns st st.WifiData.rxbufIn (rx_len st.WifiData) hlen
  unfold Wifi_Update_body
  simp only [hs, Option.map_some']
  exact ⟨_, rfl⟩

/-- The loop of `Wifi_Update` ends within the fuel, after `n` passes through its body:
either all of them stay within defined behaviour and the loop ends with the state they
give, or the last of them leaves defined behaviour.  The counter never exceeds 82. -/
theorem Wifi_Update_loop_spec :
    ∀ (fuel cnt : Nat) (st : Arm9), cnt ≤ 81 → 82 ≤ fuel + cnt →
      ∃ n, cnt + n ≤ 82 ∧
        ((∃ st2, Wifi_Update_loop fuel cnt st = some (Outcome.ok (st2, cnt + n)) ∧
            Wifi_Update_passes n st = some st2) ∨
          (Wifi_Update_loop fuel cnt st = some Outcome.fault ∧
            Wifi_Update_passes n st = none)) := by
  intro fuel
  induction fuel with
  | zero => intro cnt st h1 h2; omega
  | succ fuel ih =>
    intro cnt st h1 h2
    unfold Wifi_Update_loop
    by_cases hne : st.WifiData.rxbufIn ≠ st.WifiData.rxbufOut
    · rw [if_pos hne]
      cases hb : Wifi_Update_body st with
      | none =>
        refine ⟨1, by omega, Or.inr ⟨rfl, ?_⟩⟩
        simp only [Wifi_Update_passes, hb, Option.none_bind]
      | some s1 =>
        simp only
        by_cases hc : cnt > 80
        · refine ⟨1, by omega, Or.inl ⟨s1, ?_, ?_⟩⟩
          · rw [if_pos hc]
          · simp only [Wifi_Update_passes, hb, Option.some_bind]
        · rw [if_neg hc]
          obtain ⟨n, hn, e⟩ := ih (cnt + 1) s1 (by omega) (by omega)
          have e1 : cnt + 1 + n = cnt + (n + 1) := by omega
          refine ⟨n + 1, by omega, ?_⟩
          rcases e with ⟨s2, e2, e3⟩ | ⟨e2, e3⟩
          · left
            refine ⟨s2, ?_, ?_⟩
            · rw [e2, e1]
            · simp only [Wifi_Update_passes, hb, Option.some_bind, e3]
          · right
            refine ⟨e2, ?_⟩
            simp only [Wifi_Update_passes, hb, Option.some_bind, e3]
    · rw [if_neg hne]
      exact ⟨0, by omega, Or.inl ⟨st, rfl, rfl⟩⟩

/-- What `n` passes that stay within defined behaviour keep: `flags9`, `authlevel`,
`WifiData` and the raw packet handler; the handler is invoked once per pass. -/
theorem Wifi_Update_passes_spec (n : Nat) :
    ∀ st st2 : Arm9, Wifi_Update_passes n st = some st2 →
      st2.WifiData.flags9 = st.WifiData.flags9 ∧
      st2.WifiData.authlevel = st.WifiData.authlevel ∧
      st2.live = st.live ∧ st2.packethandler = st.packethandler ∧
      st2.handlerCalls.length = st.handlerCalls.length + (if st.packethandler then n else 0) := by
  induction n with
  | zero =>
    intro st st2 h
    cases h
    simp
  | succ n ih =>
    intro st st2 h
    simp only [Wifi_Update_passes] at h
    cases hb : Wifi_Update_body st with
    | none => rw [hb] at h; cases h
    | some s1 =>
      rw [hb, Option.some_bind] at h
      obtain ⟨b1, b2, b3, b4⟩ := Wifi_Update_body_spec st s1 hb
      obtain ⟨i1, i2, i3, i4, i5⟩ := ih s1 st2 h
      rw [b1] at i1 i2
      refine ⟨i1, i2, i3.trans b4, i4.trans b2, ?_⟩
      rw [i5, b3, b2]
      split <;> omega

theorem Wifi_Update_eq_some (st st2 : Arm9) :
    Wifi_Update st = some st2 ↔ ∃ n, Wifi_Update_run st = some (Outcome.ok (st2, n)) := by
  unfold Wifi_Update
  constructor
  · intro h
    split at h
    · rename_i r hr
      cases h
      exact ⟨r.2, hr⟩
    · cases h
  · rintro ⟨n, hn⟩
    rw [hn]

/-- A call of `Wifi_Update` that returns has made `n ≤ 82` passes through the body of the
loop, from the state after the flag handling. -/
theorem Wifi_Update_some (st st2 : Arm9) (h : Wifi_Update st = some st2) :
    (st.live = false ∧ st2 = st) ∨
    (st.live = true ∧ ∃ n, n ≤ 82 ∧ Wifi_Update_passes n (Wifi_Update_flags st) = some st2) := by
  obtain ⟨k, hk⟩ := (Wifi_Update_eq_some st st2).mp h
  unfold Wifi_Update_run at hk
  by_cases hl : ¬ st.live
  · rw [if_pos hl] at hk
    left
    have e := Option.some.inj hk
    cases e
    exact ⟨by simpa using hl, rfl⟩
  · rw [if_neg hl] at hk
    right
    refine ⟨by simpa using hl, ?_⟩
    obtain ⟨n, hn, e⟩ := Wifi_Update_loop_spec 82 0 (Wifi_Update_flags st) (by omega) (by omega)
    rcases e with ⟨s2, e2, e3⟩ | ⟨e2, -⟩
    · rw [e2] at hk
      have e := Option.some.inj hk
      cases e
      exact ⟨n, by omega, e3⟩
    · rw [e2] at hk
      cases hk

theorem u32_testBit (x i : Nat) :
    (u32 x).testBit i = (decide (i < 32) && x.testBit i) := by
  have : u32 x = x % 2 ^ 32 := rfl
  rw [this, Nat.testBit_mod_two_pow]

theorem testBit_set_other (g k i : Nat) (hi : i < 32) (hk : k ≠ i) :
    (u32 (g ||| 2 ^ k)).testBit i = g.testBit i := by
  rw [u32_testBit, Nat.testBit_or, Nat.testBit_two_pow_of_ne hk]
  simp [hi]

theorem testBit_set_self (g k : Nat) (hk : k < 32) : (u32 (g ||| 2 ^ k)).testBit k = true := by
  rw [u32_testBit, Nat.testBit_or, Nat.testBit_two_pow_self]
  simp [hk]

theorem testBit_clear_other (g k i : Nat) (hi : i < 32) (hk : k ≠ i) :
    (u32 (g &&& ((2 ^ 32 - 1) ^^^ 2 ^ k))).testBit i = g.testBit i := by
  rw [u32_testBit, Nat.testBit_and, Nat.testBit_xor, Nat.testBit_two_pow_sub_one,
    Nat.testBit_two_pow_of_ne hk]
  simp [hi]

theorem testBit_clear_self (g k : Nat) (hk : k < 32) :
    (u32 (g &&& ((2 ^ 32 - 1) ^^^ 2 ^ k))).testBit k = false := by
  rw [u32_testBit, Nat.testBit_and, Nat.testBit_xor, Nat.testBit_two_pow_sub_one,
    Nat.testBit_two_pow_self]
  simp [hk]

theorem and_two_pow_ne_zero (x n : Nat) : x &&& 2 ^ n ≠ 0 ↔ x.testBit n = true := by
  constructor
  · intro h
    by_contra hb
    apply h
    apply Nat.eq_of_testBit_eq
    intro i
    rw [Nat.testBit_and, Nat.zero_testBit]
    by_cases hi : n = i
    · subst hi
      simp [hb]
    · simp [Nat.testBit_two_pow_of_ne hi]
  · intro h e
    have h2 : (x &&& 2 ^ n).testBit n = true := by
      rw [Nat.testBit_and, h, Nat.testBit_two_pow_self]
      rfl
    rw [e, Nat.zero_testBit] at h2
    exact Bool.false_ne_true h2

theorem Wifi_Update_ready_spec (st : Arm9) :
    (Wifi_Update_ready st).WifiData.authlevel = st.WifiData.authlevel ∧
    (Wifi_Update_ready st).WifiData.rxbufIn = st.WifiData.rxbufIn ∧
    (Wifi_Update_ready st).handlerCalls = st.handlerCalls ∧
    (∀ i, i < 32 → i ≠ 2 →
      (Wifi_Update_ready st).WifiData.flags9.testBit i = st.WifiData.flags9.testBit i) := by
  unfold Wifi_Update_ready
  simp only
  split
  · split
    · refine ⟨rfl, rfl, rfl, ?_⟩
      intro i hi h2
      exact testBit_set_other st.WifiData.flags9 2 i hi (fun e => h2 e.symm)
    · exact ⟨rfl, rfl, rfl, fun _ _ _ => rfl⟩
  · exact ⟨rfl, rfl, rfl, fun _ _ _ => rfl⟩

theorem Wifi_Update_netup_spec (st : Arm9) :
    ((Wifi_Update_netup st).WifiData.flags9 &&& WFLAG_ARM9_NETUP ≠ 0
      ↔ st.WifiData.authlevel = WIFI_AUTHLEVEL_ASSOCIATED) ∧
    (Wifi_Update_netup st).WifiData.authlevel = st.WifiData.authlevel ∧
    (Wifi_Update_netup st).WifiData.rxbufIn = st.WifiData.rxbufIn ∧
    (Wifi_Update_netup st).handlerCalls = st.handlerCalls ∧
    (∀ i, i < 32 → i ≠ 3 →
      (Wifi_Update_netup st).WifiData.flags9.testBit i = st.WifiData.flags9.testBit i) := by
  have hn : ∀ x : Nat, x &&& WFLAG_ARM9_NETUP ≠ 0 ↔ x.testBit 3 = true :=
    fun x => and_two_pow_ne_zero x 3
  unfold Wifi_Update_netup
  simp only
  split
  · rename_i h
    refine ⟨?_, rfl, rfl, rfl, ?_⟩
    · rw [hn]
      have : (u32 (st.WifiData.flags9 &&& (0xFFFFFFFF ^^^ WFLAG_ARM9_NETUP))).testBit 3
          = false := testBit_clear_self st.WifiData.flags9 3 (by decide)
      constructor
      · intro h2
        have h3 : (u32 (st.WifiData.flags9 &&& (0xFFFFFFFF ^^^ WFLAG_ARM9_NETUP))).testBit 3
            = true := h2
        rw [this] at h3
        exact absurd h3 Bool.false_ne_true
      · intro h2
        exact absurd h2 h.1
    · intro i hi h3
      exact testBit_clear_other st.WifiData.flags9 3 i hi (fun e => h3 e.symm)
  · rename_i h
    split
    · rename_i h2
      refine ⟨?_, rfl, rfl, rfl, ?_⟩
      · rw [hn]
        constructor
        · intro _; exact h2.1
        · intro _; exact testBit_set_self st.WifiData.flags9 3 (by decide)
      · intro i hi h3
        exact testBit_set_other st.WifiData.flags9 3 i hi (fun e => h3 e.symm)
    · rename_i h2
      refine ⟨?_, rfl, rfl, rfl, fun _ _ _ => rfl⟩
      constructor
      · intro h3
        by_contra h4
        exact h ⟨h4, h3⟩
      · intro h3 h4
        exact h2 ⟨h3, h4⟩

theorem Wifi_Update_flags_spec (st : Arm9) :
    ((Wifi_Update_flags st).WifiData.flags9 &&& WFLAG_ARM9_NETUP ≠ 0
      ↔ st.WifiData.authlevel = WIFI_AUTHLEVEL_ASSOCIATED) ∧
    (Wifi_Update_flags st).WifiData.authlevel = st.WifiData.authlevel ∧
    (Wifi_Update_flags st).WifiData.rxbufIn = st.WifiData.rxbufIn ∧
    (Wifi_Update_flags st).handlerCalls = st.handlerCalls ∧
    (∀ i, i < 32 → i ≠ 2 → i ≠ 3 →
      (Wifi_Update_flags st).WifiData.flags9.testBit i = st.WifiData.flags9.testBit i) := by
  obtain ⟨a1, a2, a3, a4⟩ := Wifi_Update_ready_spec st
  obtain ⟨b1, b2, b3, b4, b5⟩ := Wifi_Update_netup_spec (Wifi_Update_ready st)
  unfold Wifi_Update_flags
  refine ⟨?_, b2.trans a1, b3.trans a2, b4.trans a3, ?_⟩
  · rw [b1, a1]
  · intro i hi h2 h3
    rw [b5 i hi h3, a4 i hi h2]

/-! ### Ring cursors -/

theorem txWrap_lt (b x : Nat) (hb : b < WIFI_TXBUFFER_SIZE / 2) (hx : x ≤ WIFI_TXBUFFER_SIZE / 2) :
    txWrap (b + x) < WIFI_TXBUFFER_SIZE / 2 := by
  unfold txWrap
  rw [cap_eq] at *
  split <;> omega

theorem u32_of_lt_cap (x : Nat) (h : x < WIFI_TXBUFFER_SIZE / 2) : u32 x = x := by
  rw [cap_eq] at h
  unfold u32
  omega

/-- The loop of `Wifi_Update` ends within defined behaviour when every length it reads
is at least 32. -/
theorem Wifi_Update_loop_returns :
    ∀ (fuel cnt : Nat) (st : Arm9), cnt ≤ 81 → 82 ≤ fuel + cnt →
      (∀ len ∈ Wifi_Update_lens fuel cnt st, 32 ≤ len) →
      ∃ r, Wifi_Update_loop fuel cnt st = some (Outcome.ok r) := by
  intro fuel
  induction fuel with
  | zero => intro cnt st h1 h2; omega
  | succ fuel ih =>
    intro cnt st h1 h2 hlens
    unfold Wifi_Update_loop
    unfold Wifi_Update_lens at hlens
    by_cases hne : st.WifiData.rxbufIn ≠ st.WifiData.rxbufOut
    · rw [if_pos hne] at hlens
      rw [if_pos hne]
      obtain ⟨s1, hb⟩ := Wifi_Update_body_returns st (hlens _ (List.mem_cons_self _ _))
      rw [hb] at hlens
      rw [hb]
      simp only at hlens ⊢
      by_cases hc : cnt > 80
      · rw [if_pos hc]
        exact ⟨_, rfl⟩
      · rw [if_neg hc] at hlens
        rw [if_neg hc]
        exact ih (cnt + 1) s1 (by omega) (by omega)
          (fun len hl => hlens len (List.mem_cons_of_mem _ hl))
    · rw [if_neg hne]
      exact ⟨_, rfl⟩

/-- A call of `Wifi_Update` returns when every frame length that its loop reads is at
least 32. -/
theorem Wifi_Update_returns (st : Arm9)
    (hsafe : ∀ len ∈ Wifi_Update_lens 82 0 (Wifi_Update_flags st), 32 ≤ len) :
    ∃ st2, Wifi_Update st = some st2 := by
  by_cases hl : ¬ st.live
  · refine ⟨st, (Wifi_Update_eq_some st st).mpr ⟨0, ?_⟩⟩
    unfold Wifi_Update_run
    rw [if_pos hl]
  · obtain ⟨r, hr⟩ := Wifi_Update_loop_returns 82 0 (Wifi_Update_flags st) (by omega)
      (by omega) hsafe
    refine ⟨r.1, (Wifi_Update_eq_some st r.1).mpr ⟨r.2, ?_⟩⟩
    unfold Wifi_Update_run
    rw [if_neg hl, hr]

theorem tx_halfwords_eq (w : Wifi_MainStruct) (mb : sgIP_memblock) (next : List sgIP_memblock) :
    tx_halfwords w mb next
      = tx_written_halfwords w mb next + (if w.wepmode7 ≠ 0 then 4 / 2 else 0) := rfl

/-- A write of the halfwords `L` to `L + m` of a frame leaves every other halfword of
the ring alone, as long as the write ends inside the ring. -/
theorem write_other (w : Wifi_MainStruct) (b size : Nat) (src : Nat → Nat) (out K L : Nat)
    (hb : b % (WIFI_TXBUFFER_SIZE / 2) = (out + L) % (WIFI_TXBUFFER_SIZE / 2))
    (hK : K < L ∨ L + (size + 1) / 2 ≤ K) (hKc : K < WIFI_TXBUFFER_SIZE / 2)
    (hL : L + (size + 1) / 2 ≤ WIFI_TXBUFFER_SIZE / 2) :
    (Wifi_TxBufferWrite w (b * 2) size src).txbufData ((out + K) % (WIFI_TXBUFFER_SIZE / 2))
      = w.txbufData ((out + K) % (WIFI_TXBUFFER_SIZE / 2)) := by
  have h2 : b * 2 / 2 = b := by omega
  simp only [Wifi_TxBufferWrite, h2]
  apply ringStore_other
  intro j hj he
  have h3 : (b + j) % (WIFI_TXBUFFER_SIZE / 2) = (out + (L + j)) % (WIFI_TXBUFFER_SIZE / 2) := by
    rw [Nat.add_mod, hb, ← Nat.add_mod, Nat.add_assoc]
  rw [h3] at he
  have := add_mod_inj (by omega) hKc he
  omega

theorem tx_blocks_other (out K : Nat) :
    ∀ (next : List sgIP_memblock) (w : Wifi_MainStruct) (b L : Nat),
      b % (WIFI_TXBUFFER_SIZE / 2) = (out + L) % (WIFI_TXBUFFER_SIZE / 2) →
      (K < L ∨ L + (next.map (fun m => (m.thislength + 1) / 2)).sum ≤ K) →
      K < WIFI_TXBUFFER_SIZE / 2 →
      L + (next.map (fun m => (m.thislength + 1) / 2)).sum ≤ WIFI_TXBUFFER_SIZE / 2 →
      (tx_blocks w b next).1.txbufData ((out + K) % (WIFI_TXBUFFER_SIZE / 2))
        = w.txbufData ((out + K) % (WIFI_TXBUFFER_SIZE / 2)) := by
  intro next
  induction next with
  | nil => intro w b L _ _ _ _; rfl
  | cons m rest ih =>
    intro w b L hb hK hKc hL
    simp only [List.map_cons, List.sum_cons] at hL hK
    simp only [tx_blocks]
    rw [ih _ _ (L + (m.thislength + 1) / 2) (txWrap_step _ _ _ _ hb) (by omega) hKc (by omega)]
    exact write_other w b m.thislength m.datastart out K L hb (by omega) hKc (by omega)

theorem tx_blocks_base (out : Nat) :
    ∀ (next : List sgIP_memblock) (w : Wifi_MainStruct) (b L : Nat),
      b < WIFI_TXBUFFER_SIZE / 2 →
      b % (WIFI_TXBUFFER_SIZE / 2) = (out + L) % (WIFI_TXBUFFER_SIZE / 2) →
      (next.map (fun m => (m.thislength + 1) / 2)).sum ≤ WIFI_TXBUFFER_SIZE / 2 →
      (tx_blocks w b next).2 < WIFI_TXBUFFER_SIZE / 2 ∧
      (tx_blocks w b next).2 % (WIFI_TXBUFFER_SIZE / 2)
        = (out + (L + (next.map (fun m => (m.thislength + 1) / 2)).sum))
            % (WIFI_TXBUFFER_SIZE / 2) := by
  intro next
  induction next with
  | nil => intro w b L hlt hb _; exact ⟨hlt, by simpa using hb⟩
  | cons m rest ih =>
    intro w b L hlt hb hs
    simp only [List.map_cons, List.sum_cons] at hs ⊢
    simp only [tx_blocks]
    have h := ih (Wifi_TxBufferWrite w (b * 2) m.thislength m.datastart)
      (txWrap (b + (m.thislength + 1) / 2)) (L + (m.thislength + 1) / 2)
      (txWrap_lt _ _ hlt (by omega)) (txWrap_step _ _ _ _ hb) (by omega)
    rw [Nat.add_assoc] at h
    exact h

theorem tx_payload_halfwords (mb : sgIP_memblock) :
    (((mb.thislength : Int) - SIZEOF_ETH).toNat + 1) / 2
      = ((((mb.thislength : Int) - SIZEOF_ETH) + 1) / 2).toNat := by
  omega

/-- The halfwords of the ring behind those that a queued frame writes are left alone by
the call, as long as the frame is not longer than the ring. -/
theorem tx_ring_untouched (w : Wifi_MainStruct) (hdr0 : Nat → Nat) (mb : sgIP_memblock)
    (next : List sgIP_memblock) (hfit : tx_halfwords w mb next ≤ WIFI_TXBUFFER_SIZE / 2)
    (K : Nat) (hK : tx_written_halfwords w mb next ≤ K) (hKc : K < WIFI_TXBUFFER_SIZE / 2) :
    (tx_ring w hdr0 mb next).1.txbufData ((w.txbufOut + K) % (WIFI_TXBUFFER_SIZE / 2))
      = w.txbufData ((w.txbufOut + K) % (WIFI_TXBUFFER_SIZE / 2)) := by
  have hh : (tx_hdrlen w + 1) / 2 = tx_hdrlen w / 2 := by
    unfold tx_hdrlen HDR_TX_SIZE HDR_DATA_MAC_SIZE; split <;> rfl
  have hp := tx_payload_halfwords mb
  unfold tx_halfwords at hfit
  unfold tx_written_halfwords at hK
  have hb0 : w.txbufOut % (WIFI_TXBUFFER_SIZE / 2) = (w.txbufOut + 0) % (WIFI_TXBUFFER_SIZE / 2) :=
    rfl
  have hb1 : txWrap (w.txbufOut + tx_hdrlen w / 2) % (WIFI_TXBUFFER_SIZE / 2)
      = (w.txbufOut + tx_hdrlen w / 2) % (WIFI_TXBUFFER_SIZE / 2) := txWrap_mod _
  have hb2 := txWrap_step (txWrap (w.txbufOut + tx_hdrlen w / 2)) (8 / 2) w.txbufOut
    (tx_hdrlen w / 2) hb1
  simp only [tx_ring]
  rw [tx_blocks_other w.txbufOut K next _ _
    (tx_hdrlen w / 2 + 8 / 2 + (if (mb.thislength : Int) - SIZEOF_ETH > 0
        then ((((mb.thislength : Int) - SIZEOF_ETH) + 1) / 2).toNat else 0)) ?_
    (Or.inr (by omega)) hKc (by omega)]
  · by_cases hw : (mb.thislength : Int) - SIZEOF_ETH > 0
    · simp only [hw, if_true] at hfit hK ⊢
      rw [write_other _ _ _ _ w.txbufOut K (tx_hdrlen w / 2 + 8 / 2) hb2
          (Or.inr (by omega)) hKc (by omega),
        write_other _ _ _ _ w.txbufOut K (tx_hdrlen w / 2) hb1 (Or.inr (by omega)) hKc
          (by omega),
        write_other _ _ _ _ w.txbufOut K 0 hb0 (Or.inr (by omega)) hKc (by omega)]
    · simp only [hw, if_false] at hfit hK ⊢
      rw [write_other _ _ _ _ w.txbufOut K (tx_hdrlen w / 2) hb1 (Or.inr (by omega)) hKc
          (by omega),
        write_other _ _ _ _ w.txbufOut K 0 hb0 (Or.inr (by omega)) hKc (by omega)]
  · by_cases hw : (mb.thislength : Int) - SIZEOF_ETH > 0
    · simp only [hw, if_true]
      exact txWrap_step _ _ _ _ hb2
    · simp only [hw, if_false, Nat.add_zero]
      exact hb2

/-- The LLC header of a queued frame is still in the ring, right behind the header
block, when all the writes of the call are done. -/
theorem tx_ring_llc (w : Wifi_MainStruct) (hdr0 : Nat → Nat) (mb : sgIP_memblock)
    (next : List sgIP_memblock) (hfit : tx_halfwords w mb next ≤ WIFI_TXBUFFER_SIZE / 2)
    (k : Nat) (hk : k < 4) :
    (tx_ring w hdr0 mb next).1.txbufData
        ((w.txbufOut + (tx_hdrlen w / 2 + k)) % (WIFI_TXBUFFER_SIZE / 2))
      = hword (tx_llc w hdr0 mb) k := by
  have hp := tx_payload_halfwords mb
  unfold tx_halfwords at hfit
  have hc := cap_eq
  have hb1 : txWrap (w.txbufOut + tx_hdrlen w / 2) % (WIFI_TXBUFFER_SIZE / 2)
      = (w.txbufOut + tx_hdrlen w / 2) % (WIFI_TXBUFFER_SIZE / 2) := txWrap_mod _
  have hb2 := txWrap_step (txWrap (w.txbufOut + tx_hdrlen w / 2)) (8 / 2) w.txbufOut
    (tx_hdrlen w / 2) hb1
  have hKc : tx_hdrlen w / 2 + k < WIFI_TXBUFFER_SIZE / 2 := by omega
  have hidx : (w.txbufOut + (tx_hdrlen w / 2 + k)) % (WIFI_TXBUFFER_SIZE / 2)
      = (txWrap (w.txbufOut + tx_hdrlen w / 2) + k) % (WIFI_TXBUFFER_SIZE / 2) := by
    rw [← Nat.add_assoc, Nat.add_mod, ← hb1, ← Nat.add_mod]
  have hget : ∀ w1 : Wifi_MainStruct,
      (Wifi_TxBufferWrite w1 (txWrap (w.txbufOut + tx_hdrlen w / 2) * 2) 8
          (tx_llc w hdr0 mb)).txbufData
        ((w.txbufOut + (tx_hdrlen w / 2 + k)) % (WIFI_TXBUFFER_SIZE / 2))
        = hword (tx_llc w hdr0 mb) k := by
    intro w1
    have h2 : txWrap (w.txbufOut + tx_hdrlen w / 2) * 2 / 2
        = txWrap (w.txbufOut + tx_hdrlen w / 2) := by omega
    rw [hidx]
    simp only [Wifi_TxBufferWrite, h2]
    exact ringStore_get _ _ _ _ _ k (by omega) (by omega)
  simp only [tx_ring]
  rw [tx_blocks_other w.txbufOut (tx_hdrlen w / 2 + k) next _ _
    (tx_hdrlen w / 2 + 8 / 2 + (if (mb.thislength : Int) - SIZEOF_ETH > 0
        then ((((mb.thislength : Int) - SIZEOF_ETH) + 1) / 2).toNat else 0)) ?_
    (Or.inl (by omega)) hKc (by omega)]
  · by_cases hw : (mb.thislength : Int) - SIZEOF_ETH > 0
    · simp only [hw, if_true] at hfit ⊢
      rw [write_other _ _ _ _ w.txbufOut (tx_hdrlen w / 2 + k) (tx_hdrlen w / 2 + 8 / 2) hb2
          (Or.inl (by omega)) hKc (by omega)]
      exact hget _
    · simp only [hw, if_false] at hfit ⊢
      exact hget _
  · by_cases hw : (mb.thislength : Int) - SIZEOF_ETH > 0
    · simp only [hw, if_true]
      exact txWrap_step _ _ _ _ hb2
    · simp only [hw, if_false, Nat.add_zero]
      exact hb2

/-- The cursor behind a queued frame is the old cursor advanced by `tx_halfwords`,
modulo the capacity of the ring. -/
theorem tx_ring_base (w : Wifi_MainStruct) (hdr0 : Nat → Nat) (mb : sgIP_memblock)
    (next : List sgIP_memblock) (hout : w.txbufOut < WIFI_TXBUFFER_SIZE / 2)
    (hfit : tx_halfwords w mb next ≤ WIFI_TXBUFFER_SIZE / 2) :
    (tx_ring w hdr0 mb next).2
      = (w.txbufOut + tx_halfwords w mb next) % (WIFI_TXBUFFER_SIZE / 2) := by
  have hp := tx_payload_halfwords mb
  have hc := cap_eq
  have key : ∀ r : Wifi_MainStruct × Nat, r.2 < WIFI_TXBUFFER_SIZE / 2 →
      r.2 % (WIFI_TXBUFFER_SIZE / 2)
        = (w.txbufOut + (tx_hdrlen w / 2 + 8 / 2 + (if (mb.thislength : Int) - SIZEOF_ETH > 0
            then ((((mb.thislength : Int) - SIZEOF_ETH) + 1) / 2).toNat else 0)))
          % (WIFI_TXBUFFER_SIZE / 2) →
      (if w.wepmode7 ≠ 0 then txWrap ((tx_blocks r.1 r.2 next).2 + 4 / 2)
        else (tx_blocks r.1 r.2 next).2)
        = (w.txbufOut + tx_halfwords w mb next) % (WIFI_TXBUFFER_SIZE / 2) := by
    intro r h1 h2
    unfold tx_halfwords at hfit ⊢
    obtain ⟨h3, h4⟩ := tx_blocks_base w.txbufOut next r.1 r.2 _ h1 h2 (by omega)
    by_cases hwep : w.wepmode7 ≠ 0
    · simp only [if_pos hwep] at hfit ⊢
      have h5 := txWrap_lt _ (4 / 2) h3 (by omega)
      have h6 := txWrap_step _ (4 / 2) _ _ h4
      rw [← h6]
      exact (Nat.mod_eq_of_lt h5).symm
    · simp only [if_neg hwep, Nat.add_zero] at hfit ⊢
      rw [← h4]
      exact (Nat.mod_eq_of_lt h3).symm
  unfold tx_halfwords at hfit
  have hH : tx_hdrlen w / 2 ≤ WIFI_TXBUFFER_SIZE / 2 := by omega
  have h1 := txWrap_lt _ _ hout hH
  have hb1 : txWrap (w.txbufOut + tx_hdrlen w / 2) % (WIFI_TXBUFFER_SIZE / 2)
      = (w.txbufOut + tx_hdrlen w / 2) % (WIFI_TXBUFFER_SIZE / 2) := txWrap_mod _
  have h2 := txWrap_lt _ (8 / 2) h1 (by omega)
  have hb2 := txWrap_step (txWrap (w.txbufOut + tx_hdrlen w / 2)) (8 / 2) w.txbufOut
    (tx_hdrlen w / 2) hb1
  simp only [tx_ring]
  refine key _ ?_ ?_
  · by_cases hw : (mb.thislength : Int) - SIZEOF_ETH > 0
    · simp only [hw, if_true] at hfit ⊢
      exact txWrap_lt _ _ h2 (by omega)
    · simp only [hw, if_false]
      exact h2
  · by_cases hw : (mb.thislength : Int) - SIZEOF_ETH > 0
    · simp only [hw, if_true]
      exact txWrap_step _ _ _ _ hb2
    · simp only [hw, if_false, Nat.add_zero]
      exact hb2

theorem txByte_congr (w1 w2 : Wifi_MainStruct) (h : w1.txbufData = w2.txbufData) (off : Nat) :
    txByte w1 off = txByte w2 off := by
  unfold txByte
  rw [h]

theorem tx_hdrlen_even (w : Wifi_MainStruct) : tx_hdrlen w % 2 = 0 := by
  unfold tx_hdrlen HDR_TX_SIZE HDR_DATA_MAC_SIZE
  split <;> rfl

theorem tx_framehdr_stored_length (w : Wifi_MainStruct) (mb : sgIP_memblock) :
    (({ Wifi_TxHeader.zero with
      tx_length := u16i (tx_framelen w mb + tx_hdrlen w - HDR_TX_SIZE + 4) } : Wifi_TxHeader).bytes
      ++ (tx_ieee w mb).bytes ++ (if w.wepmode7 ≠ 0 then [0, 0, 0, 0] else [])).length
      = tx_hdrlen w := by
  simp only [List.length_append, Wifi_TxHeader_bytes_length, IEEE_DataFrameHeader_bytes_length,
    tx_hdrlen]
  split <;> rfl

/-- The two bytes of the field `tx_length` in the array `framehdr`. -/
theorem tx_framehdr_tx_length (w : Wifi_MainStruct) (hdr0 : Nat → Nat) (mb : sgIP_memblock) :
    tx_framehdr w hdr0 mb 10 = u16i (tx_framelen w mb + tx_hdrlen w - HDR_TX_SIZE + 4) % 256 ∧
    tx_framehdr w hdr0 mb 11
      = u16i (tx_framelen w mb + tx_hdrlen w - HDR_TX_SIZE + 4) / 256 % 256 := by
  have hl := tx_framehdr_stored_length w mb
  have h10 : 10 < tx_hdrlen w := by
    unfold tx_hdrlen HDR_TX_SIZE HDR_DATA_MAC_SIZE; omega
  have h11 : 11 < tx_hdrlen w := by
    unfold tx_hdrlen HDR_TX_SIZE HDR_DATA_MAC_SIZE; omega
  simp only [tx_framehdr, hl, h10, h11, if_true]
  rw [List.append_assoc, List.getD_append _ _ _ _ (by rw [Wifi_TxHeader_bytes_length]; decide),
    List.getD_append _ _ _ _ (by rw [Wifi_TxHeader_bytes_length]; decide)]
  exact ⟨rfl, rfl⟩

/-- The four bytes of the WEP IV in the array `framehdr`: they are zero. -/
theorem tx_framehdr_iv (w : Wifi_MainStruct) (hdr0 : Nat → Nat) (mb : sgIP_memblock)
    (hwep : w.wepmode7 ≠ 0) (j : Nat) (hj : j < 4) :
    tx_framehdr w hdr0 mb (HDR_TX_SIZE + HDR_DATA_MAC_SIZE + j) = 0 := by
  have hl := tx_framehdr_stored_length w mb
  have hlt : HDR_TX_SIZE + HDR_DATA_MAC_SIZE + j < tx_hdrlen w := by
    unfold tx_hdrlen
    rw [if_pos hwep]
    omega
  simp only [tx_framehdr, hl, hlt, if_true]
  rw [List.getD_append_right _ _ _ _ (by
    simp only [List.length_append, Wifi_TxHeader_bytes_length,
      IEEE_DataFrameHeader_bytes_length]
    omega)]
  simp only [List.length_append, Wifi_TxHeader_bytes_length, IEEE_DataFrameHeader_bytes_length,
    Nat.add_sub_cancel_left, if_pos hwep]
  interval_cases j <;> rfl

/-- The eight bytes of the LLC header in the array `framehdr`. -/
theorem tx_llc_bytes (w : Wifi_MainStruct) (hdr0 : Nat → Nat) (mb : sgIP_memblock)
    (j : Nat) (hj : j < 8) :
    tx_llc w hdr0 mb j % 256
      = (le16 0xAAAA ++ le16 0x0003 ++ le16 0x0000 ++ le16 (eth_protocol mb)).getD j 0 := by
  have hl : (le16 0xAAAA ++ le16 0x0003 ++ le16 0x0000 ++ le16 (eth_protocol mb)).length = 8 :=
    rfl
  have hb : le16 0xAAAA ++ le16 0x0003 ++ le16 0x0000 ++ le16 (eth_protocol mb)
      = [170, 170, 3, 0, 0, 0, eth_protocol mb % 256, eth_protocol mb / 256 % 256] := rfl
  simp only [tx_llc, hl, hj, if_true]
  apply Nat.mod_eq_of_lt
  rw [hb]
  interval_cases j
  · show 170 < 256; decide
  · show 170 < 256; decide
  · show 3 < 256; decide
  · show 0 < 256; decide
  · show 0 < 256; decide
  · show 0 < 256; decide
  · exact Nat.mod_lt _ (by decide)
  · exact Nat.mod_lt _ (by decide)

theorem tx_ring_header_byte (w : Wifi_MainStruct) (hdr0 : Nat → Nat) (mb : sgIP_memblock)
    (next : List sgIP_memblock) (hfit : tx_halfwords w mb next ≤ WIFI_TXBUFFER_SIZE / 2)
    (j : Nat) (hj : j < tx_hdrlen w) :
    txByte (tx_ring w hdr0 mb next).1 (2 * w.txbufOut + j) = tx_framehdr w hdr0 mb j % 256 := by
  have he := tx_hdrlen_even w
  exact txByte_of_hword _ _ _ _ (tx_ring_header w hdr0 mb next hfit (j / 2) (by omega))

theorem tx_ring_llc_byte (w : Wifi_MainStruct) (hdr0 : Nat → Nat) (mb : sgIP_memblock)
    (next : List sgIP_memblock) (hfit : tx_halfwords w mb next ≤ WIFI_TXBUFFER_SIZE / 2)
    (j : Nat) (hj : j < 8) :
    txByte (tx_ring w hdr0 mb next).1 (2 * w.txbufOut + (tx_hdrlen w + j))
      = tx_llc w hdr0 mb j % 256 := by
  have he := tx_hdrlen_even w
  have h := tx_ring_llc w hdr0 mb next hfit (j / 2) (by omega)
  rw [← Nat.add_assoc] at h
  have e : 2 * w.txbufOut + (tx_hdrlen w + j) = 2 * (w.txbufOut + tx_hdrlen w / 2) + j := by
    omega
  rw [e]
  exact txByte_of_hword _ _ _ _ h

/-- The ring and the cursor after a call of `Wifi_TransmitFunction` that queues the
frame. -/
theorem transmit_ring (st : Arm9) (hdr0 : Nat → Nat) (mb : sgIP_memblock)
    (next : List sgIP_memblock) (hup : st.WifiData.flags9 &&& WFLAG_ARM9_NETUP ≠ 0)
    (hspace : tx_framelen st.WifiData mb + 40 ≤ (Wifi_TxBufferBytesAvailable st.WifiData : Int)) :
    (Wifi_TransmitFunction st hdr0 mb next).2.WifiData.txbufData
      = (tx_ring (tx_stats st.WifiData mb) hdr0 mb next).1.txbufData ∧
    (Wifi_TransmitFunction st hdr0 mb next).2.WifiData.txbufOut
      = u32 (tx_ring (tx_stats st.WifiData mb) hdr0 mb next).2 := by
  have h2 : ¬ (tx_framelen st.WifiData mb + 40 > (Wifi_TxBufferBytesAvailable st.WifiData : Int)) := by
    omega
  constructor <;>
    simp only [Wifi_TransmitFunction, hup, h2, if_false, Wifi_CallSyncHandler_WifiData]

theorem transmit_header_byte (st : Arm9) (hdr0 : Nat → Nat) (mb : sgIP_memblock)
    (next : List sgIP_memblock) (hup : st.WifiData.flags9 &&& WFLAG_ARM9_NETUP ≠ 0)
    (hspace : tx_framelen st.WifiData mb + 40 ≤ (Wifi_TxBufferBytesAvailable st.WifiData : Int))
    (hfit : tx_halfwords st.WifiData mb next ≤ WIFI_TXBUFFER_SIZE / 2)
    (j : Nat) (hj : j < tx_hdrlen st.WifiData) :
    txByte (Wifi_TransmitFunction st hdr0 mb next).2.WifiData (2 * st.WifiData.txbufOut + j)
      = tx_framehdr st.WifiData hdr0 mb j % 256 := by
  rw [txByte_congr _ _ (transmit_ring st hdr0 mb next hup hspace).1]
  exact tx_ring_header_byte (tx_stats st.WifiData mb) hdr0 mb next hfit j hj

theorem transmit_llc_byte (st : Arm9) (hdr0 : Nat → Nat) (mb : sgIP_memblock)
    (next : List sgIP_memblock) (hup : st.WifiData.flags9 &&& WFLAG_ARM9_NETUP ≠ 0)
    (hspace : tx_framelen st.WifiData mb + 40 ≤ (Wifi_TxBufferBytesAvailable st.WifiData : Int))
    (hfit : tx_halfwords st.WifiData mb next ≤ WIFI_TXBUFFER_SIZE / 2)
    (j : Nat) (hj : j < 8) :
    txByte (Wifi_TransmitFunction st hdr0 mb next).2.WifiData
        (2 * st.WifiData.txbufOut + (tx_hdrlen st.WifiData + j))
      = (le16 0xAAAA ++ le16 0x0003 ++ le16 0x0000 ++ le16 (eth_protocol mb)).getD j 0 := by
  rw [txByte_congr _ _ (transmit_ring st hdr0 mb next hup hspace).1, ← tx_llc_bytes
    st.WifiData hdr0 mb j hj]
  exact tx_ring_llc_byte (tx_stats st.WifiData mb) hdr0 mb next hfit j hj

theorem transmit_untouched (st : Arm9) (hdr0 : Nat → Nat) (mb : sgIP_memblock)
    (next : List sgIP_memblock) (hup : st.WifiData.flags9 &&& WFLAG_ARM9_NETUP ≠ 0)
    (hspace : tx_framelen st.WifiData mb + 40 ≤ (Wifi_TxBufferBytesAvailable st.WifiData : Int))
    (hfit : tx_halfwords st.WifiData mb next ≤ WIFI_TXBUFFER_SIZE / 2)
    (K : Nat) (hK : tx_written_halfwords st.WifiData mb next ≤ K)
    (hKc : K < WIFI_TXBUFFER_SIZE / 2) :
    (Wifi_TransmitFunction st hdr0 mb next).2.WifiData.txbufData
        ((st.WifiData.txbufOut + K) % (WIFI_TXBUFFER_SIZE / 2))
      = st.WifiData.txbufData ((st.WifiData.txbufOut + K) % (WIFI_TXBUFFER_SIZE / 2)) := by
  rw [(transmit_ring st hdr0 mb next hup hspace).1]
  exact tx_ring_untouched (tx_stats st.WifiData mb) hdr0 mb next hfit K hK hKc

theorem transmit_cursor_eq (st : Arm9) (hdr0 : Nat → Nat) (mb : sgIP_memblock)
    (next : List sgIP_memblock) (hup : st.WifiData.flags9 &&& WFLAG_ARM9_NETUP ≠ 0)
    (hspace : tx_framelen st.WifiData mb + 40 ≤ (Wifi_TxBufferBytesAvailable st.WifiData : Int))
    (hfit : tx_halfwords st.WifiData mb next ≤ WIFI_TXBUFFER_SIZE / 2)
    (hout : st.WifiData.txbufOut < WIFI_TXBUFFER_SIZE / 2) :
    (Wifi_TransmitFunction st hdr0 mb next).2.WifiData.txbufOut
      = (st.WifiData.txbufOut + tx_halfwords st.WifiData mb next) % (WIFI_TXBUFFER_SIZE / 2) := by
  have h := tx_ring_base (tx_stats st.WifiData mb) hdr0 mb next hout hfit
  rw [(transmit_ring st hdr0 mb next hup hspace).2, h]
  apply u32_of_lt_cap
  exact Nat.mod_lt _ (by decide)

theorem Wifi_TxBufferBytesAvailable_le (w : Wifi_MainStruct) :
    Wifi_TxBufferBytesAvailable w ≤ 24574 := by
  simp only [Wifi_TxBufferBytesAvailable, cap_eq]
  omega

/-- The field `tx_length` that a queued frame leaves in the ring. -/
theorem transmit_tx_length (st : Arm9) (hdr0 : Nat → Nat) (mb : sgIP_memblock)
    (next : List sgIP_memblock) (hup : st.WifiData.flags9 &&& WFLAG_ARM9_NETUP ≠ 0)
    (hspace : tx_framelen st.WifiData mb + 40 ≤ (Wifi_TxBufferBytesAvailable st.WifiData : Int))
    (hfit : tx_halfwords st.WifiData mb next ≤ WIFI_TXBUFFER_SIZE / 2) :
    (ring_tx_length (Wifi_TransmitFunction st hdr0 mb next).2.WifiData st.WifiData.txbufOut : Int)
      = tx_framelen st.WifiData mb + tx_hdrlen st.WifiData - HDR_TX_SIZE + 4 := by
  have h10 : 10 < tx_hdrlen st.WifiData := by
    unfold tx_hdrlen HDR_TX_SIZE HDR_DATA_MAC_SIZE; omega
  have h11 : 11 < tx_hdrlen st.WifiData := by
    unfold tx_hdrlen HDR_TX_SIZE HDR_DATA_MAC_SIZE; omega
  have ha := Wifi_TxBufferBytesAvailable_le st.WifiData
  obtain ⟨e10, e11⟩ := tx_framehdr_tx_length st.WifiData hdr0 mb
  unfold ring_tx_length
  rw [transmit_header_byte st hdr0 mb next hup hspace hfit 10 h10,
    transmit_header_byte st hdr0 mb next hup hspace hfit 11 h11, e10, e11]
  have hf : tx_framelen st.WifiData mb ≥ -6 := by
    unfold tx_framelen SIZEOF_ETH
    split <;> omega
  have hh : tx_hdrlen st.WifiData = 36 ∨ tx_hdrlen st.WifiData = 40 := by
    unfold tx_hdrlen HDR_TX_SIZE HDR_DATA_MAC_SIZE
    split
    · right; rfl
    · left; rfl
  generalize tx_framelen st.WifiData mb = f at *
  generalize tx_hdrlen st.WifiData = h at *
  unfold u16i HDR_TX_SIZE
  omega

theorem txBytes_eq_of_bytes (w : Wifi_MainStruct) (off : Nat) (l : List Nat)
    (h : ∀ j, j < l.length → txByte w (off + j) = l.getD j 0) :
    txBytes w off l.length = l := by
  unfold txBytes
  exact map_getD_range l _ h

/-- The frame control of a queued frame, as the ring holds it behind the hardware TX
header. -/
theorem transmit_frame_control (st : Arm9) (hdr0 : Nat → Nat) (mb : sgIP_memblock)
    (next : List sgIP_memblock) (hup : st.WifiData.flags9 &&& WFLAG_ARM9_NETUP ≠ 0)
    (hspace : tx_framelen st.WifiData mb + 40 ≤ (Wifi_TxBufferBytesAvailable st.WifiData : Int))
    (hfit : tx_halfwords st.WifiData mb next ≤ WIFI_TXBUFFER_SIZE / 2) :
    txBytes (Wifi_TransmitFunction st hdr0 mb next).2.WifiData
        (2 * st.WifiData.txbufOut + HDR_TX_SIZE) 2
      = le16 (tx_ieee st.WifiData mb).frame_control := by
  apply txBytes_eq_of_bytes _ _ (le16 (tx_ieee st.WifiData mb).frame_control)
  intro j hj
  have hj2 : j < 2 := hj
  have hlt : HDR_TX_SIZE + j < tx_hdrlen st.WifiData := by
    unfold tx_hdrlen HDR_TX_SIZE HDR_DATA_MAC_SIZE; omega
  rw [Nat.add_assoc, transmit_header_byte st hdr0 mb next hup hspace hfit _ hlt,
    tx_framehdr_ieee st.WifiData hdr0 mb j (by unfold HDR_DATA_MAC_SIZE; omega)]
  interval_cases j <;> rfl

/-- The LLC header of a queued frame, as the ring holds it behind the header block. -/
theorem transmit_llc (st : Arm9) (hdr0 : Nat → Nat) (mb : sgIP_memblock)
    (next : List sgIP_memblock) (hup : st.WifiData.flags9 &&& WFLAG_ARM9_NETUP ≠ 0)
    (hspace : tx_framelen st.WifiData mb + 40 ≤ (Wifi_TxBufferBytesAvailable st.WifiData : Int))
    (hfit : tx_halfwords st.WifiData mb next ≤ WIFI_TXBUFFER_SIZE / 2) :
    txBytes (Wifi_TransmitFunction st hdr0 mb next).2.WifiData
        (2 * st.WifiData.txbufOut + tx_hdrlen st.WifiData) 8
      = le16 0xAAAA ++ le16 0x0003 ++ le16 0x0000 ++ le16 (eth_protocol mb) := by
  apply txBytes_eq_of_bytes _ _
    (le16 0xAAAA ++ le16 0x0003 ++ le16 0x0000 ++ le16 (eth_protocol mb))
  intro j hj
  have hj2 : j < 8 := hj
  rw [Nat.add_assoc]
  exact transmit_llc_byte st hdr0 mb next hup hspace hfit j hj2

/-- The first six bytes of the LLC header of a queued frame. -/
theorem transmit_llc_prefix (st : Arm9) (hdr0 : Nat → Nat) (mb : sgIP_memblock)
    (next : List sgIP_memblock) (hup : st.WifiData.flags9 &&& WFLAG_ARM9_NETUP ≠ 0)
    (hspace : tx_framelen st.WifiData mb + 40 ≤ (Wifi_TxBufferBytesAvailable st.WifiData : Int))
    (hfit : tx_halfwords st.WifiData mb next ≤ WIFI_TXBUFFER_SIZE / 2) :
    txBytes (Wifi_TransmitFunction st hdr0 mb next).2.WifiData
        (2 * st.WifiData.txbufOut + tx_hdrlen st.WifiData) 6
      = [0xAA, 0xAA, 0x03, 0, 0, 0] :=
  txBytes_slice _ _ 8 0 6 _ (transmit_llc st hdr0 mb next hup hspace hfit) (by omega)

/-- The four bytes of the WEP IV of a queued frame, as the ring holds them. -/
theorem transmit_iv (st : Arm9) (hdr0 : Nat → Nat) (mb : sgIP_memblock)
    (next : List sgIP_memblock) (hup : st.WifiData.flags9 &&& WFLAG_ARM9_NETUP ≠ 0)
    (hspace : tx_framelen st.WifiData mb + 40 ≤ (Wifi_TxBufferBytesAvailable st.WifiData : Int))
    (hfit : tx_halfwords st.WifiData mb next ≤ WIFI_TXBUFFER_SIZE / 2)
    (hwep : st.WifiData.wepmode7 ≠ 0) :
    txBytes (Wifi_TransmitFunction st hdr0 mb next).2.WifiData
        (2 * st.WifiData.txbufOut + (HDR_TX_SIZE + HDR_DATA_MAC_SIZE)) 4
      = [0, 0, 0, 0] := by
  apply txBytes_eq_of_bytes _ _ [0, 0, 0, 0]
  intro j hj
  have hj2 : j < 4 := hj
  have hlt : HDR_TX_SIZE + HDR_DATA_MAC_SIZE + j < tx_hdrlen st.WifiData := by
    unfold tx_hdrlen
    rw [if_pos hwep]
    omega
  rw [Nat.add_assoc, transmit_header_byte st hdr0 mb next hup hspace hfit _ hlt,
    tx_framehdr_iv st.WifiData hdr0 mb hwep j hj2]
  interval_cases j <;> rfl

/-! ### `ipc.c` and the request setters -/

/-- The two definitions of `Wifi_SetChannel` agree outside scan mode. -/
theorem Wifi_SetChannel_agree (w : Wifi_MainStruct) (channel : Int)
    (h : w.reqMode ≠ WIFIMODE_SCAN) :
    Wifi_SetChannel_arm9 w channel = Wifi_SetChannel_ipc w channel := by
  unfold Wifi_SetChannel_arm9 Wifi_SetChannel_ipc
  simp only [h, or_false]

theorem Wifi_SetChannel_arm9_fields (w : Wifi_MainStruct) (channel : Int) :
    Wifi_SetChannel_arm9 w channel
      = { w with reqChannel := (Wifi_SetChannel_arm9 w channel).reqChannel } := by
  unfold Wifi_SetChannel_arm9
  split
  · rfl
  · split <;> rfl

theorem Wifi_SetChannel_ipc_fields (w : Wifi_MainStruct) (channel : Int) :
    Wifi_SetChannel_ipc w channel
      = { w with reqChannel := (Wifi_SetChannel_ipc w channel).reqChannel } := by
  unfold Wifi_SetChannel_ipc
  split
  · rfl
  · split <;> rfl

theorem flags9_init (y : Nat) (hy : y < 2 ^ 32) :
    u32 (WFLAG_ARM9_ACTIVE ||| y) = WFLAG_ARM9_ACTIVE ||| y ∧
    (WFLAG_ARM9_ACTIVE ||| y).testBit 0 = true := by
  constructor
  · apply Nat.mod_eq_of_lt
    exact Nat.or_lt_two_pow (by decide) hy
  · rw [Nat.testBit_or]
    have : WFLAG_ARM9_ACTIVE.testBit 0 = true := by decide
    rw [this]
    rfl

theorem initflags_lt (initflags : Int) :
    u32i initflags &&& WFLAG_ARM9_INITFLAGMASK < 2 ^ 32 :=
  Nat.lt_of_le_of_lt Nat.and_le_right (by decide)

theorem Wifi_Init_clear_spec (st : Arm9) (initflags : Int) :
    (Wifi_Init_clear st initflags).1 = st.Wifi_Data_Struct ∧
    (Wifi_Init_clear st initflags).2.Wifi_Data_Struct = st.Wifi_Data_Struct ∧
    (Wifi_Init_clear st initflags).2.live = true ∧
    (Wifi_Init_clear st initflags).2.WifiData
      = { Wifi_MainStruct.zero with
          flags9 := WFLAG_ARM9_ACTIVE ||| (u32i initflags &&& WFLAG_ARM9_INITFLAGMASK) } := by
  refine ⟨rfl, rfl, rfl, ?_⟩
  simp only [Wifi_Init_clear]
  rw [(flags9_init _ (initflags_lt initflags)).1]

/-- `Wifi_Init` fails exactly when nothing is allocated and `malloc` returns NULL, and
then leaves the state alone; otherwise the result is that of `Wifi_Init_clear` on the
state with the pointer in place. -/
theorem Wifi_Init_spec (st : Arm9) (initflags : Int) (fresh : Nat) :
    ((Wifi_Init st initflags fresh).1 = 0 ↔ (st.Wifi_Data_Struct = 0 ∧ fresh = 0)) ∧
    ((Wifi_Init st initflags fresh).1 = 0 → (Wifi_Init st initflags fresh).2 = st) ∧
    ((Wifi_Init st initflags fresh).1 ≠ 0 →
      (Wifi_Init st initflags fresh).1 = (Wifi_Init st initflags fresh).2.Wifi_Data_Struct ∧
      (Wifi_Init st initflags fresh).2.live = true ∧
      (Wifi_Init st initflags fresh).2.WifiData
        = { Wifi_MainStruct.zero with
            flags9 := WFLAG_ARM9_ACTIVE ||| (u32i initflags &&& WFLAG_ARM9_INITFLAGMASK) }) := by
  unfold Wifi_Init
  by_cases h0 : st.Wifi_Data_Struct = 0
  · rw [if_pos h0]
    by_cases hf : fresh = 0
    · have e : ({ st with Wifi_Data_Struct := fresh } : Arm9) = st := by
        cases st
        simp only at h0
        subst h0
        subst hf
        rfl
      have hc : ({ st with Wifi_Data_Struct := fresh } : Arm9).Wifi_Data_Struct = 0 := hf
      rw [if_pos hc]
      exact ⟨⟨fun _ => ⟨h0, hf⟩, fun _ => rfl⟩, fun _ => e, fun h => absurd rfl h⟩
    · have hc : ¬ (({ st with Wifi_Data_Struct := fresh } : Arm9).Wifi_Data_Struct = 0) := hf
      rw [if_neg hc]
      obtain ⟨a1, a2, a3, a4⟩ := Wifi_Init_clear_spec { st with Wifi_Data_Struct := fresh }
        initflags
      have a1 : (Wifi_Init_clear { st with Wifi_Data_Struct := fresh } initflags).1 = fresh := a1
      refine ⟨⟨fun h => absurd (a1 ▸ h) hf, fun h => absurd h.2 hf⟩,
        fun h => absurd (a1 ▸ h) hf, fun _ => ⟨a1.trans a2.symm, a3, a4⟩⟩
  · rw [if_neg h0]
    obtain ⟨a1, a2, a3, a4⟩ := Wifi_Init_clear_spec st initflags
    refine ⟨⟨fun h => absurd (a1 ▸ h) h0, fun h => absurd h.1 h0⟩,
      fun h => absurd (a1 ▸ h) h0, fun _ => ⟨a1.trans a2.symm, a3, a4⟩⟩

/-! ### What the host-side operations keep -/

theorem Wifi_CallSyncHandler_live (st : Arm9) : (Wifi_CallSyncHandler st).live = st.live := by
  unfold Wifi_CallSyncHandler
  split <;> rfl

theorem Wifi_Update_flags_live (st : Arm9) : (Wifi_Update_flags st).live = st.live := by
  have h1 : (Wifi_Update_ready st).live = st.live := by
    unfold Wifi_Update_ready
    simp only
    split
    · split <;> rfl
    · rfl
  have h2 : ∀ s : Arm9, (Wifi_Update_netup s).live = s.live := by
    intro s
    unfold Wifi_Update_netup
    simp only
    split
    · rfl
    · split <;> rfl
  unfold Wifi_Update_flags
  rw [h2, h1]

/-- A call of `Wifi_Update` that returns keeps `WifiData` as it is (NULL or not) and, of
`flags9`, every bit but bits 2 and 3. -/
theorem Wifi_Update_keeps (st st2 : Arm9) (h : Wifi_Update st = some st2) :
    st2.live = st.live ∧
    (∀ i, i < 32 → i ≠ 2 → i ≠ 3 →
      st2.WifiData.flags9.testBit i = st.WifiData.flags9.testBit i) := by
  rcases Wifi_Update_some st st2 h with ⟨-, e⟩ | ⟨-, n, -, e⟩
  · subst e
    exact ⟨rfl, fun _ _ _ _ => rfl⟩
  · obtain ⟨i1, -, i3, -, -⟩ := Wifi_Update_passes_spec n _ _ e
    refine ⟨i3.trans (Wifi_Update_flags_live st), ?_⟩
    intro i hi h2 h3
    rw [i1]
    exact (Wifi_Update_flags_spec st).2.2.2.2 i hi h2 h3

theorem beacon_keeps (st st2 : Arm9) (data0 : Nat → Nat) (ssid : Option CString) (g : Nat)
    (r : Int) (h : Wifi_BeaconStart st data0 ssid g = some (r, st2)) :
    st2.live = st.live ∧ st2.WifiData.flags9 = st.WifiData.flags9 := by
  cases ssid with
  | none =>
    simp [Wifi_BeaconStart] at h
  | some p =>
    by_cases hn : strlen p > 32
    · simp only [Wifi_BeaconStart, hn, if_true] at h
      have e := (Prod.mk.inj (Option.some.inj h)).2
      subst e
      exact ⟨rfl, rfl⟩
    · simp only [Wifi_BeaconStart, hn, if_false] at h
      have e := (Prod.mk.inj (Option.some.inj h)).2
      subst e
      rw [Wifi_CallSyncHandler_live, Wifi_CallSyncHandler_WifiData]
      exact ⟨rfl, rfl⟩

theorem tx_blocks_flags9 :
    ∀ (next : List sgIP_memblock) (w : Wifi_MainStruct) (b : Nat),
      (tx_blocks w b next).1.flags9 = w.flags9 := by
  intro next
  induction next with
  | nil => intro w b; rfl
  | cons m rest ih =>
    intro w b
    simp only [tx_blocks]
    rw [ih]
    rfl

theorem tx_ring_flags9 (w : Wifi_MainStruct) (hdr0 : Nat → Nat) (mb : sgIP_memblock)
    (next : List sgIP_memblock) : (tx_ring w hdr0 mb next).1.flags9 = w.flags9 := by
  simp only [tx_ring]
  rw [tx_blocks_flags9]
  split <;> rfl

theorem transmit_keeps (st : Arm9) (hdr0 : Nat → Nat) (mb : sgIP_memblock)
    (next : List sgIP_memblock) :
    (Wifi_TransmitFunction st hdr0 mb next).2.live = st.live ∧
    (Wifi_TransmitFunction st hdr0 mb next).2.WifiData.flags9 = st.WifiData.flags9 := by
  unfold Wifi_TransmitFunction
  simp only
  split
  · exact ⟨rfl, rfl⟩
  · split
    · exact ⟨rfl, rfl⟩
    · rw [Wifi_CallSyncHandler_live, Wifi_CallSyncHandler_WifiData]
      exact ⟨rfl, tx_ring_flags9 (tx_stats st.WifiData mb) hdr0 mb next⟩

theorem setters_keep (w : Wifi_MainStruct) (flag channel : Int) :
    (Wifi_DisableWifi w).flags9 = w.flags9 ∧ (Wifi_EnableWifi w).flags9 = w.flags9 ∧
    (Wifi_SetPromiscuousMode w flag).flags9 = w.flags9 ∧ (Wifi_ScanMode w).flags9 = w.flags9 ∧
    (Wifi_IdleMode w).flags9 = w.flags9 ∧ (Wifi_SetChannel_arm9 w channel).flags9 = w.flags9 ∧
    (Wifi_SetChannel_ipc w channel).flags9 = w.flags9 := by
  refine ⟨rfl, rfl, ?_, rfl, rfl, ?_, ?_⟩
  · unfold Wifi_SetPromiscuousMode
    split <;> rfl
  · rw [Wifi_SetChannel_arm9_fields]
  · rw [Wifi_SetChannel_ipc_fields]

/-- In every reachable state `WifiData` is not NULL and `flags9` has
`WFLAG_ARM9_ACTIVE`. -/
theorem Reachable_active (st : Arm9) (h : Reachable st) :
    st.live = true ∧ st.WifiData.flags9.testBit 0 = true := by
  induction h with
  | init st initflags fresh h =>
    obtain ⟨-, a3, a4⟩ := (Wifi_Init_spec st initflags fresh).2.2 h
    rw [a4]
    exact ⟨a3, (flags9_init _ (initflags_lt initflags)).2⟩
  | update st st2 _ hu ih =>
    obtain ⟨k1, k2⟩ := Wifi_Update_keeps st st2 hu
    rw [k1, k2 0 (by decide) (by decide) (by decide)]
    exact ih
  | beacon st st2 data0 ssid g r _ hb ih =>
    obtain ⟨k1, k2⟩ := beacon_keeps st st2 data0 ssid g r hb
    rw [k1, k2]
    exact ih
  | transmit st hdr0 mb next _ ih =>
    obtain ⟨k1, k2⟩ := transmit_keeps st hdr0 mb next
    rw [k1, k2]
    exact ih
  | disable st _ ih => exact ih
  | enable st _ ih => exact ih
  | promiscuous st flag _ ih =>
    refine ⟨ih.1, ?_⟩
    show (Wifi_SetPromiscuousMode st.WifiData flag).flags9.testBit 0 = true
    rw [(setters_keep st.WifiData flag 0).2.2.1]
    exact ih.2
  | scan st _ ih => exact ih
  | idle st _ ih => exact ih
  | channel_arm9 st channel _ ih =>
    refine ⟨ih.1, ?_⟩
    show (Wifi_SetChannel_arm9 st.WifiData channel).flags9.testBit 0 = true
    rw [(setters_keep st.WifiData 0 channel).2.2.2.2.2.1]
    exact ih.2
  | channel_ipc st channel _ ih =>
    refine ⟨ih.1, ?_⟩
    show (Wifi_SetChannel_ipc st.WifiData channel).flags9.testBit 0 = true
    rw [(setters_keep st.WifiData 0 channel).2.2.2.2.2.2]
    exact ih.2
  | sync_handler st f _ ih => exact ih
  | packet_handler st f _ ih => exact ih
  | hardware st w2 _ hw ih =>
    refine ⟨ih.1, ?_⟩
    show w2.flags9.testBit 0 = true
    rw [hw]
    exact ih.2

theorem Wifi_CheckInit_ready (st : Arm9) (h : Wifi_CheckInit st ≠ 0) :
    st.live = true ∧ st.WifiData.flags7 &&& WFLAG_ARM7_ACTIVE ≠ 0 ∧
    st.WifiData.flags9 &&& WFLAG_ARM9_ARM7READY ≠ 0 := by
  unfold Wifi_CheckInit at h
  by_cases hl : ¬ st.live
  · rw [if_pos hl] at h
    exact absurd rfl h
  · rw [if_neg hl] at h
    by_cases hc : st.WifiData.flags7 &&& WFLAG_ARM7_ACTIVE ≠ 0
        ∧ st.WifiData.flags9 &&& WFLAG_ARM9_ARM7READY ≠ 0
    · exact ⟨by simpa using hl, hc.1, hc.2⟩
    · rw [if_neg hc] at h
      exact absurd rfl h

/-! ### The LLC header and the payload of a queued frame -/

/-- The payload of the first block of a queued frame is still in the ring, right behind
the LLC header, when all the writes of the call are done. -/
theorem tx_ring_payload (w : Wifi_MainStruct) (hdr0 : Nat → Nat) (mb : sgIP_memblock)
    (next : List sgIP_memblock) (hfit : tx_halfwords w mb next ≤ WIFI_TXBUFFER_SIZE / 2)
    (k : Nat) (hk : k < (((mb.thislength : Int) - SIZEOF_ETH).toNat + 1) / 2) :
    (tx_ring w hdr0 mb next).1.txbufData
        ((w.txbufOut + (tx_hdrlen w / 2 + 8 / 2 + k)) % (WIFI_TXBUFFER_SIZE / 2))
      = hword (fun i => mb.datastart (i + SIZEOF_ETH)) k := by
  have hp := tx_payload_halfwords mb
  have hw : (mb.thislength : Int) - SIZEOF_ETH > 0 := by omega
  unfold tx_halfwords at hfit
  simp only [hw, if_true] at hfit
  have hc := cap_eq
  have hb1 : txWrap (w.txbufOut + tx_hdrlen w / 2) % (WIFI_TXBUFFER_SIZE / 2)
      = (w.txbufOut + tx_hdrlen w / 2) % (WIFI_TXBUFFER_SIZE / 2) := txWrap_mod _
  have hb2 := txWrap_step (txWrap (w.txbufOut + tx_hdrlen w / 2)) (8 / 2) w.txbufOut
    (tx_hdrlen w / 2) hb1
  have hKc : tx_hdrlen w / 2 + 8 / 2 + k < WIFI_TXBUFFER_SIZE / 2 := by omega
  have hidx : (w.txbufOut + (tx_hdrlen w / 2 + 8 / 2 + k)) % (WIFI_TXBUFFER_SIZE / 2)
      = (txWrap (txWrap (w.txbufOut + tx_hdrlen w / 2) + 8 / 2) + k)
          % (WIFI_TXBUFFER_SIZE / 2) := by
    rw [← Nat.add_assoc, Nat.add_mod, ← hb2, ← Nat.add_mod]
  simp only [tx_ring, hw, if_true]
  rw [tx_blocks_other w.txbufOut (tx_hdrlen w / 2 + 8 / 2 + k) next _ _
    (tx_hdrlen w / 2 + 8 / 2 + ((((mb.thislength : Int) - SIZEOF_ETH) + 1) / 2).toNat)
    (txWrap_step _ _ _ _ hb2) (Or.inl (by omega)) hKc (by omega)]
  have h2 : txWrap (txWrap (w.txbufOut + tx_hdrlen w / 2) + 8 / 2) * 2 / 2
      = txWrap (txWrap (w.txbufOut + tx_hdrlen w / 2) + 8 / 2) := by omega
  rw [hidx]
  simp only [Wifi_TxBufferWrite, h2]
  exact ringStore_get _ _ _ _ _ k hk (by omega)

theorem tx_ring_payload_byte (w : Wifi_MainStruct) (hdr0 : Nat → Nat) (mb : sgIP_memblock)
    (next : List sgIP_memblock) (hfit : tx_halfwords w mb next ≤ WIFI_TXBUFFER_SIZE / 2)
    (j : Nat) (hj : j < mb.thislength - SIZEOF_ETH) :
    txByte (tx_ring w hdr0 mb next).1 (2 * w.txbufOut + (tx_hdrlen w + 8 + j))
      = u8 (mb.datastart (SIZEOF_ETH + j)) := by
  have he := tx_hdrlen_even w
  have h := tx_ring_payload w hdr0 mb next hfit (j / 2) (by omega)
  rw [← Nat.add_assoc] at h
  have e : 2 * w.txbufOut + (tx_hdrlen w + 8 + j)
      = 2 * (w.txbufOut + (tx_hdrlen w / 2 + 8 / 2)) + j := by omega
  rw [e, txByte_of_hword _ _ _ _ h, Nat.add_comm]
  rfl

/-- The payload of the first block of a queued frame, as the ring holds it behind the LLC
header. -/
theorem transmit_payload (st : Arm9) (hdr0 : Nat → Nat) (mb : sgIP_memblock)
    (next : List sgIP_memblock) (hup : st.WifiData.flags9 &&& WFLAG_ARM9_NETUP ≠ 0)
    (hspace : tx_framelen st.WifiData mb + 40 ≤ (Wifi_TxBufferBytesAvailable st.WifiData : Int))
    (hfit : tx_halfwords st.WifiData mb next ≤ WIFI_TXBUFFER_SIZE / 2) :
    txBytes (Wifi_TransmitFunction st hdr0 mb next).2.WifiData
        (2 * st.WifiData.txbufOut + (tx_hdrlen st.WifiData + 8)) (mb.thislength - SIZEOF_ETH)
      = (List.range (mb.thislength - SIZEOF_ETH)).map
          (fun j => u8 (mb.datastart (SIZEOF_ETH + j))) := by
  unfold txBytes
  apply List.map_congr_left
  intro j hj
  rw [txByte_congr _ _ (transmit_ring st hdr0 mb next hup hspace).1, Nat.add_assoc]
  exact tx_ring_payload_byte (tx_stats st.WifiData mb) hdr0 mb next hfit j
    (List.mem_range.mp hj)

theorem rx_hword_bytes (w : Wifi_MainStruct) (k : Nat) :
    u16 (w.rxbufData (k % (WIFI_RXBUFFER_SIZE / 2)))
      = rxByte w (2 * k) + 256 * rxByte w (2 * k + 1) := by
  have h1 : 2 * k / 2 = k := by omega
  have h2 : (2 * k + 1) / 2 = k := by omega
  have h3 : 2 * k % 2 = 0 := by omega
  have h4 : (2 * k + 1) % 2 ≠ 0 := by omega
  simp only [rxByte, h1, h2, h3, h4, if_true, if_false, u16]
  omega

theorem rxBytes_getD (w : Wifi_MainStruct) (off n : Nat) (l : List Nat)
    (h : rxBytes w off n = l) (j : Nat) (hj : j < n) : rxByte w (off + j) = l.getD j 0 := by
  subst h
  unfold rxBytes
  rw [List.getD_eq_getElem _ _ (by simpa using hj)]
  simp

/-- A received frame whose eight bytes behind the RX header and the data header are an
LLC header `AA AA 03 00 00 00` with a protocol field passes the LLC test of
`Wifi_sgIpHandlePackage`, and the protocol field of the delivered frame is that one. -/
theorem rx_llc_of_bytes (w : Wifi_MainStruct) (heap0 : Nat → Nat) (base len proto : Nat)
    (hp : proto < 65536)
    (h : rxBytes w (2 * base + (HDR_RX_SIZE + HDR_DATA_MAC_SIZE)) 8
      = le16 0xAAAA ++ le16 0x0003 ++ le16 0x0000 ++ le16 proto) :
    rx_llc_ok w base ∧ (rx_packet w heap0 base len).protocol = proto := by
  have hb : le16 0xAAAA ++ le16 0x0003 ++ le16 0x0000 ++ le16 proto
      = [170, 170, 3, 0, 0, 0, proto % 256, proto / 256 % 256] := rfl
  rw [hb] at h
  have b0 := rxBytes_getD w _ 8 _ h 0 (by omega)
  have b1 := rxBytes_getD w _ 8 _ h 1 (by omega)
  have b2 := rxBytes_getD w _ 8 _ h 2 (by omega)
  have b3 := rxBytes_getD w _ 8 _ h 3 (by omega)
  have b4 := rxBytes_getD w _ 8 _ h 4 (by omega)
  have b5 := rxBytes_getD w _ 8 _ h 5 (by omega)
  have b6 := rxBytes_getD w _ 8 _ h 6 (by omega)
  have b7 := rxBytes_getD w _ 8 _ h 7 (by omega)
  simp only [List.getD_cons_zero, List.getD_cons_succ, HDR_RX_SIZE, HDR_DATA_MAC_SIZE]
    at b0 b1 b2 b3 b4 b5 b6 b7
  have r0 := rx_hword_bytes w (base + 18)
  have r1 := rx_hword_bytes w (base + 19)
  have r2 := rx_hword_bytes w (base + 20)
  have e0 : 2 * (base + 18) = 2 * base + (12 + 24) + 0 := by omega
  have e1 : 2 * (base + 18) + 1 = 2 * base + (12 + 24) + 1 := by omega
  have e2 : 2 * (base + 19) = 2 * base + (12 + 24) + 2 := by omega
  have e3 : 2 * (base + 19) + 1 = 2 * base + (12 + 24) + 3 := by omega
  have e4 : 2 * (base + 20) = 2 * base + (12 + 24) + 4 := by omega
  have e5 : 2 * (base + 20) + 1 = 2 * base + (12 + 24) + 5 := by omega
  rw [e1, e0, b0, b1] at r0
  rw [e3, e2, b2, b3] at r1
  rw [e5, e4, b4, b5] at r2
  constructor
  · have a0 : ((base + (HDR_RX_SIZE + HDR_DATA_MAC_SIZE) / 2) * 2 + 0) / 2 = base + 18 := by
      simp only [HDR_RX_SIZE, HDR_DATA_MAC_SIZE]; omega
    have a1 : ((base + (HDR_RX_SIZE + HDR_DATA_MAC_SIZE) / 2) * 2 + 2) / 2 = base + 19 := by
      simp only [HDR_RX_SIZE, HDR_DATA_MAC_SIZE]; omega
    have a2 : ((base + (HDR_RX_SIZE + HDR_DATA_MAC_SIZE) / 2) * 2 + 4) / 2 = base + 20 := by
      simp only [HDR_RX_SIZE, HDR_DATA_MAC_SIZE]; omega
    simp only [rx_llc_ok, Wifi_RxReadHWordOffset, a0, a1, a2, r0, r1, r2]
    exact ⟨trivial, trivial, trivial⟩
  · have f6 := rx_framehdr_byte w base 42 (by omega)
    have f7 := rx_framehdr_byte w base 43 (by omega)
    have l6 := rxByte_lt w (2 * base + 42)
    have l7 := rxByte_lt w (2 * base + 43)
    have e6 : 2 * base + 42 = 2 * base + (12 + 24) + 6 := by omega
    have e7 : 2 * base + 43 = 2 * base + (12 + 24) + 7 := by omega
    have hk : (HDR_RX_SIZE + HDR_DATA_MAC_SIZE + 6) / 2 = 21 := rfl
    simp only [rx_packet, hk, hword]
    rw [show 2 * 21 = 42 from rfl, show 42 + 1 = 43 from rfl, f6, f7,
      Nat.mod_eq_of_lt l6, Nat.mod_eq_of_lt l7, e6, e7, b6, b7]
    omega

theorem eth_protocol_lt (mb : sgIP_memblock) : eth_protocol mb < 65536 := by
  unfold eth_protocol hword
  omega

theorem eth_protocol_bytes (mb : sgIP_memblock) :
    le16 (eth_protocol mb) = [u8 (mb.datastart 12), u8 (mb.datastart 13)] := by
  simp only [le16, eth_protocol, hword_lo, hword_hi, u8]

/-! ### The space check and the bytes consumed -/

theorem halfwords_sum (next : List sgIP_memblock) :
    2 * (next.map (fun m => (m.thislength + 1) / 2)).sum
      = (next.map (fun m => m.thislength)).sum + (next.map (fun m => m.thislength % 2)).sum := by
  induction next with
  | nil => rfl
  | cons m rest ih =>
    simp only [List.map_cons, List.sum_cons]
    omega

/-- The ring bytes that a queued frame consumes, for a chain whose first block holds the
Ethernet header and whose block lengths add up to `totallength`: `framelen`, the rest of
the header block, the ICV reservation, and one pad byte per block of odd length. -/
theorem tx_halfwords_bytes (w : Wifi_MainStruct) (mb : sgIP_memblock)
    (next : List sgIP_memblock) (h14 : SIZEOF_ETH ≤ mb.thislength)
    (hsum : mb.thislength + (next.map (fun m => m.thislength)).sum = mb.totallength) :
    ((2 * tx_halfwords w mb next : Nat) : Int)
      = tx_framelen w mb + (if w.wepmode7 ≠ 0 then 40 else 36) + tx_odd_blocks mb next := by
  have hs := halfwords_sum next
  unfold tx_halfwords tx_framelen tx_hdrlen tx_odd_blocks
  unfold SIZEOF_ETH at *
  unfold HDR_TX_SIZE HDR_DATA_MAC_SIZE
  generalize (next.map (fun m => (m.thislength + 1) / 2)).sum = A at *
  generalize (next.map (fun m => m.thislength)).sum = B at *
  generalize (next.map (fun m => m.thislength % 2)).sum = C at *
  by_cases hw : w.wepmode7 ≠ 0
  · simp only [if_pos hw]
    split <;> omega
  · simp only [if_neg hw]
    split <;> omega

/-- The only way in which `Wifi_sgIpHandlePackage` leaves defined behaviour: the frame
passes the three tests, the block is allocated, and the length is below 32. -/
theorem sgIpHandlePackage_none (st : Arm9) (base len : Nat)
    (h : Wifi_sgIpHandlePackage st base len = none) :
    rx_is_data st.WifiData base ∧ rx_for_us st.WifiData base = true ∧
    rx_llc_ok st.WifiData base ∧
    st.allocOk st.allocs (SIZEOF_ETH + rx_datalen len) = true ∧ len < 32 := by
  by_cases h1 : rx_is_data st.WifiData base
  · by_cases h2 : rx_for_us st.WifiData base = true
    · by_cases h3 : rx_llc_ok st.WifiData base
      · by_cases h4 : st.allocOk st.allocs (SIZEOF_ETH + rx_datalen len) = true
        · by_cases hlen : len < 32
          · exact ⟨h1, h2, h3, h4, hlen⟩
          · rw [sgIpHandlePackage_accept st base len h1 h2 h3 h4 (by omega)] at h
            cases h
        · simp [Wifi_sgIpHandlePackage, h1, h2, h3, h4] at h
      · simp [Wifi_sgIpHandlePackage, h1, h2, h3] at h
    · simp [Wifi_sgIpHandlePackage, h1, h2] at h
  · simp [Wifi_sgIpHandlePackage, h1] at h

/-- A pass through the body of the loop leaves defined behaviour only for an accepted
frame with a length below 32. -/
theorem Wifi_Update_body_none (st : Arm9) (h : Wifi_Update_body st = none) :
    rx_is_data st.WifiData st.WifiData.rxbufIn ∧
    rx_for_us st.WifiData st.WifiData.rxbufIn = true ∧
    rx_llc_ok st.WifiData st.WifiData.rxbufIn ∧
    st.allocOk st.allocs (SIZEOF_ETH + rx_datalen (rx_len st.WifiData)) = true ∧
    rx_len st.WifiData < 32 := by
  unfold Wifi_Update_body at h
  simp only [Option.map_eq_none'] at h
  exact sgIpHandlePackage_none st _ _ h

/-- When `n` passes leave defined behaviour, one of them is the first to do so. -/
theorem Wifi_Update_passes_none (n : Nat) :
    ∀ st : Arm9, Wifi_Update_passes n st = none →
      ∃ k s, k < n ∧ Wifi_Update_passes k st = some s ∧ Wifi_Update_body s = none := by
  induction n with
  | zero =>
    intro st h
    cases h
  | succ n ih =>
    intro st h
    cases hb : Wifi_Update_body st with
    | none => exact ⟨0, st, by omega, rfl, hb⟩
    | some s1 =>
      have h2 : Wifi_Update_passes n s1 = none := by
        simpa only [Wifi_Update_passes, hb, Option.some_bind] using h
      obtain ⟨k, s, hk, e1, e2⟩ := ih s1 h2
      refine ⟨k + 1, s, by omega, ?_, e2⟩
      simp only [Wifi_Update_passes, hb, Option.some_bind, e1]

/-- C1: for every Ethernet frame that `Wifi_TransmitFunction` queues (network up, space
check passed) and that is not longer than the TX ring, the call returns 0 and the 24
bytes behind the hardware TX header at the old cursor are a data header with duration 0
and sequence control 0 whose frame control `fc` has type and subtype `TYPE_DATA`.  With
`WFLAG_REQ_APADHOC` set the three addresses are the Ethernet destination (the first six
bytes of the frame), `MacAddr` and `bssid7`, and the to-DS bit is clear; otherwise they
are `bssid7`, `MacAddr` and the Ethernet destination, and the to-DS bit is set. -/
theorem C1_data_frame_addressing (st : Arm9) (hdr0 : Nat → Nat) (mb : sgIP_memblock)
    (next : List sgIP_memblock) (hup : st.WifiData.flags9 &&& WFLAG_ARM9_NETUP ≠ 0)
    (hspace : tx_framelen st.WifiData mb + 40 ≤ (Wifi_TxBufferBytesAvailable st.WifiData : Int))
    (hfit : tx_halfwords st.WifiData mb next ≤ WIFI_TXBUFFER_SIZE / 2) :
    (Wifi_TransmitFunction st hdr0 mb next).1 = 0 ∧
    ∃ fc, fc < 65536 ∧ fc &&& FC_TYPE_SUBTYPE_MASK = TYPE_DATA ∧
      (st.WifiData.curReqFlags &&& WFLAG_REQ_APADHOC ≠ 0 →
        fc &&& FC_TO_DS = 0 ∧
        txBytes (Wifi_TransmitFunction st hdr0 mb next).2.WifiData
            (2 * st.WifiData.txbufOut + HDR_TX_SIZE) HDR_DATA_MAC_SIZE
          = le16 fc ++ le16 0 ++ (List.range 6).map (fun i => u8 (mb.datastart i))
              ++ st.WifiData.MacAddr.bytes ++ st.WifiData.bssid7.bytes ++ le16 0) ∧
      (st.WifiData.curReqFlags &&& WFLAG_REQ_APADHOC = 0 →
        fc &&& FC_TO_DS = FC_TO_DS ∧
        txBytes (Wifi_TransmitFunction st hdr0 mb next).2.WifiData
            (2 * st.WifiData.txbufOut + HDR_TX_SIZE) HDR_DATA_MAC_SIZE
          = le16 fc ++ le16 0 ++ st.WifiData.bssid7.bytes ++ st.WifiData.MacAddr.bytes
              ++ (List.range 6).map (fun i => u8 (mb.datastart i)) ++ le16 0) := by
  obtain ⟨w2, e1, e2, e3, e4, e5⟩ := transmit_queued st hdr0 mb next hup hspace
  have hr := tx_ring_ieee w2 hdr0 mb next (by rw [e3]; exact hfit)
  rw [e1, e2] at hr
  rw [txBytes_congr _ _ e5, hr]
  refine ⟨e4, (tx_ieee st.WifiData mb).frame_control, ?_, ?_, ?_, ?_⟩
  · rw [tx_ieee_frame_control]
    split <;> split <;> decide
  · rw [tx_ieee_frame_control]
    split <;> split <;> decide
  · intro ha
    rw [tx_ieee_bytes, if_pos ha, eth_dest_bytes]
    refine ⟨?_, rfl⟩
    rw [tx_ieee_frame_control, if_pos ha]
    split <;> decide
  · intro ha
    have ha2 : ¬ (st.WifiData.curReqFlags &&& WFLAG_REQ_APADHOC ≠ 0) := fun h => h ha
    rw [tx_ieee_bytes, if_neg ha2, eth_dest_bytes]
    refine ⟨?_, rfl⟩
    rw [tx_ieee_frame_control, if_neg ha2]
    split <;> decide

/-- Witness of C1: a frame of two blocks queued in infrastructure mode, with the header
block wrapping around the end of the ring. -/
theorem C1_data_frame_addressing_witness :
    stUp.WifiData.flags9 &&& WFLAG_ARM9_NETUP ≠ 0 ∧
    tx_framelen stUp.WifiData mbFrame + 40 ≤ (Wifi_TxBufferBytesAvailable stUp.WifiData : Int) ∧
    tx_halfwords stUp.WifiData mbFrame [mbTail] ≤ WIFI_TXBUFFER_SIZE / 2 ∧
    (Wifi_TransmitFunction stUp (fun _ => 0) mbFrame [mbTail]).1 = 0 ∧
    ∃ fc, fc < 65536 ∧ fc &&& FC_TYPE_SUBTYPE_MASK = TYPE_DATA ∧
      (stUp.WifiData.curReqFlags &&& WFLAG_REQ_APADHOC ≠ 0 →
        fc &&& FC_TO_DS = 0 ∧
        txBytes (Wifi_TransmitFunction stUp (fun _ => 0) mbFrame [mbTail]).2.WifiData
            (2 * stUp.WifiData.txbufOut + HDR_TX_SIZE) HDR_DATA_MAC_SIZE
          = le16 fc ++ le16 0 ++ (List.range 6).map (fun i => u8 (mbFrame.datastart i))
              ++ stUp.WifiData.MacAddr.bytes ++ stUp.WifiData.bssid7.bytes ++ le16 0) ∧
      (stUp.WifiData.curReqFlags &&& WFLAG_REQ_APADHOC = 0 →
        fc &&& FC_TO_DS = FC_TO_DS ∧
        txBytes (Wifi_TransmitFunction stUp (fun _ => 0) mbFrame [mbTail]).2.WifiData
            (2 * stUp.WifiData.txbufOut + HDR_TX_SIZE) HDR_DATA_MAC_SIZE
          = le16 fc ++ le16 0 ++ stUp.WifiData.bssid7.bytes ++ stUp.WifiData.MacAddr.bytes
              ++ (List.range 6).map (fun i => u8 (mbFrame.datastart i)) ++ le16 0) :=
  ⟨by decide, by decide, by decide,
    C1_data_frame_addressing stUp (fun _ => 0) mbFrame [mbTail] (by decide) (by decide)
      (by decide)⟩

/-- C3: for every SSID longer than 32 bytes `Wifi_BeaconStart` returns -1 and the whole
state after the call is the state before it: `ssid9`, `txbufOut`, the statistics, the
TX ring and the count of sync-handler invocations are unchanged. -/
theorem C3_beacon_rejects_long_ssid (st : Arm9) (data0 : Nat → Nat) (p : CString) (g : Nat)
    (hlen : strlen p > 32) :
    Wifi_BeaconStart st data0 (some p) g = some (-1, st) := by
  simp [Wifi_BeaconStart, hlen]

/-- Witness of C3: a string of 33 characters is rejected without any change of state. -/
theorem C3_beacon_rejects_long_ssid_witness :
    strlen longSsid > 32 ∧
      Wifi_BeaconStart st0 (fun _ => 0) (some longSsid) 7 = some (-1, st0) :=
  ⟨by decide, C3_beacon_rejects_long_ssid st0 (fun _ => 0) longSsid 7 (by decide)⟩

/-- C9, the code at a successful call: the vendor payload in the ring starts with
00 09 BF 00 and zero stepping offset and sync field, and it has stream code 0,
`extra_data_size` 2 and `beacon_type` 1, but the four bytes of `fixed_id` (payload bytes
8 to 11) are zero, not the documented value `0x00400001`. -/
theorem C9_fixed_id_is_zero :
    ∃ st2 payload,
      Wifi_BeaconStart st0 (fun _ => 0) (some testnet) 0x01020304 = some (0, st2) ∧
      findElement MGT_FIE_ID_VENDOR (ring_beacon_elements st2.WifiData st0.WifiData.txbufOut)
        = some (26, payload) ∧
      payload.take 8 = [0x00, 0x09, 0xBF, 0x00, 0, 0, 0, 0] ∧
      (payload.drop 8).take 4 = [0, 0, 0, 0] ∧
      (payload.drop 16).take 4 = [0, 0, 2, 1] := by
  obtain ⟨st2, h1, h2, -⟩ :=
    beacon_valid st0 (fun _ => 0) testnet 0x01020304 (by decide) (by decide)
  refine ⟨st2, (beacon_fie st0.WifiData 0x01020304).bytes, h1, ?_, by decide, by decide,
    by decide⟩
  rw [h2, findElement_beacon_vendor st0.WifiData testnet _ (by decide) (by decide)]

/-- C10, the code on a full TX ring: with `txbufIn = 100` and `txbufOut = 99` no byte is
available, yet the call returns 0, stores the 100-byte frame (the ring bytes at the old
cursor change), moves `txbufOut` to 149 and counts the packet. -/
theorem C10_beacon_ignores_full_ring :
    Wifi_TxBufferBytesAvailable stFull.WifiData = 0 ∧
      txBytes stFull.WifiData (2 * 99) 12 = [0, 0, 0, 0, 0, 0, 0, 0, 0, 0, 0, 0] ∧
      stFull.WifiData.stats WSTAT_TXQUEUEDPACKETS = 0 ∧
      ∃ st2, Wifi_BeaconStart stFull (fun _ => 0) (some testnet) 7 = some (0, st2) ∧
        txBytes st2.WifiData (2 * 99) 12 = [0, 0, 0, 0, 0, 0, 0, 0, 0x14, 0, 92, 0] ∧
        st2.WifiData.txbufOut = 149 ∧
        st2.WifiData.stats WSTAT_TXQUEUEDPACKETS = 1 ∧
        st2.WifiData.stats WSTAT_TXQUEUEDBYTES = 100 := by
  refine ⟨by decide, by decide, by decide, ?_⟩
  obtain ⟨st2, h1, h2, -, h4, h5, -⟩ := beacon_ring stFull (fun _ => 0) testnet 7 (by decide)
  have hb : (beacon_body stFull.WifiData testnet (strlen testnet) 7).2 = 64 := by
    rw [beacon_body_size]; decide
  refine ⟨st2, h1, ?_, ?_, ?_, ?_⟩
  · have h3 := txBytes_slice _ _ _ 0 HDR_TX_SIZE _ h2 (by omega)
    rw [List.drop_zero, beacon_frame_tx, hb] at h3
    exact h3
  · rw [h4, hb]; decide
  · rw [h5, hb]; decide
  · rw [h5, hb]; decide

/-- C12: for every received frame whose three halfwords behind the hardware RX header and
the 24-byte data header are not 0xAAAA, 0x0003, 0x0000, `Wifi_sgIpHandlePackage` returns
and leaves the state as it is: nothing is handed to `sgIP_Hub_ReceiveHardwarePacket` and
`sgIP_memblock_allocHW` is not called. -/
theorem C12_bad_llc_is_dropped (st : Arm9) (base len : Nat)
    (h : ¬ (Wifi_RxReadHWordOffset st.WifiData
              ((base + (HDR_RX_SIZE + HDR_DATA_MAC_SIZE) / 2) * 2) 0 = 0xAAAA
          ∧ Wifi_RxReadHWordOffset st.WifiData
              ((base + (HDR_RX_SIZE + HDR_DATA_MAC_SIZE) / 2) * 2) 2 = 0x0003
          ∧ Wifi_RxReadHWordOffset st.WifiData
              ((base + (HDR_RX_SIZE + HDR_DATA_MAC_SIZE) / 2) * 2) 4 = 0)) :
    Wifi_sgIpHandlePackage st base len = some st := by
  have h3 : ¬ rx_llc_ok st.WifiData base := h
  unfold Wifi_sgIpHandlePackage
  simp only [h3, not_false_eq_true, if_true]
  split
  · rfl
  split <;> rfl

set_option maxRecDepth 100000 in
/-- Witness of C12: a data frame for the own address whose LLC header starts with 0xAB
is dropped. -/
theorem C12_bad_llc_is_dropped_witness :
    ¬ (Wifi_RxReadHWordOffset stRxBadLlc.WifiData
              ((0 + (HDR_RX_SIZE + HDR_DATA_MAC_SIZE) / 2) * 2) 0 = 0xAAAA
          ∧ Wifi_RxReadHWordOffset stRxBadLlc.WifiData
              ((0 + (HDR_RX_SIZE + HDR_DATA_MAC_SIZE) / 2) * 2) 2 = 0x0003
          ∧ Wifi_RxReadHWordOffset stRxBadLlc.WifiData
              ((0 + (HDR_RX_SIZE + HDR_DATA_MAC_SIZE) / 2) * 2) 4 = 0)
      ∧ Wifi_sgIpHandlePackage stRxBadLlc 0 35 = some stRxBadLlc :=
  ⟨by decide, C12_bad_llc_is_dropped stRxBadLlc 0 35 (by decide)⟩

set_option maxRecDepth 100000 in
/-- C13 as stated fails: the pending frame of `stRx` has type and subtype DATA and the
to-DS bit clear, and it is delivered; the same frame with the to-DS bit set
(`stRxToDS`) is discarded. -/
theorem C13_to_ds_frames_are_the_discarded_ones :
    Wifi_RxReadHWordOffset stRx.WifiData ((0 + HDR_RX_SIZE / 2) * 2) HDR_MGT_FRAME_CONTROL
        &&& FC_TO_DS = 0
      ∧ (Wifi_sgIpHandlePackage stRx 0 35).map (fun s => s.delivered.length)
          = some (stRx.delivered.length + 1)
      ∧ Wifi_RxReadHWordOffset stRxToDS.WifiData ((0 + HDR_RX_SIZE / 2) * 2)
          HDR_MGT_FRAME_CONTROL &&& FC_TO_DS = FC_TO_DS
      ∧ (Wifi_sgIpHandlePackage stRxToDS 0 35).map (fun s => s.delivered.length)
          = some stRxToDS.delivered.length := by
  decide

/-- C13, amended: `Wifi_sgIpHandlePackage` returns and leaves the state as it is (nothing
is delivered, nothing allocated) for every frame whose frame control does not have type
and subtype `TYPE_DATA` with the to-DS bit clear; a frame is delivered only if it is a
data frame that does not go to the DS. -/
theorem C13_only_data_not_to_ds (st : Arm9) (base len : Nat)
    (h : ¬ (Wifi_RxReadHWordOffset st.WifiData ((base + HDR_RX_SIZE / 2) * 2)
              HDR_MGT_FRAME_CONTROL &&& FC_TYPE_SUBTYPE_MASK = TYPE_DATA
          ∧ Wifi_RxReadHWordOffset st.WifiData ((base + HDR_RX_SIZE / 2) * 2)
              HDR_MGT_FRAME_CONTROL &&& FC_TO_DS = 0)) :
    Wifi_sgIpHandlePackage st base len = some st := by
  have h1 : ¬ rx_is_data st.WifiData base := fun hd => h (rx_is_data_bits _ _ hd)
  unfold Wifi_sgIpHandlePackage
  simp only [h1, not_false_eq_true, if_true]

set_option maxRecDepth 100000 in
/-- Witness of C13: the data frame with the to-DS bit set is discarded. -/
theorem C13_only_data_not_to_ds_witness :
    ¬ (Wifi_RxReadHWordOffset stRxToDS.WifiData ((0 + HDR_RX_SIZE / 2) * 2)
              HDR_MGT_FRAME_CONTROL &&& FC_TYPE_SUBTYPE_MASK = TYPE_DATA
          ∧ Wifi_RxReadHWordOffset stRxToDS.WifiData ((0 + HDR_RX_SIZE / 2) * 2)
              HDR_MGT_FRAME_CONTROL &&& FC_TO_DS = 0)
      ∧ Wifi_sgIpHandlePackage stRxToDS 0 35 = some stRxToDS :=
  ⟨by decide, C13_only_data_not_to_ds stRxToDS 0 35 (by decide)⟩

/-- C14: for every frame whose address 1 (the six bytes at offset 4 of the 802.11 header)
is neither the own `MacAddr` nor FF:FF:FF:FF:FF:FF, `Wifi_sgIpHandlePackage` returns and
leaves the state as it is: nothing is delivered and no memory block is allocated.  So a frame is
delivered only if it is addressed to the own address or to the broadcast address. -/
theorem C14_foreign_receiver_is_dropped (st : Arm9) (base len : Nat)
    (h : rxBytes st.WifiData (2 * base + HDR_RX_SIZE + 4) 6 ≠ st.WifiData.MacAddr.bytes
      ∧ rxBytes st.WifiData (2 * base + HDR_RX_SIZE + 4) 6
          ≠ [0xFF, 0xFF, 0xFF, 0xFF, 0xFF, 0xFF]) :
    Wifi_sgIpHandlePackage st base len = some st := by
  have hb : (mac_at (rx_framehdr st.WifiData base) ((HDR_RX_SIZE + 4) / 2)).bytes
      = rxBytes st.WifiData (2 * base + HDR_RX_SIZE + 4) 6 := by
    rw [rx_mac_bytes _ _ _ (by decide)]
    rfl
  have h2 : ¬ (rx_for_us st.WifiData base = true) := by
    intro hf
    simp only [rx_for_us, Bool.or_eq_true] at hf
    rcases hf with hf | hf
    · have e := Wifi_CmpMacAddr_eq _ _ hf
      rw [e] at hb
      exact h.1 hb.symm
    · have e := Wifi_CmpMacAddr_eq _ _ hf
      rw [e] at hb
      exact h.2 hb.symm
  unfold Wifi_sgIpHandlePackage
  simp only [h2, not_false_eq_true, if_true]
  split <;> rfl

set_option maxRecDepth 100000 in
/-- Witness of C14: the data frame for 02:09:BF:12:34:56 is dropped. -/
theorem C14_foreign_receiver_is_dropped_witness :
    (rxBytes stRxOther.WifiData (2 * 0 + HDR_RX_SIZE + 4) 6 ≠ stRxOther.WifiData.MacAddr.bytes
      ∧ rxBytes stRxOther.WifiData (2 * 0 + HDR_RX_SIZE + 4) 6
          ≠ [0xFF, 0xFF, 0xFF, 0xFF, 0xFF, 0xFF])
      ∧ Wifi_sgIpHandlePackage stRxOther 0 35 = some stRxOther :=
  ⟨by decide, C14_foreign_receiver_is_dropped stRxOther 0 35 (by decide)⟩

/-- C15: for every frame of 802.11 length `len ≥ 32` that `Wifi_sgIpHandlePackage` accepts
(the three tests pass and the memory block is allocated), the call returns and the
Ethernet header of the frame handed to the network
stack has as destination address 1 of the 802.11 header (offset 4), as source address 3
(offset 16) when the from-DS bit of the frame control is set and address 2 (offset 10)
otherwise, and as protocol the halfword at bytes 6 and 7 of the LLC header. -/
theorem C15_ethernet_header (st : Arm9) (base len : Nat)
    (h1 : rx_is_data st.WifiData base) (h2 : rx_for_us st.WifiData base = true)
    (h3 : rx_llc_ok st.WifiData base)
    (h4 : st.allocOk st.allocs (SIZEOF_ETH + rx_datalen len) = true)
    (hlen : 32 ≤ len) :
    ∃ st2 pkt, Wifi_sgIpHandlePackage st base len = some st2 ∧
      st2.delivered = st.delivered ++ [pkt] ∧
      pkt.dest_mac.bytes = rxBytes st.WifiData (2 * base + HDR_RX_SIZE + 4) 6 ∧
      pkt.src_mac.bytes = rxBytes st.WifiData (2 * base + HDR_RX_SIZE
        + (if Wifi_RxReadHWordOffset st.WifiData ((base + HDR_RX_SIZE / 2) * 2) 0
              &&& FC_FROM_DS ≠ 0 then 16 else 10)) 6 ∧
      pkt.protocol < 65536 ∧
      le16 pkt.protocol
        = rxBytes st.WifiData (2 * base + HDR_RX_SIZE + HDR_DATA_MAC_SIZE + 6) 2 := by
  refine ⟨_, rx_packet st.WifiData st.heap0 base len,
    sgIpHandlePackage_accept st base len h1 h2 h3 h4 hlen, rfl, ?_, ?_, ?_, ?_⟩
  · simp only [rx_packet, Wifi_CopyMacAddr]
    exact rx_mac_bytes _ _ _ (by decide)
  · simp only [rx_packet]
    split
    · exact rx_mac_bytes _ _ _ (by decide)
    · exact rx_mac_bytes _ _ _ (by decide)
  · simp only [rx_packet, hword]
    omega
  · simp only [rx_packet]
    exact rx_framehdr_le16 _ _ _ (by decide)

set_option maxRecDepth 100000 in
/-- Witness of C15: the pending frame of `stRx` (from-DS bit set) is delivered with
destination 00:09:BF:12:34:56, source A1:A2:A3:A4:A5:A6 and protocol bytes 08 00. -/
theorem C15_ethernet_header_witness :
    rx_is_data stRx.WifiData 0 ∧ rx_for_us stRx.WifiData 0 = true ∧ rx_llc_ok stRx.WifiData 0 ∧
    stRx.allocOk stRx.allocs (SIZEOF_ETH + rx_datalen 35) = true ∧
    32 ≤ 35 ∧
    ∃ st2 pkt, Wifi_sgIpHandlePackage stRx 0 35 = some st2 ∧
      st2.delivered = stRx.delivered ++ [pkt] ∧
      pkt.dest_mac.bytes = [0x00, 0x09, 0xBF, 0x12, 0x34, 0x56] ∧
      pkt.src_mac.bytes = [0xA1, 0xA2, 0xA3, 0xA4, 0xA5, 0xA6] ∧
      pkt.protocol < 65536 ∧
      le16 pkt.protocol = [0x08, 0x00] := by
  obtain ⟨st2, pkt, e0, e1, e2, e3, e4, e5⟩ :=
    C15_ethernet_header stRx 0 35 (by decide) (by decide) (by decide) (by decide) (by decide)
  exact ⟨by decide, by decide, by decide, by decide, by decide, st2, pkt, e0, e1,
    e2.trans (by decide), e3.trans (by decide), e4, e5.trans (by decide)⟩

/-- C16: for every accepted frame of 802.11 length `len ≥ 32` (`len` an `int`), the call
of `Wifi_sgIpHandlePackage` returns and the data handed to the network stack has `len - 32` bytes and these are the `len - 32` bytes of
the RX ring behind the LLC header, with wraparound; for an odd length the last of them
is the low byte of the halfword read at offset `len - 33` behind the LLC header. -/
theorem C16_payload (st : Arm9) (base len : Nat)
    (h1 : rx_is_data st.WifiData base) (h2 : rx_for_us st.WifiData base = true)
    (h3 : rx_llc_ok st.WifiData base)
    (h4 : st.allocOk st.allocs (SIZEOF_ETH + rx_datalen len) = true)
    (hlen : 32 ≤ len) (hint : len < 2147483648) :
    ∃ st2 pkt, Wifi_sgIpHandlePackage st base len = some st2 ∧
      st2.delivered = st.delivered ++ [pkt] ∧
      pkt.payload.length = len - 32 ∧
      pkt.payload
        = rxBytes st.WifiData (2 * base + HDR_RX_SIZE + HDR_DATA_MAC_SIZE + 8) (len - 32) ∧
      (len % 2 = 1 →
        pkt.payload.getD (len - 33) 0
          = Wifi_RxReadHWordOffset st.WifiData
              (rxWrap (base + (HDR_RX_SIZE + HDR_DATA_MAC_SIZE + 8) / 2) * 2) (len - 33)
            % 256) := by
  have hd := rx_datalen_eq len hlen hint
  refine ⟨_, rx_packet st.WifiData st.heap0 base len,
    sgIpHandlePackage_accept st base len h1 h2 h3 h4 hlen, rfl, ?_, ?_, ?_⟩
  · simp only [rx_packet, List.length_map, List.length_range, hd]
  · exact rx_packet_payload _ _ _ _ hlen hint
  · intro ho
    have hlt : len - 33 < (List.range (rx_datalen len)).length := by
      rw [List.length_range, hd]; omega
    have e1 : (len - 32) / 2 * 2 = len - 33 := by omega
    have e2 : len - 32 - 1 = len - 33 := by omega
    have ho2 : len % 2 ≠ 0 := by omega
    simp only [rx_packet]
    rw [List.getD_eq_getElem _ _ (by rw [List.length_map]; exact hlt), List.getElem_map,
      List.getElem_range]
    simp only [rx_data, hd, e1, e2, ho2, ne_eq, not_false_eq_true, if_true, upd,
      and_255_eq_mod, u8, Nat.mod_mod]

set_option maxRecDepth 100000 in
/-- Witness of C16: the pending frame of `stRx` has length 35 and is delivered with the
three data bytes 45 46 47. -/
theorem C16_payload_witness :
    rx_is_data stRx.WifiData 0 ∧ rx_for_us stRx.WifiData 0 = true ∧ rx_llc_ok stRx.WifiData 0 ∧
    stRx.allocOk stRx.allocs (SIZEOF_ETH + rx_datalen 35) = true ∧
    32 ≤ 35 ∧ 35 < 2147483648 ∧
    ∃ st2 pkt, Wifi_sgIpHandlePackage stRx 0 35 = some st2 ∧
      st2.delivered = stRx.delivered ++ [pkt] ∧
      pkt.payload.length = 3 ∧
      pkt.payload = [0x45, 0x46, 0x47] ∧
      pkt.payload.getD 2 0 = 0x47 := by
  obtain ⟨st2, pkt, e0, e1, e2, e3, e4⟩ :=
    C16_payload stRx 0 35 (by decide) (by decide) (by decide) (by decide) (by decide)
      (by decide)
  exact ⟨by decide, by decide, by decide, by decide, by decide, by decide, st2, pkt, e0, e1,
    e2, e3.trans (by decide), (e4 (by decide)).trans (by decide)⟩

set_option maxRecDepth 100000 in
/-- Claim C17, as stated, fails: in the live state `stShort` the pending frame passes the
three tests of `Wifi_sgIpHandlePackage`, the memory block is allocated, and the length in
its hardware RX header is 20, so that `datalen` is 4294967284 and the copy of line 436
runs over the block: the call of `Wifi_Update` does not return within defined
behaviour. -/
theorem C17_short_frame_is_copied_past_the_block :
    stShort.live = true ∧
    stShort.WifiData.rxbufIn < WIFI_RXBUFFER_SIZE / 2 ∧
    stShort.WifiData.rxbufOut < WIFI_RXBUFFER_SIZE / 2 ∧
    rx_len (Wifi_Update_flags stShort).WifiData = 20 ∧
    rx_is_data stShort.WifiData 0 ∧ rx_for_us stShort.WifiData 0 = true ∧
    rx_llc_ok stShort.WifiData 0 ∧
    stShort.allocOk stShort.allocs (SIZEOF_ETH + rx_datalen 20) = true ∧
    rx_datalen 20 = 4294967284 ∧
    Wifi_Update_run stShort = some Outcome.fault ∧
    Wifi_Update stShort = none := by
  refine ⟨?_, ?_, ?_, ?_, ?_, ?_, ?_, ?_, ?_, rfl, rfl⟩ <;> decide

/-- Claim C17, amended: for every state, one call of `Wifi_Update` makes `n ≤ 82` passes
through the body of its loop, each of which consumes one frame.  Either the call returns
after `n` passes, the state after the call is the state after `n` passes and the raw
packet handler has been invoked at most `n` times; or one of the passes hands
`Wifi_sgIpHandlePackage` a frame that passes its three tests, for which the block is
allocated, and whose length is below 32, so that the copy runs past the block.  In
particular the call returns when every frame length that the loop reads is at least
32. -/
theorem C17_update_loop_is_bounded (st : Arm9) :
    (∃ n, n ≤ 82 ∧
      ((∃ st2, Wifi_Update_run st = some (Outcome.ok (st2, n)) ∧
          Wifi_Update_passes n (if st.live then Wifi_Update_flags st else st) = some st2 ∧
          st2.handlerCalls.length ≤ st.handlerCalls.length + n) ∨
        (Wifi_Update_run st = some Outcome.fault ∧
          ∃ k s, k < n ∧
            Wifi_Update_passes k (if st.live then Wifi_Update_flags st else st) = some s ∧
            rx_is_data s.WifiData s.WifiData.rxbufIn ∧
            rx_for_us s.WifiData s.WifiData.rxbufIn = true ∧
            rx_llc_ok s.WifiData s.WifiData.rxbufIn ∧
            s.allocOk s.allocs (SIZEOF_ETH + rx_datalen (rx_len s.WifiData)) = true ∧
            rx_len s.WifiData < 32))) ∧
    ((∀ len ∈ Wifi_Update_lens 82 0 (Wifi_Update_flags st), 32 ≤ len) →
      ∃ st2 n, Wifi_Update_run st = some (Outcome.ok (st2, n)) ∧ n ≤ 82 ∧
        Wifi_Update_passes n (if st.live then Wifi_Update_flags st else st) = some st2 ∧
        st2.handlerCalls.length ≤ st.handlerCalls.length + n) := by
  have key : ∃ n, n ≤ 82 ∧
      ((∃ st2, Wifi_Update_run st = some (Outcome.ok (st2, n)) ∧
          Wifi_Update_passes n (if st.live then Wifi_Update_flags st else st) = some st2 ∧
          st2.handlerCalls.length ≤ st.handlerCalls.length + n) ∨
        (Wifi_Update_run st = some Outcome.fault ∧
          ∃ k s, k < n ∧
            Wifi_Update_passes k (if st.live then Wifi_Update_flags st else st) = some s ∧
            rx_is_data s.WifiData s.WifiData.rxbufIn ∧
            rx_for_us s.WifiData s.WifiData.rxbufIn = true ∧
            rx_llc_ok s.WifiData s.WifiData.rxbufIn ∧
            s.allocOk s.allocs (SIZEOF_ETH + rx_datalen (rx_len s.WifiData)) = true ∧
            rx_len s.WifiData < 32)) := by
    unfold Wifi_Update_run
    by_cases hl : st.live = true
    · obtain ⟨n, hn, e⟩ :=
        Wifi_Update_loop_spec 82 0 (Wifi_Update_flags st) (by omega) (by omega)
      refine ⟨n, by omega, ?_⟩
      simp only [hl, not_true_eq_false, if_false, if_true]
      rw [Nat.zero_add] at e
      rcases e with ⟨st2, e1, e2⟩ | ⟨e1, e2⟩
      · refine Or.inl ⟨st2, e1, e2, ?_⟩
        have h5 := (Wifi_Update_passes_spec n _ _ e2).2.2.2.2
        rw [h5, (Wifi_Update_flags_spec st).2.2.2.1]
        split <;> omega
      · obtain ⟨k, s, hk, e3, e4⟩ := Wifi_Update_passes_none n _ e2
        exact Or.inr ⟨e1, k, s, hk, e3, Wifi_Update_body_none s e4⟩
    · refine ⟨0, by omega, Or.inl ⟨st, ?_, ?_, by omega⟩⟩
      · rw [if_pos hl]
      · rw [if_neg hl]
        rfl
  refine ⟨key, fun hsafe => ?_⟩
  obtain ⟨st3, h3⟩ := Wifi_Update_returns st hsafe
  obtain ⟨m, hm⟩ := (Wifi_Update_eq_some st st3).1 h3
  obtain ⟨n, hn, ⟨st2, e1, e2, e3⟩ | ⟨e1, -⟩⟩ := key
  · exact ⟨st2, n, e1, hn, e2, e3⟩
  · rw [e1] at hm
    cases hm

set_option maxRecDepth 100000 in
/-- Witness of C17: in `stRx` one frame of 35 bytes is pending, and the call returns
after at most 82 passes. -/
theorem C17_update_loop_is_bounded_witness :
    (∀ len ∈ Wifi_Update_lens 82 0 (Wifi_Update_flags stRx), 32 ≤ len) ∧
    ∃ st2 n, Wifi_Update_run stRx = some (Outcome.ok (st2, n)) ∧ n ≤ 82 ∧
      Wifi_Update_passes n (if stRx.live then Wifi_Update_flags stRx else stRx) = some st2 ∧
      st2.handlerCalls.length ≤ stRx.handlerCalls.length + n :=
  ⟨by decide, (C17_update_loop_is_bounded stRx).2 (by decide)⟩

/-- C19: after every call of `Wifi_Update` on a live store that returns, the network-up
flag of `flags9` is set exactly when `authlevel` is `WIFI_AUTHLEVEL_ASSOCIATED`;
`authlevel` is not changed, and of the 32 bits of `flags9` only bit 2
(`WFLAG_ARM9_ARM7READY`) and bit 3 (`WFLAG_ARM9_NETUP`) can change.  The call returns
when every frame length that its loop reads from the RX ring is at least 32. -/
theorem C19_netup_follows_authlevel (st : Arm9) (hlive : st.live = true) :
    WFLAG_ARM9_ARM7READY = 2 ^ 2 ∧ WFLAG_ARM9_NETUP = 2 ^ 3 ∧
    (∀ st2, Wifi_Update st = some st2 →
      (st2.WifiData.flags9 &&& WFLAG_ARM9_NETUP ≠ 0
        ↔ st2.WifiData.authlevel = WIFI_AUTHLEVEL_ASSOCIATED) ∧
      st2.WifiData.authlevel = st.WifiData.authlevel ∧
      (∀ i, i < 32 → i ≠ 2 → i ≠ 3 →
        st2.WifiData.flags9.testBit i = st.WifiData.flags9.testBit i)) ∧
    ((∀ len ∈ Wifi_Update_lens 82 0 (Wifi_Update_flags st), 32 ≤ len) →
      ∃ st2, Wifi_Update st = some st2) := by
  refine ⟨by decide, by decide, fun st2 h => ?_, Wifi_Update_returns st⟩
  obtain ⟨f1, f2, -, -, f5⟩ := Wifi_Update_flags_spec st
  rcases Wifi_Update_some st st2 h with ⟨hl, -⟩ | ⟨-, n, -, e⟩
  · rw [hlive] at hl
    cases hl
  · obtain ⟨g1, g2, -⟩ := Wifi_Update_passes_spec n _ _ e
    refine ⟨?_, ?_, ?_⟩
    · rw [g1, g2, f2]
      exact f1
    · rw [g2, f2]
    · intro i hi h2 h3
      rw [g1]
      exact f5 i hi h2 h3

set_option maxRecDepth 100000 in
/-- Witness of C19: in `stUp` the flag is set although the level is not
`WIFI_AUTHLEVEL_ASSOCIATED`; no frame is pending, the call returns and has cleared the
flag. -/
theorem C19_netup_follows_authlevel_witness :
    stUp.live = true ∧ stUp.WifiData.flags9 &&& WFLAG_ARM9_NETUP ≠ 0 ∧
    stUp.WifiData.authlevel ≠ WIFI_AUTHLEVEL_ASSOCIATED ∧
    (∀ len ∈ Wifi_Update_lens 82 0 (Wifi_Update_flags stUp), 32 ≤ len) ∧
    WFLAG_ARM9_ARM7READY = 2 ^ 2 ∧ WFLAG_ARM9_NETUP = 2 ^ 3 ∧
    ∃ st2, Wifi_Update stUp = some st2 ∧
      (st2.WifiData.flags9 &&& WFLAG_ARM9_NETUP ≠ 0
        ↔ st2.WifiData.authlevel = WIFI_AUTHLEVEL_ASSOCIATED) ∧
      st2.WifiData.authlevel = stUp.WifiData.authlevel ∧
      (∀ i, i < 32 → i ≠ 2 → i ≠ 3 →
        st2.WifiData.flags9.testBit i = stUp.WifiData.flags9.testBit i) := by
  have h := C19_netup_follows_authlevel stUp (by decide)
  obtain ⟨st2, e⟩ := h.2.2.2 (by decide)
  exact ⟨by decide, by decide, by decide, by decide, h.1, h.2.1, st2, e, h.2.2.1 st2 e⟩

/-- C18: when the network-up flag is clear, or when `framelen + 40` exceeds
`Wifi_TxBufferBytesAvailable()` (`framelen` is `totallength - 14 + 8`, plus 4 under WEP),
`Wifi_TransmitFunction` returns 0 and the state after the call differs from the state
before it only in that the memory block has been freed: the TX ring, `txbufOut`, the
statistics and the count of sync-handler invocations are unchanged. -/
theorem C18_transmit_aborts (st : Arm9) (hdr0 : Nat → Nat) (mb : sgIP_memblock)
    (next : List sgIP_memblock)
    (h : st.WifiData.flags9 &&& WFLAG_ARM9_NETUP = 0
      ∨ ((mb.totallength : Int) - 14 + 8 + (if st.WifiData.wepmode7 ≠ 0 then 4 else 0)) + 40
          > (Wifi_TxBufferBytesAvailable st.WifiData : Int)) :
    Wifi_TransmitFunction st hdr0 mb next = (0, { st with freed := st.freed + 1 }) := by
  unfold Wifi_TransmitFunction
  simp only
  by_cases hup : st.WifiData.flags9 &&& WFLAG_ARM9_NETUP = 0
  · rw [if_pos hup]
  · rw [if_neg hup]
    have h2 : tx_framelen st.WifiData mb + 40 > (Wifi_TxBufferBytesAvailable st.WifiData : Int) := by
      rcases h with h | h
      · exact absurd h hup
      · exact h
    rw [if_pos h2]

set_option maxRecDepth 100000 in
/-- Witness of C18: on the full ring of `stFull`, with the network down, the frame is
freed and nothing else happens. -/
theorem C18_transmit_aborts_witness :
    (stFull.WifiData.flags9 &&& WFLAG_ARM9_NETUP = 0
      ∨ ((mbFrame.totallength : Int) - 14 + 8 + (if stFull.WifiData.wepmode7 ≠ 0 then 4 else 0))
          + 40 > (Wifi_TxBufferBytesAvailable stFull.WifiData : Int))
    ∧ Wifi_TransmitFunction stFull (fun _ => 0) mbFrame [mbTail]
        = (0, { stFull with freed := stFull.freed + 1 }) :=
  ⟨by decide, C18_transmit_aborts stFull (fun _ => 0) mbFrame [mbTail] (by decide)⟩

/-- C20: for every frame that `Wifi_TransmitFunction` queues (network up, space check
passed, frame not longer than the TX ring, cursor inside the ring), with
p = `totallength` - 14.  When `wepmode7` is non-zero, the frame control in the ring has
the protected-frame bit set, the header block is 40 bytes whose last 4 bytes (the IV) are
zero, the LLC header follows at byte 40, `tx_length` is 24 + 4 + 8 + p + 4 + 4, and the
cursor ends 2 halfwords behind the halfwords written, these 2 halfwords of the ring being
left as they were.  When `wepmode7` is zero, the protected-frame bit is clear, the header
block is 36 bytes with the LLC header at byte 36, `tx_length` is 24 + 8 + p + 4, and the
cursor ends right behind the halfwords written. -/
theorem C20_wep_layout (st : Arm9) (hdr0 : Nat → Nat) (mb : sgIP_memblock)
    (next : List sgIP_memblock) (hup : st.WifiData.flags9 &&& WFLAG_ARM9_NETUP ≠ 0)
    (hspace : tx_framelen st.WifiData mb + 40 ≤ (Wifi_TxBufferBytesAvailable st.WifiData : Int))
    (hfit : tx_halfwords st.WifiData mb next ≤ WIFI_TXBUFFER_SIZE / 2)
    (hout : st.WifiData.txbufOut < WIFI_TXBUFFER_SIZE / 2) :
    (st.WifiData.wepmode7 ≠ 0 →
      (∃ fc, txBytes (Wifi_TransmitFunction st hdr0 mb next).2.WifiData
            (2 * st.WifiData.txbufOut + HDR_TX_SIZE) 2 = le16 fc ∧
          fc &&& FC_PROTECTED_FRAME = FC_PROTECTED_FRAME) ∧
      tx_hdrlen st.WifiData = 40 ∧
      txBytes (Wifi_TransmitFunction st hdr0 mb next).2.WifiData
          (2 * st.WifiData.txbufOut + 36) 4 = [0, 0, 0, 0] ∧
      txBytes (Wifi_TransmitFunction st hdr0 mb next).2.WifiData
          (2 * st.WifiData.txbufOut + 40) 6 = [0xAA, 0xAA, 0x03, 0, 0, 0] ∧
      (ring_tx_length (Wifi_TransmitFunction st hdr0 mb next).2.WifiData
          st.WifiData.txbufOut : Int)
        = 24 + 4 + 8 + ((mb.totallength : Int) - 14) + 4 + 4 ∧
      (Wifi_TransmitFunction st hdr0 mb next).2.WifiData.txbufOut
        = (st.WifiData.txbufOut + (tx_written_halfwords st.WifiData mb next + 2))
            % (WIFI_TXBUFFER_SIZE / 2) ∧
      ∀ i, i < 2 →
        (Wifi_TransmitFunction st hdr0 mb next).2.WifiData.txbufData
            ((st.WifiData.txbufOut + (tx_written_halfwords st.WifiData mb next + i))
              % (WIFI_TXBUFFER_SIZE / 2))
          = st.WifiData.txbufData
            ((st.WifiData.txbufOut + (tx_written_halfwords st.WifiData mb next + i))
              % (WIFI_TXBUFFER_SIZE / 2))) ∧
    (st.WifiData.wepmode7 = 0 →
      (∃ fc, txBytes (Wifi_TransmitFunction st hdr0 mb next).2.WifiData
            (2 * st.WifiData.txbufOut + HDR_TX_SIZE) 2 = le16 fc ∧
          fc &&& FC_PROTECTED_FRAME = 0) ∧
      tx_hdrlen st.WifiData = 36 ∧
      txBytes (Wifi_TransmitFunction st hdr0 mb next).2.WifiData
          (2 * st.WifiData.txbufOut + 36) 6 = [0xAA, 0xAA, 0x03, 0, 0, 0] ∧
      (ring_tx_length (Wifi_TransmitFunction st hdr0 mb next).2.WifiData
          st.WifiData.txbufOut : Int)
        = 24 + 8 + ((mb.totallength : Int) - 14) + 4 ∧
      (Wifi_TransmitFunction st hdr0 mb next).2.WifiData.txbufOut
        = (st.WifiData.txbufOut + tx_written_halfwords st.WifiData mb next)
            % (WIFI_TXBUFFER_SIZE / 2)) := by
  have hfc := transmit_frame_control st hdr0 mb next hup hspace hfit
  have hllc := transmit_llc_prefix st hdr0 mb next hup hspace hfit
  have hlen := transmit_tx_length st hdr0 mb next hup hspace hfit
  have hcur := transmit_cursor_eq st hdr0 mb next hup hspace hfit hout
  have hfit2 := hfit
  rw [tx_halfwords_eq] at hcur hfit
  constructor
  · intro hwep
    have hh : tx_hdrlen st.WifiData = 40 := by
      unfold tx_hdrlen
      rw [if_pos hwep]
      rfl
    rw [hh] at hllc hlen
    rw [if_pos hwep] at hcur hfit
    refine ⟨⟨_, hfc, ?_⟩, hh, transmit_iv st hdr0 mb next hup hspace hfit2 hwep, hllc, ?_,
      hcur, ?_⟩
    · rw [tx_ieee_frame_control]
      simp only [if_pos hwep]
      split <;> decide
    · rw [hlen]
      unfold tx_framelen SIZEOF_ETH HDR_TX_SIZE
      rw [if_pos hwep]
      omega
    · intro i hi
      exact transmit_untouched st hdr0 mb next hup hspace hfit2 _ (by omega) (by omega)
  · intro hwep
    have hn : ¬ (st.WifiData.wepmode7 ≠ 0) := fun h => h hwep
    have hh : tx_hdrlen st.WifiData = 36 := by
      unfold tx_hdrlen
      rw [if_neg hn]
      rfl
    rw [hh] at hllc hlen
    rw [if_neg hn] at hcur
    refine ⟨⟨_, hfc, ?_⟩, hh, hllc, ?_, hcur⟩
    · rw [tx_ieee_frame_control]
      simp only [if_neg hn]
      split <;> decide
    · rw [hlen]
      unfold tx_framelen SIZEOF_ETH HDR_TX_SIZE
      rw [if_neg hn]
      omega

set_option maxRecDepth 100000 in
/-- Witness for C20: the chain `mbFrame`, `mbTail` (19 bytes, p = 5) queued with WEP on
in the state `stWep`, whose cursor is eight halfwords before the end of the ring. -/
theorem C20_wep_layout_witness :
    stWep.WifiData.flags9 &&& WFLAG_ARM9_NETUP ≠ 0 ∧
    tx_framelen stWep.WifiData mbFrame + 40
      ≤ (Wifi_TxBufferBytesAvailable stWep.WifiData : Int) ∧
    tx_halfwords stWep.WifiData mbFrame [mbTail] ≤ WIFI_TXBUFFER_SIZE / 2 ∧
    stWep.WifiData.txbufOut < WIFI_TXBUFFER_SIZE / 2 ∧
    stWep.WifiData.wepmode7 ≠ 0 ∧
    ((stWep.WifiData.wepmode7 ≠ 0 →
      (∃ fc, txBytes (Wifi_TransmitFunction stWep (fun _ => 0) mbFrame [mbTail]).2.WifiData
            (2 * stWep.WifiData.txbufOut + HDR_TX_SIZE) 2 = le16 fc ∧
          fc &&& FC_PROTECTED_FRAME = FC_PROTECTED_FRAME) ∧
      tx_hdrlen stWep.WifiData = 40 ∧
      txBytes (Wifi_TransmitFunction stWep (fun _ => 0) mbFrame [mbTail]).2.WifiData
          (2 * stWep.WifiData.txbufOut + 36) 4 = [0, 0, 0, 0] ∧
      txBytes (Wifi_TransmitFunction stWep (fun _ => 0) mbFrame [mbTail]).2.WifiData
          (2 * stWep.WifiData.txbufOut + 40) 6 = [0xAA, 0xAA, 0x03, 0, 0, 0] ∧
      (ring_tx_length (Wifi_TransmitFunction stWep (fun _ => 0) mbFrame [mbTail]).2.WifiData
          stWep.WifiData.txbufOut : Int)
        = 24 + 4 + 8 + ((mbFrame.totallength : Int) - 14) + 4 + 4 ∧
      (Wifi_TransmitFunction stWep (fun _ => 0) mbFrame [mbTail]).2.WifiData.txbufOut
        = (stWep.WifiData.txbufOut + (tx_written_halfwords stWep.WifiData mbFrame [mbTail] + 2))
            % (WIFI_TXBUFFER_SIZE / 2) ∧
      ∀ i, i < 2 →
        (Wifi_TransmitFunction stWep (fun _ => 0) mbFrame [mbTail]).2.WifiData.txbufData
            ((stWep.WifiData.txbufOut + (tx_written_halfwords stWep.WifiData mbFrame [mbTail] + i))
              % (WIFI_TXBUFFER_SIZE / 2))
          = stWep.WifiData.txbufData
            ((stWep.WifiData.txbufOut + (tx_written_halfwords stWep.WifiData mbFrame [mbTail] + i))
              % (WIFI_TXBUFFER_SIZE / 2))) ∧
    (stWep.WifiData.wepmode7 = 0 →
      (∃ fc, txBytes (Wifi_TransmitFunction stWep (fun _ => 0) mbFrame [mbTail]).2.WifiData
            (2 * stWep.WifiData.txbufOut + HDR_TX_SIZE) 2 = le16 fc ∧
          fc &&& FC_PROTECTED_FRAME = 0) ∧
      tx_hdrlen stWep.WifiData = 36 ∧
      txBytes (Wifi_TransmitFunction stWep (fun _ => 0) mbFrame [mbTail]).2.WifiData
          (2 * stWep.WifiData.txbufOut + 36) 6 = [0xAA, 0xAA, 0x03, 0, 0, 0] ∧
      (ring_tx_length (Wifi_TransmitFunction stWep (fun _ => 0) mbFrame [mbTail]).2.WifiData
          stWep.WifiData.txbufOut : Int)
        = 24 + 8 + ((mbFrame.totallength : Int) - 14) + 4 ∧
      (Wifi_TransmitFunction stWep (fun _ => 0) mbFrame [mbTail]).2.WifiData.txbufOut
        = (stWep.WifiData.txbufOut + tx_written_halfwords stWep.WifiData mbFrame [mbTail])
            % (WIFI_TXBUFFER_SIZE / 2))) :=
  ⟨by decide, by decide, by decide, by decide, by decide,
    C20_wep_layout stWep (fun _ => 0) mbFrame [mbTail] (by decide) (by decide) (by decide)
      (by decide)⟩

/-- C22: both definitions of `Wifi_SetChannel` validate the request.  For a channel
outside 1..13 the structure is left unchanged whatever the mode; for a channel in 1..13
no field other than `reqChannel` changes, `reqChannel` becomes the channel when `reqMode`
is `WIFIMODE_NORMAL` and is left unchanged when `reqMode` is `WIFIMODE_DISABLED`. -/
theorem C22_set_channel_validates (w : Wifi_MainStruct) (channel : Int) :
    (channel < 1 ∨ channel > 13 →
      Wifi_SetChannel_arm9 w channel = w ∧ Wifi_SetChannel_ipc w channel = w) ∧
    (1 ≤ channel ∧ channel ≤ 13 →
      Wifi_SetChannel_arm9 w channel
        = { w with reqChannel := (Wifi_SetChannel_arm9 w channel).reqChannel } ∧
      Wifi_SetChannel_ipc w channel
        = { w with reqChannel := (Wifi_SetChannel_ipc w channel).reqChannel } ∧
      (w.reqMode = WIFIMODE_NORMAL →
        ((Wifi_SetChannel_arm9 w channel).reqChannel : Int) = channel ∧
        ((Wifi_SetChannel_ipc w channel).reqChannel : Int) = channel) ∧
      (w.reqMode = WIFIMODE_DISABLED →
        (Wifi_SetChannel_arm9 w channel).reqChannel = w.reqChannel ∧
        (Wifi_SetChannel_ipc w channel).reqChannel = w.reqChannel)) := by
  constructor
  · intro h
    unfold Wifi_SetChannel_arm9 Wifi_SetChannel_ipc
    rw [if_pos h, if_pos h]
    exact ⟨rfl, rfl⟩
  · intro h
    have hr : ¬ (channel < 1 ∨ channel > 13) := by omega
    refine ⟨Wifi_SetChannel_arm9_fields w channel, Wifi_SetChannel_ipc_fields w channel, ?_, ?_⟩
    · intro hm
      unfold Wifi_SetChannel_arm9 Wifi_SetChannel_ipc
      rw [if_neg hr, if_neg hr, if_pos (Or.inl hm), if_pos hm]
      constructor <;> exact Int.toNat_of_nonneg (by omega)
    · intro hm
      have h1 : ¬ (w.reqMode = WIFIMODE_NORMAL ∨ w.reqMode = WIFIMODE_SCAN) := by
        rw [hm]
        decide
      have h2 : ¬ (w.reqMode = WIFIMODE_NORMAL) := fun e => h1 (Or.inl e)
      unfold Wifi_SetChannel_arm9 Wifi_SetChannel_ipc
      rw [if_neg hr, if_neg hr, if_neg h1, if_neg h2]
      exact ⟨rfl, rfl⟩

/-- Witness for C22: channel 6 requested in normal mode (`wNormal`) is stored by both
definitions. -/
theorem C22_set_channel_validates_witness :
    ((1 : Int) ≤ 6 ∧ (6 : Int) ≤ 13) ∧ wNormal.reqMode = WIFIMODE_NORMAL ∧
    ((Wifi_SetChannel_arm9 wNormal 6).reqChannel : Int) = 6 ∧
    ((Wifi_SetChannel_ipc wNormal 6).reqChannel : Int) = 6 :=
  ⟨by decide, by decide,
    ((C22_set_channel_validates wNormal 6).2 (by decide)).2.2.1 (by decide)⟩

/-- C23: `Wifi_Init` returns 0 exactly when nothing is allocated yet and `malloc` returns
NULL, and then leaves the whole state, `WifiData` included, as it was.  Otherwise it
returns the non-zero pointer `Wifi_Data_Struct`, `WifiData` is not NULL, and whatever the
structure held before, every field is zero afterwards except `flags9`, which is
`WFLAG_ARM9_ACTIVE | (initflags & WFLAG_ARM9_INITFLAGMASK)`. -/
theorem C23_init_clears_the_store (st : Arm9) (initflags : Int) (fresh : Nat) :
    ((Wifi_Init st initflags fresh).1 = 0 ↔ (st.Wifi_Data_Struct = 0 ∧ fresh = 0)) ∧
    ((Wifi_Init st initflags fresh).1 = 0 → (Wifi_Init st initflags fresh).2 = st) ∧
    ((Wifi_Init st initflags fresh).1 ≠ 0 →
      (Wifi_Init st initflags fresh).1 = (Wifi_Init st initflags fresh).2.Wifi_Data_Struct ∧
      (Wifi_Init st initflags fresh).2.live = true ∧
      (Wifi_Init st initflags fresh).2.WifiData
        = { Wifi_MainStruct.zero with
            flags9 := WFLAG_ARM9_ACTIVE ||| (u32i initflags &&& WFLAG_ARM9_INITFLAGMASK) }) :=
  Wifi_Init_spec st initflags fresh

/-- Witness for C23: a re-initialisation of the used store `stUp` with `initflags = 2`
returns the pointer 0x02100000 and leaves the cleared structure with `flags9 = 3`. -/
theorem C23_init_clears_the_store_witness :
    (Wifi_Init stUp 2 0).1 ≠ 0 ∧
    ((Wifi_Init stUp 2 0).1 = (Wifi_Init stUp 2 0).2.Wifi_Data_Struct ∧
      (Wifi_Init stUp 2 0).2.live = true ∧
      (Wifi_Init stUp 2 0).2.WifiData
        = { Wifi_MainStruct.zero with
            flags9 := WFLAG_ARM9_ACTIVE ||| (u32i 2 &&& WFLAG_ARM9_INITFLAGMASK) }) :=
  ⟨by decide, (C23_init_clears_the_store stUp 2 0).2.2 (by decide)⟩

/-- C26 fails on the code: in scan mode (`wScan`, channel 1 requested) the definition of
`Wifi_SetChannel` in `wifi_arm9.c` stores channel 6 and the definition in `ipc.c` leaves
`reqChannel` at 1, so the two definitions give different states. -/
theorem C26_set_channel_definitions_differ :
    wScan.reqMode = WIFIMODE_SCAN ∧
    (Wifi_SetChannel_arm9 wScan 6).reqChannel = 6 ∧
    (Wifi_SetChannel_ipc wScan 6).reqChannel = 1 ∧
    Wifi_SetChannel_arm9 wScan 6 ≠ Wifi_SetChannel_ipc wScan 6 := by
  refine ⟨by decide, by decide, by decide, ?_⟩
  intro h
  have h2 := congrArg Wifi_MainStruct.reqChannel h
  revert h2
  decide

/-- C24: in every state that can be reached from a successful `Wifi_Init` through the
operations of the host side and through writes of the hardware side that leave `flags9`
alone (writes to `flags7` among them), a non-zero result of `Wifi_CheckInit` means that
`flags7` has `WFLAG_ARM7_ACTIVE` and `flags9` has `WFLAG_ARM9_ACTIVE`; and whenever
`WifiData` is NULL, `Wifi_CheckInit` returns 0. -/
theorem C24_check_init_means_both_active (st : Arm9) :
    (Reachable st → Wifi_CheckInit st ≠ 0 →
      st.WifiData.flags7 &&& WFLAG_ARM7_ACTIVE ≠ 0 ∧
      st.WifiData.flags9 &&& WFLAG_ARM9_ACTIVE ≠ 0) ∧
    (st.live = false → Wifi_CheckInit st = 0) := by
  constructor
  · intro hr hc
    refine ⟨(Wifi_CheckInit_ready st hc).2.1, ?_⟩
    exact (and_two_pow_ne_zero st.WifiData.flags9 0).mpr (Reachable_active st hr).2
  · intro hl
    unfold Wifi_CheckInit
    rw [if_pos (by simp [hl])]

set_option maxRecDepth 100000 in
/-- Witness for C24: `stReady` is reached by `Wifi_Init` from the boot state, a write of
`WFLAG_ARM7_ACTIVE` to `flags7` by the hardware side and one call of `Wifi_Update`; there
`Wifi_CheckInit` returns 1. -/
theorem C24_check_init_means_both_active_witness :
    Reachable stReady ∧ Wifi_CheckInit stReady ≠ 0 ∧
    (stReady.WifiData.flags7 &&& WFLAG_ARM7_ACTIVE ≠ 0 ∧
      stReady.WifiData.flags9 &&& WFLAG_ARM9_ACTIVE ≠ 0) :=
  have hr : Reachable stReady :=
    Reachable.update stActive stReady
      (Reachable.hardware stInit { stInit.WifiData with flags7 := WFLAG_ARM7_ACTIVE }
        (Reachable.init stBoot 2 0x02100000 (by decide)) rfl)
      (by rfl)
  ⟨hr, by decide, (C24_check_init_means_both_active stReady).1 hr (by decide)⟩

/-- C21: for every frame that `Wifi_TransmitFunction` queues (network up, space check
passed, frame not longer than the TX ring), the header block in the ring is the hardware
TX header, the 802.11 header and, under WEP, the IV; the 8 bytes right behind it are
`AA AA 03 00 00 00` and the two bytes of the Ethernet protocol field; the payload of the
first block follows right behind these.  A received frame that carries these 8 bytes
behind its data header passes the LLC test of `Wifi_sgIpHandlePackage`, and the
protocol field of the frame handed to the network stack is that of the sender. -/
theorem C21_llc_header (st : Arm9) (hdr0 : Nat → Nat) (mb : sgIP_memblock)
    (next : List sgIP_memblock) (hup : st.WifiData.flags9 &&& WFLAG_ARM9_NETUP ≠ 0)
    (hspace : tx_framelen st.WifiData mb + 40 ≤ (Wifi_TxBufferBytesAvailable st.WifiData : Int))
    (hfit : tx_halfwords st.WifiData mb next ≤ WIFI_TXBUFFER_SIZE / 2) :
    tx_hdrlen st.WifiData
      = HDR_TX_SIZE + HDR_DATA_MAC_SIZE + (if st.WifiData.wepmode7 ≠ 0 then 4 else 0) ∧
    txBytes (Wifi_TransmitFunction st hdr0 mb next).2.WifiData
        (2 * st.WifiData.txbufOut + tx_hdrlen st.WifiData) 8
      = [0xAA, 0xAA, 0x03, 0x00, 0x00, 0x00, u8 (mb.datastart 12), u8 (mb.datastart 13)] ∧
    txBytes (Wifi_TransmitFunction st hdr0 mb next).2.WifiData
        (2 * st.WifiData.txbufOut + (tx_hdrlen st.WifiData + 8)) (mb.thislength - SIZEOF_ETH)
      = (List.range (mb.thislength - SIZEOF_ETH)).map
          (fun j => u8 (mb.datastart (SIZEOF_ETH + j))) ∧
    ∀ (w2 : Wifi_MainStruct) (heap0 : Nat → Nat) (base len : Nat),
      rxBytes w2 (2 * base + (HDR_RX_SIZE + HDR_DATA_MAC_SIZE)) 8
        = txBytes (Wifi_TransmitFunction st hdr0 mb next).2.WifiData
            (2 * st.WifiData.txbufOut + tx_hdrlen st.WifiData) 8 →
      rx_llc_ok w2 base ∧ (rx_packet w2 heap0 base len).protocol = eth_protocol mb := by
  have hllc := transmit_llc st hdr0 mb next hup hspace hfit
  refine ⟨rfl, ?_, transmit_payload st hdr0 mb next hup hspace hfit, ?_⟩
  · rw [hllc]
    have hb : le16 0xAAAA ++ le16 0x0003 ++ le16 0x0000 ++ le16 (eth_protocol mb)
        = [170, 170, 3, 0, 0, 0] ++ le16 (eth_protocol mb) := rfl
    rw [hb, eth_protocol_bytes]
    rfl
  · intro w2 heap0 base len h
    rw [hllc] at h
    exact rx_llc_of_bytes w2 heap0 base len (eth_protocol mb) (eth_protocol_lt mb) h

set_option maxRecDepth 100000 in
/-- Witness for C21: the chain `mbFrame`, `mbTail` queued in the state `stUp`; the LLC
header it leaves in the TX ring is the one of the received frame of `stRx`, which passes
the LLC test and is delivered with protocol 0x0008 (bytes 08 00). -/
theorem C21_llc_header_witness :
    stUp.WifiData.flags9 &&& WFLAG_ARM9_NETUP ≠ 0 ∧
    tx_framelen stUp.WifiData mbFrame + 40 ≤ (Wifi_TxBufferBytesAvailable stUp.WifiData : Int) ∧
    tx_halfwords stUp.WifiData mbFrame [mbTail] ≤ WIFI_TXBUFFER_SIZE / 2 ∧
    txBytes (Wifi_TransmitFunction stUp (fun _ => 0) mbFrame [mbTail]).2.WifiData
        (2 * stUp.WifiData.txbufOut + tx_hdrlen stUp.WifiData) 8
      = [0xAA, 0xAA, 0x03, 0x00, 0x00, 0x00, 0x08, 0x00] ∧
    txBytes (Wifi_TransmitFunction stUp (fun _ => 0) mbFrame [mbTail]).2.WifiData
        (2 * stUp.WifiData.txbufOut + (tx_hdrlen stUp.WifiData + 8)) 3
      = [0x45, 0x46, 0x47] ∧
    rx_llc_ok stRx.WifiData 0 ∧
    (rx_packet stRx.WifiData (fun _ => 0) 0 35).protocol = eth_protocol mbFrame :=
  have h := C21_llc_header stUp (fun _ => 0) mbFrame [mbTail] (by decide) (by decide)
    (by decide)
  ⟨by decide, by decide, by decide, h.2.1, h.2.2.1,
    h.2.2.2 stRx.WifiData (fun _ => 0) 0 35 (h.2.1.trans (by decide)).symm⟩

set_option maxRecDepth 100000 in
/-- C25 as stated fails for an odd-length block under WEP: the chain `mbFrame`, `mbTail`
(blocks of 17 and 2 bytes, `totallength` 19) passes the space check in the state `stWep`
with `framelen + 40 = 57`, and the call moves `txbufOut` from 12280 to 21, which is 29
halfwords or 58 ring bytes. -/
theorem C25_odd_block_exceeds_the_check :
    stWep.WifiData.flags9 &&& WFLAG_ARM9_NETUP ≠ 0 ∧
    tx_framelen stWep.WifiData mbFrame + 40
      ≤ (Wifi_TxBufferBytesAvailable stWep.WifiData : Int) ∧
    SIZEOF_ETH ≤ mbFrame.thislength ∧
    mbFrame.thislength + mbTail.thislength = mbFrame.totallength ∧
    stWep.WifiData.txbufOut = 12280 ∧
    (Wifi_TransmitFunction stWep (fun _ => 0) mbFrame [mbTail]).2.WifiData.txbufOut = 21 ∧
    (12280 + 29) % (WIFI_TXBUFFER_SIZE / 2) = 21 ∧
    tx_framelen stWep.WifiData mbFrame + 40 = 57 ∧
    ¬ ((2 * 29 : Int) ≤ tx_framelen stWep.WifiData mbFrame + 40) := by
  decide

/-- C25, amended: for every chain whose first block holds the 14-byte Ethernet header,
whose block lengths add up to `totallength`, and which has no block of odd length under
WEP and at most four without WEP, a call of `Wifi_TransmitFunction` that passes the
space check (network up, cursor inside the ring) advances `txbufOut` by `tx_halfwords`
halfwords, fewer than the ring has; twice that number is `framelen` plus 40 (WEP) or 36
(no WEP) plus one byte per odd-length block, and so at most `framelen + 40`. -/
theorem C25_space_check_covers_the_write (st : Arm9) (hdr0 : Nat → Nat) (mb : sgIP_memblock)
    (next : List sgIP_memblock)
    (hup : st.WifiData.flags9 &&& WFLAG_ARM9_NETUP ≠ 0)
    (hspace : tx_framelen st.WifiData mb + 40 ≤ (Wifi_TxBufferBytesAvailable st.WifiData : Int))
    (hout : st.WifiData.txbufOut < WIFI_TXBUFFER_SIZE / 2)
    (h14 : SIZEOF_ETH ≤ mb.thislength)
    (hsum : mb.thislength + (next.map (fun m => m.thislength)).sum = mb.totallength)
    (hodd : tx_odd_blocks mb next ≤ (if st.WifiData.wepmode7 ≠ 0 then 0 else 4)) :
    (Wifi_TransmitFunction st hdr0 mb next).2.WifiData.txbufOut
      = (st.WifiData.txbufOut + tx_halfwords st.WifiData mb next) % (WIFI_TXBUFFER_SIZE / 2) ∧
    tx_halfwords st.WifiData mb next < WIFI_TXBUFFER_SIZE / 2 ∧
    ((2 * tx_halfwords st.WifiData mb next : Nat) : Int)
      = tx_framelen st.WifiData mb + (if st.WifiData.wepmode7 ≠ 0 then 40 else 36)
          + tx_odd_blocks mb next ∧
    ((2 * tx_halfwords st.WifiData mb next : Nat) : Int) ≤ tx_framelen st.WifiData mb + 40 := by
  have hb := tx_halfwords_bytes st.WifiData mb next h14 hsum
  have ha := Wifi_TxBufferBytesAvailable_le st.WifiData
  have hc := cap_eq
  have hle : ((2 * tx_halfwords st.WifiData mb next : Nat) : Int)
      ≤ tx_framelen st.WifiData mb + 40 := by
    rw [hb]
    split at hodd <;> omega
  have hlt : tx_halfwords st.WifiData mb next < WIFI_TXBUFFER_SIZE / 2 := by omega
  exact ⟨transmit_cursor_eq st hdr0 mb next hup hspace (by omega) hout, hlt, hb, hle⟩

set_option maxRecDepth 100000 in
/-- Witness for C25: the chain `mbFrame`, `mbTail` (one odd-length block) queued without
WEP in the state `stUp`. -/
theorem C25_space_check_covers_the_write_witness :
    (stUp.WifiData.flags9 &&& WFLAG_ARM9_NETUP ≠ 0) ∧
    (tx_framelen stUp.WifiData mbFrame + 40 ≤ (Wifi_TxBufferBytesAvailable stUp.WifiData : Int)) ∧
    (stUp.WifiData.txbufOut < WIFI_TXBUFFER_SIZE / 2) ∧
    (SIZEOF_ETH ≤ mbFrame.thislength) ∧
    (mbFrame.thislength + ([mbTail].map (fun m => m.thislength)).sum = mbFrame.totallength) ∧
    (tx_odd_blocks mbFrame [mbTail] ≤ (if stUp.WifiData.wepmode7 ≠ 0 then 0 else 4)) ∧
    ((Wifi_TransmitFunction stUp (fun _ => 0) mbFrame [mbTail]).2.WifiData.txbufOut
      = (stUp.WifiData.txbufOut + tx_halfwords stUp.WifiData mbFrame [mbTail]) % (WIFI_TXBUFFER_SIZE / 2) ∧
    tx_halfwords stUp.WifiData mbFrame [mbTail] < WIFI_TXBUFFER_SIZE / 2 ∧
    ((2 * tx_halfwords stUp.WifiData mbFrame [mbTail] : Nat) : Int)
      = tx_framelen stUp.WifiData mbFrame + (if stUp.WifiData.wepmode7 ≠ 0 then 40 else 36)
          + tx_odd_blocks mbFrame [mbTail] ∧
    ((2 * tx_halfwords stUp.WifiData mbFrame [mbTail] : Nat) : Int) ≤ tx_framelen stUp.WifiData mbFrame + 40) :=
  ⟨by decide, by decide, by decide, by decide, by decide, by decide,
    C25_space_check_covers_the_write stUp (fun _ => 0) mbFrame [mbTail] (by decide) (by decide)
      (by decide) (by decide) (by decide) (by decide)⟩

set_option maxRecDepth 100000 in
/-- C27 fails on the code: with the NULL pointer the loop of line 50 reads through the
pointer, although `ssid_len` was set to 0 for it; and with `"TESTNET"` (terminator at
index 7, followed in memory by bytes `0xEE`) the call returns 0 and leaves `ssid9[0] = 7`
and the seven characters behind it, but also `ssid9[8]` and `ssid9[33]` equal to the
bytes `ssid[8]` and `ssid[33]` that lie behind the terminator. -/
theorem C27_beacon_reads_outside_the_string :
    Wifi_BeaconStart st0 (fun _ => 0) none 7 = none ∧
    strlen testnet = 7 ∧ testnet.get 7 = 0 ∧ testnet.get 8 = 0xEE ∧ testnet.get 33 = 0xEE ∧
    (Wifi_BeaconStart st0 (fun _ => 0) (some testnet) 7).map
        (fun r => (r.1, (List.range 9).map r.2.WifiData.ssid9, r.2.WifiData.ssid9 33))
      = some (0, [7, 84, 69, 83, 84, 78, 69, 84, 0xEE], 0xEE) := by
  refine ⟨rfl, ?_, ?_, ?_, ?_, ?_⟩ <;> decide

end DSWifi
